import Mathlib

/-!
# vlock: configuration resolver

A shallow embedding of `src/config.go` (package `vlock`): the `Config` record, the
INI-style file parser (`loadFromFile`, `setConfigValue`), the environment overlay
(`loadFromEnv`), validation (`Validate`) and the resolver `LoadConfig`.

Go strings are modelled as Lean `String`s (sequences of Unicode code points; the
configuration text is UTF-8).  Go `int` is the 64-bit signed integer, modelled as
`Int` together with the range test that `strconv.Atoi` performs.  The operating
system (file status, file content, environment variables) is an explicit value of
type `OS`; the Unicode case tables of the Go runtime are an explicit value of type
`CaseTables`.

The file also embeds the error taxonomy (`src/pkg/vlock/errors.go`), the resolver of
`src/pkg/config/config.go`, and the client of `src/pkg/vlock/voltage.go` with the mock
backend of `src/pkg/vlock/voltage_mock.go`: each lifecycle operation is a function from
the client, the backend state and the clock reading to the returned error, the client
and the backend state after the call.
-/

namespace Vlock

/-! ## Go runtime: package `unicode`, `strings`, `strconv` -/

/-- Go `unicode.IsSpace`: the Unicode White_Space property. In Latin-1 these are
tab, line feed, vertical tab, form feed, carriage return, space, U+0085 and U+00A0. -/
def IsSpace (r : Char) : Bool :=
  let n := r.toNat
  if n ≤ 0xFF then
    n == 0x09 || n == 0x0A || n == 0x0B || n == 0x0C || n == 0x0D || n == 0x20
      || n == 0x85 || n == 0xA0
  else
    n == 0x1680 || (0x2000 ≤ n && n ≤ 0x200A) || n == 0x2028 || n == 0x2029
      || n == 0x202F || n == 0x205F || n == 0x3000

/-- The case mappings of Go package `unicode` for code points above ASCII
(`unicode.ToUpper`, `unicode.ToLower` restricted to `r > MaxASCII`); the tables
themselves belong to the Go runtime and are taken as a parameter. -/
structure CaseTables where
  upper : Char → Char
  lower : Char → Char

/-- Go `unicode.ToUpper`: ASCII letters are shifted, other code points use the table. -/
def toUpperRune (u : CaseTables) (r : Char) : Char :=
  if r.toNat < 0x80 then
    (if 0x61 ≤ r.toNat ∧ r.toNat ≤ 0x7A then Char.ofNat (r.toNat - 0x20) else r)
  else u.upper r

/-- Go `unicode.ToLower`: ASCII letters are shifted, other code points use the table. -/
def toLowerRune (u : CaseTables) (r : Char) : Char :=
  if r.toNat < 0x80 then
    (if 0x41 ≤ r.toNat ∧ r.toNat ≤ 0x5A then Char.ofNat (r.toNat + 0x20) else r)
  else u.lower r

/-- Go `strings.ToUpper`. -/
def ToUpper (u : CaseTables) (s : String) : String :=
  ⟨s.data.map (toUpperRune u)⟩

/-- Go `strings.ToLower`. -/
def ToLower (u : CaseTables) (s : String) : String :=
  ⟨s.data.map (toLowerRune u)⟩

/-- Go `strings.TrimSpace`: drop leading and trailing white space. -/
def TrimSpace (s : String) : String :=
  ⟨(s.data.dropWhile IsSpace).rdropWhile IsSpace⟩

/-- Go `strings.HasPrefix`. -/
def HasPrefix (s pre : String) : Bool :=
  pre.data.isPrefixOf s.data

/-- Go `strings.HasSuffix`. -/
def HasSuffix (s suf : String) : Bool :=
  suf.data.isSuffixOf s.data

/-- The pieces of a character sequence between the occurrences of `sep`
(there is always at least one piece). -/
def splitChars (sep : Char) : List Char → List (List Char)
  | [] => [[]]
  | c :: cs =>
    if c = sep then [] :: splitChars sep cs
    else
      match splitChars sep cs with
      | [] => [[c]]
      | l :: ls => (c :: l) :: ls

/-- Go `strings.Split(s, sep)` for a one-character separator. -/
def Split (s : String) (sep : Char) : List String :=
  (splitChars sep s.data).map String.mk

/-- Go `strings.SplitN(s, sep, 2)` for a one-character separator: the text before
the first `sep` and the text after it, or `s` alone when `sep` does not occur. -/
def SplitN2 (s : String) (sep : Char) : List String :=
  match s.data.dropWhile (fun c => c != sep) with
  | [] => [s]
  | _ :: rest => [⟨s.data.takeWhile (fun c => c != sep)⟩, ⟨rest⟩]

/-- Go `strings.Join`. -/
def Join : List String → String → String
  | [], _ => ""
  | [a], _ => a
  | a :: b :: rest, sep => a ++ sep ++ Join (b :: rest) sep

/-- The value of a run of ASCII decimal digits, most significant first, continuing
from `acc`; `none` when a character is not a digit. -/
def parseDigits : List Char → Nat → Option Nat
  | [], acc => some acc
  | c :: cs, acc =>
    if 0x30 ≤ c.toNat ∧ c.toNat ≤ 0x39 then parseDigits cs (acc * 10 + (c.toNat - 0x30))
    else none

/-- Go `strconv.Atoi` on a 64-bit target: an optional sign, at least one decimal
digit, and a value within the range of `int`; `none` stands for a non-nil error. -/
def Atoi (s : String) : Option Int :=
  match s.data with
  | [] => none
  | c :: cs =>
    let neg := c == '-'
    let digits := if c == '-' || c == '+' then cs else c :: cs
    match digits with
    | [] => none
    | d :: ds =>
      match parseDigits (d :: ds) 0 with
      | none => none
      | some n =>
        if neg then (if n ≤ 2 ^ 63 then some (-(n : Int)) else none)
        else (if n < 2 ^ 63 then some (n : Int) else none)

/-! ## The configuration record -/

/-- The `Config` struct. -/
@[ext]
structure Config where
  AppName : String
  AppVersion : String
  AppEnv : String
  SimpleAPIInstallPath : String
  TrustStorePath : String
  XMLConfigPath : String
  KEKCertPath : String
  KEKCertPassphrase : String
  KEKSharedSecret : String
  DEKSharedSecret : String
  DEKUsername : String
  DEKPassword : String
  NetworkTimeout : Int
  DisableCRLChecking : Bool
  DefaultCryptID : String
  LogLevel : Int
  LogFile : String
  ConfigFilePath : String
  deriving DecidableEq, Repr

/-- The `ConfigError` struct. -/
structure ConfigError where
  Field : String
  Message : String
  deriving DecidableEq, Repr

/-- The method `(*ConfigError).Error`. -/
def ConfigError.Error (e : ConfigError) : String :=
  if e.Field ≠ "" then "configuration error [" ++ e.Field ++ "]: " ++ e.Message
  else "configuration error: " ++ e.Message

/-- The function `NewConfig`: the defaults; every other field has Go's zero value. -/
def NewConfig : Config :=
  { AppName := "", AppVersion := "", AppEnv := "",
    SimpleAPIInstallPath := "", TrustStorePath := "", XMLConfigPath := "",
    KEKCertPath := "", KEKCertPassphrase := "", KEKSharedSecret := "",
    DEKSharedSecret := "", DEKUsername := "", DEKPassword := "",
    NetworkTimeout := 10, DisableCRLChecking := false, DefaultCryptID := "",
    LogLevel := 2, LogFile := "", ConfigFilePath := "" }

/-! ## File parser -/

/-- The method `(*Config).setConfigValue`: the key table of the configuration file. -/
def setConfigValue (u : CaseTables) (c : Config) (key value : String) : Config :=
  if key = "fp_appName" then { c with AppName := value }
  else if key = "fp_appVersion" then { c with AppVersion := value }
  else if key = "fp_appEnv" then { c with AppEnv := ToUpper u value }
  else if key = "fp_simpleAPI_installPath" then { c with SimpleAPIInstallPath := value }
  else if key = "fp_trustStore_path" then { c with TrustStorePath := value }
  else if key = "XMLConfig" then { c with XMLConfigPath := value }
  else if key = "fp_kek_certPath" then { c with KEKCertPath := value }
  else if key = "fp_kek_certPassphrase" then { c with KEKCertPassphrase := value }
  else if key = "fp_kek_sharedSecret" then { c with KEKSharedSecret := value }
  else if key = "fp_default_sharedSecret" then { c with DEKSharedSecret := value }
  else if key = "fp_default_userName" then { c with DEKUsername := value }
  else if key = "fp_default_password" then { c with DEKPassword := value }
  else if key = "DefaultCryptId" then { c with DefaultCryptID := value }
  else if key = "LogLevel" then
    (match Atoi value with
     | some val => { c with LogLevel := val }
     | none => c)
  else if key = "LogFile" then { c with LogFile := value }
  else if key = "fp_networkTimeout" then
    (match Atoi value with
     | some val => { c with NetworkTimeout := val }
     | none => c)
  else if key = "fp_disableCRLChecking" then
    { c with DisableCRLChecking := ToLower u value == "true" }
  else c

/-- The body of the loop of `(*Config).loadFromFile`, for one line of the file. -/
def loadFromFile_line (u : CaseTables) (c : Config) (line : String) : Config :=
  let line := TrimSpace line
  if line = "" || HasPrefix line "#" || HasPrefix line ";" then c
  else if HasPrefix line "[" && HasSuffix line "]" then c
  else
    let parts := SplitN2 line '='
    match parts with
    | [k, v] => setConfigValue u c (TrimSpace k) (TrimSpace v)
    | _ => c

/-- The loop of `(*Config).loadFromFile` over the lines of the file, in order. -/
def loadFromFile_lines (u : CaseTables) (c : Config) (lines : List String) : Config :=
  lines.foldl (loadFromFile_line u) c

/-- The part of `(*Config).loadFromFile` after the file has been read: split the
content at line feeds and process each line. -/
def loadFromFile_data (u : CaseTables) (c : Config) (data : String) : Config :=
  loadFromFile_lines u c (Split data '\n')

/-! ## Operating system -/

/-- The three outcomes of `os.Stat` that `LoadConfig` tells apart. -/
inductive StatResult where
  | ok
  | notExist
  | failed (err : String)
  deriving DecidableEq, Repr

/-- The operating system as the resolver sees it: `os.Stat`, `os.ReadFile`
(content, or the error text) and `os.Getenv` (empty for an unset variable). -/
structure OS where
  Stat : String → StatResult
  ReadFile : String → Except String String
  Getenv : String → String

/-- The method `(*Config).loadFromFile`. -/
def loadFromFile (u : CaseTables) (os : OS) (c : Config) (filePath : String) :
    Except String Config :=
  match os.ReadFile filePath with
  | .error err => .error err
  | .ok data => .ok (loadFromFile_data u c data)

/-! ## Environment overlay -/

/-- The method `(*Config).loadFromEnv`. -/
def loadFromEnv (u : CaseTables) (os : OS) (c : Config) : Config :=
  let c := if os.Getenv "FP_APPNAME" ≠ "" then { c with AppName := os.Getenv "FP_APPNAME" } else c
  let c := if os.Getenv "FP_APPVERSION" ≠ "" then
    { c with AppVersion := os.Getenv "FP_APPVERSION" } else c
  let c := if os.Getenv "FP_APPENV" ≠ "" then
    { c with AppEnv := ToUpper u (os.Getenv "FP_APPENV") } else c
  let c := if os.Getenv "FP_SIMPLEAPI_INSTALLPATH" ≠ "" then
    { c with SimpleAPIInstallPath := os.Getenv "FP_SIMPLEAPI_INSTALLPATH" } else c
  let c := if os.Getenv "FP_TRUSTSTORE_PATH" ≠ "" then
    { c with TrustStorePath := os.Getenv "FP_TRUSTSTORE_PATH" } else c
  let c := if os.Getenv "FP_KEK_CERTPATH" ≠ "" then
    { c with KEKCertPath := os.Getenv "FP_KEK_CERTPATH" } else c
  let c := if os.Getenv "FP_KEK_CERTPASSPHRASE" ≠ "" then
    { c with KEKCertPassphrase := os.Getenv "FP_KEK_CERTPASSPHRASE" } else c
  let c := if os.Getenv "FP_KEK_SHAREDSECRET" ≠ "" then
    { c with KEKSharedSecret := os.Getenv "FP_KEK_SHAREDSECRET" } else c
  let c := if os.Getenv "FP_DEFAULT_SHAREDSECRET" ≠ "" then
    { c with DEKSharedSecret := os.Getenv "FP_DEFAULT_SHAREDSECRET" } else c
  let c := if os.Getenv "FP_DEFAULT_USERNAME" ≠ "" then
    { c with DEKUsername := os.Getenv "FP_DEFAULT_USERNAME" } else c
  let c := if os.Getenv "FP_DEFAULT_PASSWORD" ≠ "" then
    { c with DEKPassword := os.Getenv "FP_DEFAULT_PASSWORD" } else c
  let c := if os.Getenv "FP_NETWORKTIMEOUT" ≠ "" then
    (match Atoi (os.Getenv "FP_NETWORKTIMEOUT") with
     | some timeout => { c with NetworkTimeout := timeout }
     | none => c)
    else c
  let c := if os.Getenv "FP_DISABLECRLCHECKING" ≠ "" then
    { c with DisableCRLChecking := ToLower u (os.Getenv "FP_DISABLECRLCHECKING") == "true" }
    else c
  c

/-! ## Validation -/

/-- The slice `validEnvs` of `Validate`. -/
def validEnvs : List String := ["DEV", "QA", "CAT", "PROD"]

/-- The method `(*Config).Validate`; `none` is Go's nil error. -/
def Validate (c : Config) : Option ConfigError :=
  let errors : List String := []
  let errors := if c.AppName = "" then
    errors ++ ["AppName is required (set fp_appName or FP_APPNAME)"] else errors
  let errors := if c.AppVersion = "" then
    errors ++ ["AppVersion is required (set fp_appVersion or FP_APPVERSION)"] else errors
  let errors := if c.AppEnv = "" then
    errors ++ ["AppEnv is required (set fp_appEnv or FP_APPENV)"] else errors
  let errors := if c.AppEnv ≠ "" then
    (let valid := validEnvs.any (fun env => c.AppEnv == env)
     if !valid then
       errors ++ ["AppEnv must be one of: " ++ Join validEnvs ", " ++ " (got: " ++ c.AppEnv ++ ")"]
     else errors)
    else errors
  let hasKEK := c.KEKCertPath != "" || c.KEKSharedSecret != ""
  let hasDEK := c.DEKSharedSecret != "" || (c.DEKUsername != "" && c.DEKPassword != "")
  let errors := if !hasKEK && !hasDEK then
    errors ++ ["At least one authentication method must be configured (KEK or DEK credentials)"]
    else errors
  if errors.length > 0 then some { Field := "", Message := Join errors "; " }
  else none

/-! ## The resolver -/

/-- The errors `LoadConfig` returns: the two wrapped file errors and the
validation error. -/
inductive LoadError where
  | loadFile (err : String)
  | accessFile (err : String)
  | config (e : ConfigError)
  deriving DecidableEq, Repr

/-- The file step of `LoadConfig` (the block under "Load from file if path is
provided and file exists"), applied to the configuration built so far. -/
def LoadConfig_file (u : CaseTables) (os : OS) (config : Config) (configPath : String) :
    Except LoadError Config :=
  if configPath ≠ "" then
    match os.Stat configPath with
    | .ok =>
      (match loadFromFile u os config configPath with
       | .error err => .error (.loadFile err)
       | .ok config => .ok config)
    | .notExist => .ok config
    | .failed err => .error (.accessFile err)
  else .ok config

/-- The function `LoadConfig`. -/
def LoadConfig (u : CaseTables) (os : OS) (configPath : String) : Except LoadError Config :=
  let config := { NewConfig with ConfigFilePath := configPath }
  match LoadConfig_file u os config configPath with
  | .error e => .error e
  | .ok config =>
    let config := loadFromEnv u os config
    match Validate config with
    | some err => .error (.config err)
    | none => .ok config

/-! ## Formatting: `fmt.Sprintf` -/

/-- The verb `%d` of package `fmt` on an `int`: decimal digits, with a minus sign for a
negative number. -/
def formatInt (n : Int) : String :=
  match n with
  | .ofNat m => ⟨Nat.toDigits 10 m⟩
  | .negSucc m => ⟨'-' :: Nat.toDigits 10 (m + 1)⟩

/-- An argument of `fmt.Sprintf`: a string for the verb `%s`, an integer for `%d`. -/
inductive FmtArg where
  | str (s : String)
  | int (n : Int)

/-- The text `fmt.Sprintf` builds, for the two verbs this repository uses with
arguments of the matching type: `%s` and `%d` consume the next argument, every other
character of the format is copied. -/
def sprintfChars : List Char → List FmtArg → List Char
  | [], _ => []
  | '%' :: 's' :: rest, .str s :: args => s.data ++ sprintfChars rest args
  | '%' :: 'd' :: rest, .int n :: args => (formatInt n).data ++ sprintfChars rest args
  | c :: rest, args => c :: sprintfChars rest args

/-- Go `fmt.Sprintf`. -/
def Sprintf (format : String) (args : List FmtArg) : String :=
  ⟨sprintfChars format.data args⟩

/-- The method `(*Config).String`, the masked rendering. -/
def Config.String (c : Config) : String :=
  Sprintf
    "Config\x7bAppName: %s, AppVersion: %s, AppEnv: %s, SimpleAPIInstallPath: %s, TrustStorePath: %s, XMLConfigPath: %s, NetworkTimeout: %d\x7d"
    [.str c.AppName, .str c.AppVersion, .str c.AppEnv, .str c.SimpleAPIInstallPath,
     .str c.TrustStorePath, .str c.XMLConfigPath, .int c.NetworkTimeout]

/-! ## Error taxonomy: `src/pkg/vlock/errors.go` -/

/-- The type `ErrorCode`, a Go `int`. -/
abbrev ErrorCode := Int

/-- The constant `ErrSuccess`. -/
def ErrSuccess : ErrorCode := 0
/-- The constant `ErrInvalidParameter`. -/
def ErrInvalidParameter : ErrorCode := 1
/-- The constant `ErrMemoryAllocation`. -/
def ErrMemoryAllocation : ErrorCode := 2
/-- The constant `ErrConfigNotFound`. -/
def ErrConfigNotFound : ErrorCode := 3
/-- The constant `ErrConfigInvalid`. -/
def ErrConfigInvalid : ErrorCode := 4
/-- The constant `ErrInitializationFailed`. -/
def ErrInitializationFailed : ErrorCode := 5
/-- The constant `ErrNotInitialized`. -/
def ErrNotInitialized : ErrorCode := 6
/-- The constant `ErrAlreadyInitialized`. -/
def ErrAlreadyInitialized : ErrorCode := 7
/-- The constant `ErrConnectionFailed`. -/
def ErrConnectionFailed : ErrorCode := 8
/-- The constant `ErrAuthenticationFailed`. -/
def ErrAuthenticationFailed : ErrorCode := 9
/-- The constant `ErrCryptIDNotFound`. -/
def ErrCryptIDNotFound : ErrorCode := 10
/-- The constant `ErrEncryptionFailed`. -/
def ErrEncryptionFailed : ErrorCode := 11
/-- The constant `ErrDecryptionFailed`. -/
def ErrDecryptionFailed : ErrorCode := 12
/-- The constant `ErrInvalidData`. -/
def ErrInvalidData : ErrorCode := 13
/-- The constant `ErrBufferTooSmall`. -/
def ErrBufferTooSmall : ErrorCode := 14
/-- The constant `ErrNetworkTimeout`. -/
def ErrNetworkTimeout : ErrorCode := 15
/-- The constant `ErrCertificateError`. -/
def ErrCertificateError : ErrorCode := 16
/-- The constant `ErrKeyNotFound`. -/
def ErrKeyNotFound : ErrorCode := 17
/-- The constant `ErrPermissionDenied`. -/
def ErrPermissionDenied : ErrorCode := 18
/-- The constant `ErrServiceUnavailable`. -/
def ErrServiceUnavailable : ErrorCode := 19
/-- The constant `ErrUnknown`. -/
def ErrUnknown : ErrorCode := 999

/-- The struct `VoltageError`. -/
structure VoltageError where
  Code : ErrorCode
  Message : String
  Detail : String
  CError : Int
  deriving DecidableEq, Repr

/-- The method `(*VoltageError).IsRetryable`. -/
def VoltageError.IsRetryable (e : VoltageError) : Bool :=
  if e.Code = ErrNetworkTimeout ∨ e.Code = ErrConnectionFailed ∨
      e.Code = ErrServiceUnavailable then true
  else false

/-- The function `mapCErrorCode`. -/
def mapCErrorCode (cErrorCode : Int) : ErrorCode × String :=
  if cErrorCode = 0 then (ErrSuccess, "success")
  else if cErrorCode = 1 then (ErrInvalidParameter, "invalid parameter provided")
  else if cErrorCode = 2 then (ErrMemoryAllocation, "memory allocation failed")
  else if cErrorCode = 3 then (ErrConfigNotFound, "configuration file not found")
  else if cErrorCode = 4 then (ErrConfigInvalid, "configuration is invalid")
  else if cErrorCode = 5 then (ErrInitializationFailed, "initialization failed")
  else if cErrorCode = 6 then (ErrNotInitialized, "library not initialized")
  else if cErrorCode = 7 then (ErrAlreadyInitialized, "library already initialized")
  else if cErrorCode = 8 then (ErrConnectionFailed, "failed to connect to Voltage service")
  else if cErrorCode = 9 then (ErrAuthenticationFailed, "authentication failed")
  else if cErrorCode = 10 then (ErrCryptIDNotFound, "crypt ID not found")
  else if cErrorCode = 11 then (ErrEncryptionFailed, "encryption operation failed")
  else if cErrorCode = 12 then (ErrDecryptionFailed, "decryption operation failed")
  else if cErrorCode = 13 then (ErrInvalidData, "invalid data format")
  else if cErrorCode = 14 then (ErrBufferTooSmall, "output buffer too small")
  else if cErrorCode = 15 then (ErrNetworkTimeout, "network operation timed out")
  else if cErrorCode = 16 then (ErrCertificateError, "certificate validation error")
  else if cErrorCode = 17 then (ErrKeyNotFound, "encryption key not found")
  else if cErrorCode = 18 then (ErrPermissionDenied, "permission denied")
  else if cErrorCode = 19 then (ErrServiceUnavailable, "Voltage service unavailable")
  else (ErrUnknown, Sprintf "unknown error (code: %d)" [.int cErrorCode])

/-- The function `NewVoltageError`. -/
def NewVoltageError (cErrorCode : Int) (detail : String) : VoltageError :=
  let (code, message) := mapCErrorCode cErrorCode
  { Code := code, Message := message, Detail := detail, CError := cErrorCode }

/-- The type `ErrorCategory`, a Go `int`. -/
abbrev ErrorCategory := Int

/-- The constant `CategoryConfiguration`. -/
def CategoryConfiguration : ErrorCategory := 0
/-- The constant `CategoryInitialization`. -/
def CategoryInitialization : ErrorCategory := 1
/-- The constant `CategoryConnection`. -/
def CategoryConnection : ErrorCategory := 2
/-- The constant `CategoryAuthentication`. -/
def CategoryAuthentication : ErrorCategory := 3
/-- The constant `CategoryEncryption`. -/
def CategoryEncryption : ErrorCategory := 4
/-- The constant `CategoryDecryption`. -/
def CategoryDecryption : ErrorCategory := 5
/-- The constant `CategoryNetwork`. -/
def CategoryNetwork : ErrorCategory := 6
/-- The constant `CategoryCertificate`. -/
def CategoryCertificate : ErrorCategory := 7
/-- The constant `CategoryUnknown`. -/
def CategoryUnknown : ErrorCategory := 8

/-- The method `(*VoltageError).Category`. -/
def VoltageError.Category (e : VoltageError) : ErrorCategory :=
  if e.Code = ErrConfigNotFound ∨ e.Code = ErrConfigInvalid ∨ e.Code = ErrInvalidParameter then
    CategoryConfiguration
  else if e.Code = ErrInitializationFailed ∨ e.Code = ErrNotInitialized ∨
      e.Code = ErrAlreadyInitialized then
    CategoryInitialization
  else if e.Code = ErrConnectionFailed ∨ e.Code = ErrServiceUnavailable then CategoryConnection
  else if e.Code = ErrAuthenticationFailed ∨ e.Code = ErrPermissionDenied then
    CategoryAuthentication
  else if e.Code = ErrEncryptionFailed ∨ e.Code = ErrCryptIDNotFound ∨
      e.Code = ErrKeyNotFound then
    CategoryEncryption
  else if e.Code = ErrDecryptionFailed then CategoryDecryption
  else if e.Code = ErrNetworkTimeout then CategoryNetwork
  else if e.Code = ErrCertificateError then CategoryCertificate
  else CategoryUnknown

/-! ## The resolver of `src/pkg/config/config.go`

Package `config` has the same `Config`, `ConfigError`, `NewConfig`, `loadFromFile`,
`setConfigValue`, `Validate` and `String` as `src/config.go`, line for line; they are
modelled by the definitions above. Its `loadFromEnv` reads the environment with the
library `github.com/kelseyhightower/envconfig` and can fail. -/

/-- Go `strconv.ParseBool`; `none` stands for a non-nil error. -/
def ParseBool (str : String) : Option Bool :=
  if str = "1" ∨ str = "t" ∨ str = "T" ∨ str = "TRUE" ∨ str = "true" ∨ str = "True" then
    some true
  else if str = "0" ∨ str = "f" ∨ str = "F" ∨ str = "FALSE" ∨ str = "false" ∨
      str = "False" then
    some false
  else none

/-- The helper `lower` of package `strconv`: the byte with bit `0x20` set. -/
def lowerByte (c : Char) : Nat := c.toNat ||| 0x20

/-- The value of one digit in the loop of `strconv.ParseUint`: `0` to `9`, or a letter
counted from ten; `none` for any other byte (every byte of a code point above ASCII is
such a byte). -/
def digitVal (c : Char) : Option Nat :=
  if 0x30 ≤ c.toNat ∧ c.toNat ≤ 0x39 then some (c.toNat - 0x30)
  else if 0x61 ≤ lowerByte c ∧ lowerByte c ≤ 0x7A then some (lowerByte c - 0x61 + 10)
  else none

/-- The digit loop of `strconv.ParseUint` with base prefixes allowed: underscores are
skipped, a byte that is no digit of the base is a syntax error. The value is exact; the
range is tested by the caller. -/
def parseUintDigits (base : Nat) : List Char → Nat → Option Nat
  | [], n => some n
  | c :: cs, n =>
    if c = '_' then parseUintDigits base cs n
    else
      match digitVal c with
      | none => none
      | some d => if d ≥ base then none else parseUintDigits base cs (n * base + d)

/-- The loop of the helper `underscoreOK` of package `strconv`; `saw` is the class of the
last character seen. -/
def underscoreOK_loop (hex : Bool) : List Char → Char → Bool
  | [], saw => saw != '_'
  | c :: cs, saw =>
    if (0x30 ≤ c.toNat ∧ c.toNat ≤ 0x39) ∨
        (hex = true ∧ 0x61 ≤ lowerByte c ∧ lowerByte c ≤ 0x66) then
      underscoreOK_loop hex cs '0'
    else if c = '_' then
      (if saw != '0' then false else underscoreOK_loop hex cs '_')
    else if saw = '_' then false
    else underscoreOK_loop hex cs '!'

/-- The helper `underscoreOK` of package `strconv`: an underscore only between digits or
between a base prefix and a digit. -/
def underscoreOK (s : List Char) : Bool :=
  let s := match s with
    | '-' :: r => r
    | '+' :: r => r
    | _ => s
  match s with
  | '0' :: c :: r =>
    if lowerByte c = 0x62 ∨ lowerByte c = 0x6F ∨ lowerByte c = 0x78 then
      underscoreOK_loop (lowerByte c == 0x78) r '0'
    else underscoreOK_loop false s '^'
  | _ => underscoreOK_loop false s '^'

/-- Go `strconv.ParseUint(s, 0, 64)`: the base is read from the prefix (`0b`, `0o`, `0x`,
or a leading `0` for octal, else ten); `none` stands for a syntax or range error. -/
def ParseUint0 (s : List Char) : Option Nat :=
  match s with
  | [] => none
  | _ :: _ =>
    let (base, digits) : Nat × List Char :=
      match s with
      | '0' :: c :: d :: r =>
        if lowerByte c = 0x62 then (2, d :: r)
        else if lowerByte c = 0x6F then (8, d :: r)
        else if lowerByte c = 0x78 then (16, d :: r)
        else (8, c :: d :: r)
      | '0' :: r => (8, r)
      | _ => (10, s)
    match parseUintDigits base digits 0 with
    | none => none
    | some n =>
      if n ≥ 2 ^ 64 then none
      else if digits.contains '_' && !underscoreOK s then none
      else some n

/-- Go `strconv.ParseInt(s, 0, 64)`, the parser `envconfig` uses for an `int` field on a
64-bit target; `none` stands for a non-nil error. -/
def ParseInt0 (s : String) : Option Int :=
  match s.data with
  | [] => none
  | c :: cs =>
    let neg := c == '-'
    let rest := if c == '+' || c == '-' then cs else c :: cs
    match ParseUint0 rest with
    | none => none
    | some un =>
      if neg then (if un > 2 ^ 63 then none else some (-(un : Int)))
      else (if un ≥ 2 ^ 63 then none else some (un : Int))

namespace config

/-- The operating system as package `config` sees it: as `OS`, with `os.LookupEnv`
(`none` for an unset variable, which differs from a variable set to the empty text). -/
structure Host where
  Stat : String → StatResult
  ReadFile : String → Except String String
  LookupEnv : String → Option String

/-- The view of a host that `os.Getenv` gives: an unset variable reads as empty. -/
def Host.toOS (h : Host) : OS :=
  { Stat := h.Stat, ReadFile := h.ReadFile, Getenv := fun key => (h.LookupEnv key).getD "" }

/-- The local struct `envOverrides` of `loadFromEnv`. -/
structure envOverrides where
  AppName : String
  AppVersion : String
  AppEnv : String
  SimpleAPIInstallPath : String
  TrustStorePath : String
  XMLConfigPath : String
  KEKCertPath : String
  KEKCertPassphrase : String
  KEKSharedSecret : String
  DEKSharedSecret : String
  DEKUsername : String
  DEKPassword : String
  NetworkTimeout : Int
  DisableCRLChecking : Bool
  DefaultCryptID : String
  LogLevel : Int
  LogFile : String
  deriving DecidableEq, Repr

/-- The struct `envconfig.ParseError`: the variable, the field, its type and the value
that could not be parsed. -/
structure ParseError where
  KeyName : String
  FieldName : String
  TypeName : String
  Value : String
  deriving DecidableEq, Repr

/-- One string field in `envconfig.Process`: the value of the variable when it is set,
else Go's zero value. -/
def processString (h : Host) (key : String) : String :=
  match h.LookupEnv key with
  | some value => value
  | none => ""

/-- One `int` field in `envconfig.Process`: zero when the variable is unset, the parsed
value when it is set, a `ParseError` when it is set and `strconv.ParseInt` fails. -/
def processInt (h : Host) (key field : String) : Except ParseError Int :=
  match h.LookupEnv key with
  | none => .ok 0
  | some value =>
    match ParseInt0 value with
    | some n => .ok n
    | none => .error { KeyName := key, FieldName := field, TypeName := "int", Value := value }

/-- One `bool` field in `envconfig.Process`: false when the variable is unset, the parsed
value when it is set, a `ParseError` when it is set and `strconv.ParseBool` fails. -/
def processBool (h : Host) (key field : String) : Except ParseError Bool :=
  match h.LookupEnv key with
  | none => .ok false
  | some value =>
    match ParseBool value with
    | some b => .ok b
    | none => .error { KeyName := key, FieldName := field, TypeName := "bool", Value := value }

/-- The call `envconfig.Process("", &overrides)`: each field is filled from the variable
of its tag. A string field cannot fail; the three parsed fields are tried in the order of
the struct, and the first value that does not parse ends the call with an error. -/
def Process (h : Host) : Except ParseError envOverrides :=
  match processInt h "FP_NETWORKTIMEOUT" "NetworkTimeout" with
  | .error e => .error e
  | .ok networkTimeout =>
    match processBool h "FP_DISABLECRLCHECKING" "DisableCRLChecking" with
    | .error e => .error e
    | .ok disableCRLChecking =>
      match processInt h "FP_LOGLEVEL" "LogLevel" with
      | .error e => .error e
      | .ok logLevel =>
        .ok { AppName := processString h "FP_APPNAME",
              AppVersion := processString h "FP_APPVERSION",
              AppEnv := processString h "FP_APPENV",
              SimpleAPIInstallPath := processString h "FP_SIMPLEAPI_INSTALLPATH",
              TrustStorePath := processString h "FP_TRUSTSTORE_PATH",
              XMLConfigPath := processString h "FP_XMLCONFIG",
              KEKCertPath := processString h "FP_KEK_CERTPATH",
              KEKCertPassphrase := processString h "FP_KEK_CERTPASSPHRASE",
              KEKSharedSecret := processString h "FP_KEK_SHAREDSECRET",
              DEKSharedSecret := processString h "FP_DEFAULT_SHAREDSECRET",
              DEKUsername := processString h "FP_DEFAULT_USERNAME",
              DEKPassword := processString h "FP_DEFAULT_PASSWORD",
              NetworkTimeout := networkTimeout,
              DisableCRLChecking := disableCRLChecking,
              DefaultCryptID := processString h "FP_DEFAULT_CRYPTID",
              LogLevel := logLevel,
              LogFile := processString h "FP_LOGFILE" }

/-- The method `(*Config).loadFromEnv` of package `config`. -/
def loadFromEnv (u : CaseTables) (h : Host) (c : Config) : Except ParseError Config :=
  match Process h with
  | .error err => .error err
  | .ok overrides =>
    let c := if overrides.AppName ≠ "" then { c with AppName := overrides.AppName } else c
    let c := if overrides.AppVersion ≠ "" then
      { c with AppVersion := overrides.AppVersion } else c
    let c := if overrides.AppEnv ≠ "" then
      { c with AppEnv := ToUpper u overrides.AppEnv } else c
    let c := if overrides.SimpleAPIInstallPath ≠ "" then
      { c with SimpleAPIInstallPath := overrides.SimpleAPIInstallPath } else c
    let c := if overrides.TrustStorePath ≠ "" then
      { c with TrustStorePath := overrides.TrustStorePath } else c
    let c := if overrides.XMLConfigPath ≠ "" then
      { c with XMLConfigPath := overrides.XMLConfigPath } else c
    let c := if overrides.KEKCertPath ≠ "" then
      { c with KEKCertPath := overrides.KEKCertPath } else c
    let c := if overrides.KEKCertPassphrase ≠ "" then
      { c with KEKCertPassphrase := overrides.KEKCertPassphrase } else c
    let c := if overrides.KEKSharedSecret ≠ "" then
      { c with KEKSharedSecret := overrides.KEKSharedSecret } else c
    let c := if overrides.DEKSharedSecret ≠ "" then
      { c with DEKSharedSecret := overrides.DEKSharedSecret } else c
    let c := if overrides.DEKUsername ≠ "" then
      { c with DEKUsername := overrides.DEKUsername } else c
    let c := if overrides.DEKPassword ≠ "" then
      { c with DEKPassword := overrides.DEKPassword } else c
    let c := if h.toOS.Getenv "FP_NETWORKTIMEOUT" ≠ "" then
      { c with NetworkTimeout := overrides.NetworkTimeout } else c
    let c := if h.toOS.Getenv "FP_DISABLECRLCHECKING" ≠ "" then
      { c with DisableCRLChecking := overrides.DisableCRLChecking } else c
    let c := if overrides.DefaultCryptID ≠ "" then
      { c with DefaultCryptID := overrides.DefaultCryptID } else c
    let c := if h.toOS.Getenv "FP_LOGLEVEL" ≠ "" then
      { c with LogLevel := overrides.LogLevel } else c
    let c := if overrides.LogFile ≠ "" then { c with LogFile := overrides.LogFile } else c
    .ok c

/-- The errors `LoadConfig` of package `config` returns: the two wrapped file errors, the
wrapped environment error and the validation error. -/
inductive LoadError where
  | loadFile (err : String)
  | accessFile (err : String)
  | loadEnv (err : ParseError)
  | config (e : ConfigError)
  deriving DecidableEq, Repr

/-- The function `LoadConfig` of package `config`; its file step is the one of
`src/config.go`. -/
def LoadConfig (u : CaseTables) (h : Host) (configPath : String) : Except LoadError Config :=
  let config := { NewConfig with ConfigFilePath := configPath }
  match LoadConfig_file u h.toOS config configPath with
  | .error (.loadFile err) => .error (.loadFile err)
  | .error (.accessFile err) => .error (.accessFile err)
  | .error (.config e) => .error (.config e)
  | .ok config =>
    match loadFromEnv u h config with
    | .error err => .error (.loadEnv err)
    | .ok config =>
      match Validate config with
      | some err => .error (.config err)
      | none => .ok config

end config

/-! ## Errors as values (`error` interface), package `vlock`

What the lifecycle code builds with `fmt.Errorf`: a plain message, or, with the verb `%w`,
a message that ends in the text of the wrapped error and keeps that error. -/

/-- The method `(*VoltageError).Error`. -/
def VoltageError.Error (e : VoltageError) : String :=
  if e.Detail ≠ "" then
    Sprintf "voltage error [%d]: %s (%s)" [.int e.Code, .str e.Message, .str e.Detail]
  else Sprintf "voltage error [%d]: %s" [.int e.Code, .str e.Message]

/-- The predefined error `ErrClientNotInitialized`. -/
def ErrClientNotInitialized : VoltageError :=
  { Code := ErrNotInitialized, Message := "client not initialized",
    Detail := "call Initialize() before using client methods", CError := 0 }

/-- The predefined error `ErrClientAlreadyInitialized`. -/
def ErrClientAlreadyInitialized : VoltageError :=
  { Code := ErrAlreadyInitialized, Message := "client already initialized",
    Detail := "call Close() before reinitializing", CError := 0 }

/-- A value of Go's `error` interface, as far as the client code produces one: an error made
from a message alone, a `*VoltageError`, a `*ConfigError`, or an error made by `fmt.Errorf`
with `%w`, which holds its message and the error it wraps. -/
inductive GoError where
  | text (msg : String)
  | voltage (e : VoltageError)
  | config (e : ConfigError)
  | wrap (msg : String) (inner : GoError)
  deriving DecidableEq, Repr

/-- The method `Error` of an error value. -/
def GoError.Error : GoError → String
  | .text msg => msg
  | .voltage e => e.Error
  | .config e => e.Error
  | .wrap msg _ => msg

/-- The method `Unwrap`: the wrapped error of an error made with `%w`. -/
def GoError.Unwrap : GoError → Option GoError
  | .wrap _ inner => some inner
  | _ => none

/-- The call `fmt.Errorf(pre + "%w", err)`: the message is `pre` followed by the text of
`err`, and `err` is kept as the wrapped error. -/
def Errorf_w (pre : String) (err : GoError) : GoError :=
  .wrap (pre ++ err.Error) err

/-! ## The client (`src/pkg/vlock/voltage.go`)

A client is modelled by the value of its fields; the lock is not part of the state. The
backend is a value with the three operations the two build variants implement as methods of
the client; each operation reads the client, steps the backend state, and either returns an
error value or `nil`, or does not return (`none`: a run-time panic such as the dereference
of a nil configuration, or a call that blocks for ever). No backend operation writes a
field of the client, as in both build variants. The world of a call is the backend state
together with the list of backend operations invoked so far. `time.Now()` is the argument
`now` of the operations that read the clock. -/

/-- A `time.Time`, as an instant counted from the zero value of the type. -/
abbrev Time := Int

/-- The struct `Client`; `config` is `none` for a nil pointer. -/
@[ext] structure Client where
  config : Option Config
  initialized : Bool
  lastHealthCheck : Time
  healthy : Bool
  sessionID : String
  deriving DecidableEq, Repr

/-- The three backend operations, over a backend state `β`. -/
structure Backend (β : Type) where
  initializeVoltageLibrary : Client → β → Option (Option GoError × β)
  terminateVoltageLibrary : Client → β → Option (Option GoError × β)
  performHealthCheckC : Client → β → Option (Option GoError × β)

/-- The name of a backend operation. -/
inductive BackendCall where
  | init
  | terminate
  | healthCheck
  deriving DecidableEq, Repr

/-- The backend state and the backend operations invoked so far, oldest first. -/
@[ext] structure World (β : Type) where
  backend : β
  calls : List BackendCall
  deriving DecidableEq, Repr

/-- A call of `c.initializeVoltageLibrary()`, recorded in the world. -/
def callInitialize {β : Type} (b : Backend β) (c : Client) (w : World β) :
    Option (Option GoError × World β) :=
  match b.initializeVoltageLibrary c w.backend with
  | none => none
  | some (err, s) => some (err, { backend := s, calls := w.calls ++ [.init] })

/-- A call of `c.terminateVoltageLibrary()`, recorded in the world. -/
def callTerminate {β : Type} (b : Backend β) (c : Client) (w : World β) :
    Option (Option GoError × World β) :=
  match b.terminateVoltageLibrary c w.backend with
  | none => none
  | some (err, s) => some (err, { backend := s, calls := w.calls ++ [.terminate] })

/-- A call of `c.performHealthCheckC()`, recorded in the world. -/
def callHealthCheck {β : Type} (b : Backend β) (c : Client) (w : World β) :
    Option (Option GoError × World β) :=
  match b.performHealthCheckC c w.backend with
  | none => none
  | some (err, s) => some (err, { backend := s, calls := w.calls ++ [.healthCheck] })

/-- The type `ClientOption`: a function that may change the client and anything else
(`σ`, the state around the client), and returns an error or `nil`. -/
abbrev ClientOption (σ : Type) := Client → σ → Option GoError × Client × σ

/-- The loop of `NewClient` over the options: the first error ends it. -/
def NewClient_options {σ : Type} :
    List (ClientOption σ) → Client → σ → Option GoError × Client × σ
  | [], client, s => (none, client, s)
  | opt :: opts, client, s =>
    match opt client s with
    | (some err, client, s) =>
      (some (Errorf_w "failed to apply client option: " err), client, s)
    | (none, client, s) => NewClient_options opts client s

/-- The function `NewClient`; `cfg` is `none` for a nil pointer. The result is the pair
`(client, nil)` as `.ok client`, or `(nil, err)` as `.error err`, with the state around the
client after the call. -/
def NewClient {σ : Type} (cfg : Option Config) (opts : List (ClientOption σ)) (s : σ) :
    Except GoError Client × σ :=
  match cfg with
  | none => (.error (.text "config cannot be nil"), s)
  | some cfg =>
    match Validate cfg with
    | some err => (.error (Errorf_w "invalid configuration: " (.config err)), s)
    | none =>
      let client : Client :=
        { config := some cfg, initialized := false, lastHealthCheck := 0, healthy := false,
          sessionID := "" }
      match NewClient_options opts client s with
      | (some err, _, s) => (.error err, s)
      | (none, client, s) => (.ok client, s)

/-- The method `(*Client).performHealthCheck`. -/
def Client.performHealthCheck {β : Type} (b : Backend β) (c : Client) (w : World β) :
    Option (Option GoError × World β) :=
  if c.config = none then some (some (.text "configuration not loaded"), w)
  else callHealthCheck b c w

/-- The method `(*Client).Initialize`: the error or `nil`, the client and the world after
the call; `none` when a backend operation does not return. -/
def Client.Initialize {β : Type} (b : Backend β) (now : Time) (c : Client) (w : World β) :
    Option (Option GoError × Client × World β) :=
  if c.initialized then some (some (.text "client already initialized"), c, w)
  else
    match callInitialize b c w with
    | none => none
    | some (some err, w) =>
      some (some (Errorf_w "failed to initialize Voltage library: " err), c, w)
    | some (none, w) =>
      match Client.performHealthCheck b c w with
      | none => none
      | some (some err, w) =>
        some (some (Errorf_w "health check failed after initialization: " err), c, w)
      | some (none, w) =>
        some (none, { c with initialized := true, healthy := true, lastHealthCheck := now }, w)

/-- The method `(*Client).Close`. -/
def Client.Close {β : Type} (b : Backend β) (c : Client) (w : World β) :
    Option (Option GoError × Client × World β) :=
  if !c.initialized then some (none, c, w)
  else
    match callTerminate b c w with
    | none => none
    | some (some err, w) =>
      some (some (Errorf_w "failed to terminate Voltage library: " err), c, w)
    | some (none, w) => some (none, { c with initialized := false, healthy := false }, w)

/-- The method `(*Client).HealthCheck`. -/
def Client.HealthCheck {β : Type} (b : Backend β) (now : Time) (c : Client) (w : World β) :
    Option (Option GoError × Client × World β) :=
  if !c.initialized then some (some (.text "client not initialized"), c, w)
  else
    match Client.performHealthCheck b c w with
    | none => none
    | some (some err, w) => some (some err, { c with healthy := false }, w)
    | some (none, w) => some (none, { c with healthy := true, lastHealthCheck := now }, w)

/-- The second half of `(*Client).Reinitialize`, from the comment `// Reinitialize` on: the
backend is initialised again and, when that succeeds, the three fields are set. -/
def Client.Reinitialize_init {β : Type} (b : Backend β) (now : Time) (c : Client)
    (w : World β) : Option (Option GoError × Client × World β) :=
  match callInitialize b c w with
  | none => none
  | some (some err, w) =>
    some (some (Errorf_w "failed to reinitialize Voltage library: " err), c, w)
  | some (none, w) =>
    some (none, { c with initialized := true, healthy := true, lastHealthCheck := now }, w)

/-- The method `(*Client).Reinitialize`. -/
def Client.Reinitialize {β : Type} (b : Backend β) (now : Time) (c : Client) (w : World β) :
    Option (Option GoError × Client × World β) :=
  if c.initialized then
    match callTerminate b c w with
    | none => none
    | some (some err, w) =>
      some (some (Errorf_w "failed to terminate before reinitialize: " err), c, w)
    | some (none, w) => Client.Reinitialize_init b now { c with initialized := false } w
  else Client.Reinitialize_init b now c w

/-- The struct `ClientInfo`. -/
structure ClientInfo where
  AppName : String
  AppVersion : String
  Environment : String
  Initialized : Bool
  Healthy : Bool
  LastHealthCheck : Time
  SessionID : String
  deriving DecidableEq, Repr

/-- The method `(*Client).IsInitialized`: the value returned and the client after the
call, as for every accessor below. -/
def Client.IsInitialized (c : Client) : Bool × Client := (c.initialized, c)

/-- The method `(*Client).IsHealthy`. -/
def Client.IsHealthy (c : Client) : Bool × Client := (c.healthy, c)

/-- The method `(*Client).Config`; `none` is the nil pointer. -/
def Client.Config (c : Client) : Option Vlock.Config × Client := (c.config, c)

/-- The method `(*Client).LastHealthCheck`. -/
def Client.LastHealthCheck (c : Client) : Time × Client := (c.lastHealthCheck, c)

/-- The method `(*Client).GetSessionID`. -/
def Client.GetSessionID (c : Client) : String × Client := (c.sessionID, c)

/-- The method `(*Client).Info`; reading the fields of a nil configuration does not
return. -/
def Client.Info (c : Client) : Option (ClientInfo × Client) :=
  match c.config with
  | none => none
  | some config =>
    some ({ AppName := config.AppName, AppVersion := config.AppVersion,
            Environment := config.AppEnv, Initialized := c.initialized,
            Healthy := c.healthy, LastHealthCheck := c.lastHealthCheck,
            SessionID := c.sessionID }, c)

/-! ## The mock backend (`src/pkg/vlock/voltage_mock.go`) -/

/-- The package variables `mockInitialized` and `mockConfigPath`. -/
@[ext] structure MockState where
  mockInitialized : Bool
  mockConfigPath : String
  deriving DecidableEq, Repr

/-- The method `(*Client).initializeVoltageLibrary` of the mock; reading the path of a nil
configuration does not return. -/
def Client.initializeVoltageLibrary (c : Client) (m : MockState) :
    Option (Option GoError × MockState) :=
  if m.mockInitialized then some (some (.voltage ErrClientAlreadyInitialized), m)
  else
    match c.config with
    | none => none
    | some config =>
      let configPath := config.ConfigFilePath
      if configPath = "" then
        if config.XMLConfigPath ≠ "" then
          let configPath := config.XMLConfigPath
          some (none, { mockInitialized := true, mockConfigPath := configPath })
        else some (some (.text "no configuration file path specified"), m)
      else some (none, { mockInitialized := true, mockConfigPath := configPath })

/-- The method `(*Client).terminateVoltageLibrary` of the mock. -/
def Client.terminateVoltageLibrary (_c : Client) (m : MockState) :
    Option (Option GoError × MockState) :=
  if !m.mockInitialized then some (none, m)
  else some (none, { mockInitialized := false, mockConfigPath := "" })

/-- The method `(*Client).performHealthCheckC` of the mock. -/
def Client.performHealthCheckC (_c : Client) (m : MockState) :
    Option (Option GoError × MockState) :=
  if !m.mockInitialized then some (some (.voltage ErrClientNotInitialized), m)
  else some (none, m)

/-- The backend of a build without cgo. -/
def mockBackend : Backend MockState :=
  { initializeVoltageLibrary := Client.initializeVoltageLibrary,
    terminateVoltageLibrary := Client.terminateVoltageLibrary,
    performHealthCheckC := Client.performHealthCheckC }

/-! ## The functions package `config` has in common with `src/config.go`

The file parser, `Validate` and `String` of `src/pkg/config/config.go`, translated from
that file. -/

namespace config

/-- The method `(*Config).setConfigValue` of package `config`. -/
def setConfigValue (u : CaseTables) (c : Config) (key value : String) : Config :=
  if key = "fp_appName" then { c with AppName := value }
  else if key = "fp_appVersion" then { c with AppVersion := value }
  else if key = "fp_appEnv" then { c with AppEnv := ToUpper u value }
  else if key = "fp_simpleAPI_installPath" then { c with SimpleAPIInstallPath := value }
  else if key = "fp_trustStore_path" then { c with TrustStorePath := value }
  else if key = "XMLConfig" then { c with XMLConfigPath := value }
  else if key = "fp_kek_certPath" then { c with KEKCertPath := value }
  else if key = "fp_kek_certPassphrase" then { c with KEKCertPassphrase := value }
  else if key = "fp_kek_sharedSecret" then { c with KEKSharedSecret := value }
  else if key = "fp_default_sharedSecret" then { c with DEKSharedSecret := value }
  else if key = "fp_default_userName" then { c with DEKUsername := value }
  else if key = "fp_default_password" then { c with DEKPassword := value }
  else if key = "DefaultCryptId" then { c with DefaultCryptID := value }
  else if key = "LogLevel" then
    (match Atoi value with
     | some val => { c with LogLevel := val }
     | none => c)
  else if key = "LogFile" then { c with LogFile := value }
  else if key = "fp_networkTimeout" then
    (match Atoi value with
     | some val => { c with NetworkTimeout := val }
     | none => c)
  else if key = "fp_disableCRLChecking" then
    { c with DisableCRLChecking := ToLower u value == "true" }
  else c

/-- The body of the loop of `(*Config).loadFromFile` of package `config`, for one line. -/
def loadFromFile_line (u : CaseTables) (c : Config) (line : String) : Config :=
  let line := TrimSpace line
  if line = "" || HasPrefix line "#" || HasPrefix line ";" then c
  else if HasPrefix line "[" && HasSuffix line "]" then c
  else
    let parts := SplitN2 line '='
    match parts with
    | [k, v] => setConfigValue u c (TrimSpace k) (TrimSpace v)
    | _ => c

/-- The method `(*Config).loadFromFile` of package `config`: the file is read, split at
line feeds, and its lines are processed in order. -/
def loadFromFile (u : CaseTables) (h : Host) (c : Config) (filePath : String) :
    Except String Config :=
  match h.ReadFile filePath with
  | .error err => .error err
  | .ok data => .ok ((Split data '\n').foldl (loadFromFile_line u) c)

/-- The method `(*Config).Validate` of package `config`; `none` is Go's nil error. -/
def Validate (c : Config) : Option ConfigError :=
  let errors : List String := []
  let errors := if c.AppName = "" then
    errors ++ ["AppName is required (set fp_appName or FP_APPNAME)"] else errors
  let errors := if c.AppVersion = "" then
    errors ++ ["AppVersion is required (set fp_appVersion or FP_APPVERSION)"] else errors
  let errors := if c.AppEnv = "" then
    errors ++ ["AppEnv is required (set fp_appEnv or FP_APPENV)"] else errors
  let validEnvs := ["DEV", "QA", "CAT", "PROD"]
  let errors := if c.AppEnv ≠ "" then
    (let valid := validEnvs.any (fun env => c.AppEnv == env)
     if !valid then
       errors ++ ["AppEnv must be one of: " ++ Join validEnvs ", " ++ " (got: " ++ c.AppEnv ++ ")"]
     else errors)
    else errors
  let hasKEK := c.KEKCertPath != "" || c.KEKSharedSecret != ""
  let hasDEK := c.DEKSharedSecret != "" || (c.DEKUsername != "" && c.DEKPassword != "")
  let errors := if !hasKEK && !hasDEK then
    errors ++ ["At least one authentication method must be configured (KEK or DEK credentials)"]
    else errors
  if errors.length > 0 then some { Field := "", Message := Join errors "; " }
  else none

end config

/-- The method `(*Config).String` of package `config`. -/
def config.String (c : Config) :=
  Sprintf
    "Config\x7bAppName: %s, AppVersion: %s, AppEnv: %s, SimpleAPIInstallPath: %s, TrustStorePath: %s, XMLConfigPath: %s, NetworkTimeout: %d\x7d"
    [.str c.AppName, .str c.AppVersion, .str c.AppEnv, .str c.SimpleAPIInstallPath,
     .str c.TrustStorePath, .str c.XMLConfigPath, .int c.NetworkTimeout]

/-! ## Notions of the specification

The definitions below are not part of the program: they write down the words of
the specification (its rules, tables and line shapes) so that the theorems can
compare them with the program. -/

/-- The authentication rule of the specification: a KEK certificate path, a KEK
shared secret, a DEK shared secret, or a DEK username together with a DEK password. -/
def hasAuthMethod (c : Config) : Prop :=
  c.KEKCertPath ≠ "" ∨ c.KEKSharedSecret ≠ "" ∨ c.DEKSharedSecret ≠ "" ∨
    (c.DEKUsername ≠ "" ∧ c.DEKPassword ≠ "")

/-- The authentication rule can be decided. -/
instance hasAuthMethod.decidable (c : Config) : Decidable (hasAuthMethod c) := by
  unfold hasAuthMethod
  infer_instance

/-- The message of the rule "AppEnv is one of the four names", which quotes the
offending value. -/
def envMessage (env : String) : String :=
  "AppEnv must be one of: DEV, QA, CAT, PROD (got: " ++ env ++ ")"

/-- The messages of the violated rules in the fixed order: name, version,
environment (required, or not in the set), authentication. -/
def violatedMessages (c : Config) : List String :=
  (if c.AppName = "" then ["AppName is required (set fp_appName or FP_APPNAME)"] else []) ++
  (if c.AppVersion = "" then ["AppVersion is required (set fp_appVersion or FP_APPVERSION)"]
   else []) ++
  (if c.AppEnv = "" then ["AppEnv is required (set fp_appEnv or FP_APPENV)"]
   else if c.AppEnv ∈ ["DEV", "QA", "CAT", "PROD"] then [] else [envMessage c.AppEnv]) ++
  (if hasAuthMethod c then []
   else ["At least one authentication method must be configured (KEK or DEK credentials)"])

/-- The number of violated rules, out of the four: name, version, environment,
authentication. -/
def violatedRules (c : Config) : Nat :=
  (if c.AppName = "" then 1 else 0) + (if c.AppVersion = "" then 1 else 0) +
  (if c.AppEnv ∈ ["DEV", "QA", "CAT", "PROD"] then 0 else 1) +
  (if hasAuthMethod c then 0 else 1)

/-- The parts of a text separated by a semicolon followed by a space, read from
left to right as `strings.Split` does. -/
def splitSep : List Char → List (List Char)
  | [] => [[]]
  | [c] => [[c]]
  | c :: d :: rest =>
    if c = ';' ∧ d = ' ' then [] :: splitSep rest
    else
      match splitSep (d :: rest) with
      | [] => [[c]]
      | p :: ps => (c :: p) :: ps

/-- The number of parts of a message separated by a semicolon and a space. -/
def partsCount (s : String) : Nat := (splitSep s.data).length

/-- The eleven string fields that have an environment variable: the variable, the
field, and whether the value is upper-cased on overlay. -/
def envStringFields : List (String × (Config → String) × Bool) :=
  [("FP_APPNAME", Config.AppName, false),
   ("FP_APPVERSION", Config.AppVersion, false),
   ("FP_APPENV", Config.AppEnv, true),
   ("FP_SIMPLEAPI_INSTALLPATH", Config.SimpleAPIInstallPath, false),
   ("FP_TRUSTSTORE_PATH", Config.TrustStorePath, false),
   ("FP_KEK_CERTPATH", Config.KEKCertPath, false),
   ("FP_KEK_CERTPASSPHRASE", Config.KEKCertPassphrase, false),
   ("FP_KEK_SHAREDSECRET", Config.KEKSharedSecret, false),
   ("FP_DEFAULT_SHAREDSECRET", Config.DEKSharedSecret, false),
   ("FP_DEFAULT_USERNAME", Config.DEKUsername, false),
   ("FP_DEFAULT_PASSWORD", Config.DEKPassword, false)]

/-- The seventeen keys of the configuration file (specification, section 6). -/
def recognisedKeys : List String :=
  ["fp_appName", "fp_appVersion", "fp_appEnv", "fp_simpleAPI_installPath",
   "fp_trustStore_path", "XMLConfig", "fp_kek_certPath", "fp_kek_certPassphrase",
   "fp_kek_sharedSecret", "fp_default_sharedSecret", "fp_default_userName",
   "fp_default_password", "DefaultCryptId", "LogLevel", "LogFile", "fp_networkTimeout",
   "fp_disableCRLChecking"]

/-- The fourteen string-valued keys of the configuration file with the field each
one sets (specification, section 6); the value of `fp_appEnv` is upper-cased. -/
def stringKeyFields (u : CaseTables) : List (String × (Config → String → Config)) :=
  [("fp_appName", fun c x => { c with AppName := x }),
   ("fp_appVersion", fun c x => { c with AppVersion := x }),
   ("fp_appEnv", fun c x => { c with AppEnv := ToUpper u x }),
   ("fp_simpleAPI_installPath", fun c x => { c with SimpleAPIInstallPath := x }),
   ("fp_trustStore_path", fun c x => { c with TrustStorePath := x }),
   ("XMLConfig", fun c x => { c with XMLConfigPath := x }),
   ("fp_kek_certPath", fun c x => { c with KEKCertPath := x }),
   ("fp_kek_certPassphrase", fun c x => { c with KEKCertPassphrase := x }),
   ("fp_kek_sharedSecret", fun c x => { c with KEKSharedSecret := x }),
   ("fp_default_sharedSecret", fun c x => { c with DEKSharedSecret := x }),
   ("fp_default_userName", fun c x => { c with DEKUsername := x }),
   ("fp_default_password", fun c x => { c with DEKPassword := x }),
   ("DefaultCryptId", fun c x => { c with DefaultCryptID := x }),
   ("LogFile", fun c x => { c with LogFile := x })]

/-- A line that holds an equals sign and whose key, the trimmed text before the first
equals sign of the trimmed line, is not a recognised key. -/
def isUnknownKeyLine (line : String) : Bool :=
  match SplitN2 (TrimSpace line) '=' with
  | [k, _] => decide (TrimSpace k ∉ recognisedKeys)
  | _ => false

/-- A line that after trimming is blank, a comment, a section header, or holds no
equals sign. -/
def isSkippedLine (line : String) : Prop :=
  TrimSpace line = "" ∨ HasPrefix (TrimSpace line) "#" = true ∨
    HasPrefix (TrimSpace line) ";" = true ∨
    (HasPrefix (TrimSpace line) "[" = true ∧ HasSuffix (TrimSpace line) "]" = true) ∨
    '=' ∉ (TrimSpace line).data

/-- The shape of a key of the configuration file: not empty, no white space at
either end, no equals sign, and not starting like a comment or a section header. -/
def keyShape (k : String) : Bool :=
  match k.data with
  | [] => false
  | c :: _ =>
    !IsSpace c && c != '#' && c != ';' && c != '[' && !k.data.contains '=' &&
      (match k.data.getLast? with
       | some l => !IsSpace l
       | none => false)

/-- All the letter-case variants of a lower-case ASCII word. -/
def caseVariantChars : List Char → List (List Char)
  | [] => [[]]
  | c :: cs => (caseVariantChars cs).flatMap (fun t => [c :: t, c.toUpper :: t])

/-- All the letter-case variants of a lower-case ASCII word, as strings. -/
def caseVariants (s : String) : List String :=
  (caseVariantChars s.data).map String.mk

/-- One of the digits 0 to 9. -/
def isDecimalDigit (ch : Char) : Bool :=
  decide (0x30 ≤ ch.toNat ∧ ch.toNat ≤ 0x39)

/-- The number a run of one or more digits denotes; `none` for an empty run and for a
run with another character. -/
def decimalDigitsValue (ds : List Char) : Option Nat :=
  if ds ≠ [] ∧ ds.all isDecimalDigit = true then
    some (ds.foldl (fun n ch => n * 10 + (ch.toNat - 0x30)) 0)
  else none

/-- The integer a text denotes when it is a decimal integer, an optional sign followed
by one or more of the digits 0 to 9, whatever its size; `none` for any other text. -/
def decimalValue (s : String) : Option Int :=
  match s.data with
  | [] => none
  | c :: cs =>
    if c = '-' then (decimalDigitsValue cs).map (fun n => -(n : Int))
    else if c = '+' then (decimalDigitsValue cs).map (fun n => (n : Int))
    else (decimalDigitsValue (c :: cs)).map (fun n => (n : Int))

/-- The range of a Go `int` on a 64-bit target. -/
def inIntRange (n : Int) : Prop := -(2 ^ 63) ≤ n ∧ n < 2 ^ 63

/-- The range test can be decided. -/
instance inIntRange.decidable (n : Int) : Decidable (inIntRange n) := by
  unfold inIntRange
  infer_instance

/-- Go `strings.Contains`: the second text occurs in the first. -/
def Contains (s substr : String) : Bool :=
  decide (substr.data <:+: s.data)

/-- The seventeen error kinds that are not retryable, by their constants. -/
def notRetryableKinds : List ErrorCode :=
  [ErrInvalidParameter, ErrMemoryAllocation, ErrConfigNotFound, ErrConfigInvalid,
   ErrInitializationFailed, ErrNotInitialized, ErrAlreadyInitialized,
   ErrAuthenticationFailed, ErrCryptIDNotFound, ErrEncryptionFailed, ErrDecryptionFailed,
   ErrInvalidData, ErrBufferTooSmall, ErrCertificateError, ErrKeyNotFound,
   ErrPermissionDenied, ErrUnknown]

/-- The category the specification gives each classified error kind. -/
def categoryTable : List (ErrorCode × ErrorCategory) :=
  [(ErrConfigNotFound, CategoryConfiguration), (ErrConfigInvalid, CategoryConfiguration),
   (ErrInvalidParameter, CategoryConfiguration),
   (ErrInitializationFailed, CategoryInitialization),
   (ErrNotInitialized, CategoryInitialization),
   (ErrAlreadyInitialized, CategoryInitialization),
   (ErrConnectionFailed, CategoryConnection), (ErrServiceUnavailable, CategoryConnection),
   (ErrAuthenticationFailed, CategoryAuthentication),
   (ErrPermissionDenied, CategoryAuthentication),
   (ErrEncryptionFailed, CategoryEncryption), (ErrCryptIDNotFound, CategoryEncryption),
   (ErrKeyNotFound, CategoryEncryption),
   (ErrDecryptionFailed, CategoryDecryption),
   (ErrNetworkTimeout, CategoryNetwork),
   (ErrCertificateError, CategoryCertificate)]

/-- An environment in which one of the three parsed variables of package `config` is
set to a text its parser rejects. -/
def config.unparsableEnv (h : config.Host) : Prop :=
  (∃ v, h.LookupEnv "FP_NETWORKTIMEOUT" = some v ∧ ParseInt0 v = none) ∨
  (∃ v, h.LookupEnv "FP_DISABLECRLCHECKING" = some v ∧ ParseBool v = none) ∨
  (∃ v, h.LookupEnv "FP_LOGLEVEL" = some v ∧ ParseInt0 v = none)

/-- The state `Fresh` of the specification: not initialized and not healthy. -/
def Fresh (c : Client) : Prop := c.initialized = false ∧ c.healthy = false

/-- Decidability of `Fresh`. -/
instance Fresh.decidable (c : Client) : Decidable (Fresh c) := by
  unfold Fresh; infer_instance

/-- The state `Ready` of the specification: initialized and healthy. -/
def Ready (c : Client) : Prop := c.initialized = true ∧ c.healthy = true

/-- Decidability of `Ready`. -/
instance Ready.decidable (c : Client) : Decidable (Ready c) := by
  unfold Ready; infer_instance

/-- The client and the state around it after every option of `opts` has been applied, in
list order, whatever the options returned. -/
def applyInOrder {σ : Type} (opts : List (ClientOption σ)) (cs : Client × σ) : Client × σ :=
  opts.foldl (fun cs opt => (opt cs.1 cs.2).2) cs

/-- What option number `i` of `opts` returns at its turn, that is applied after the
options before it: an error or `nil`; `nil` also when the list has no such option. -/
def optionError {σ : Type} (opts : List (ClientOption σ)) (cs : Client × σ) (i : Nat) :
    Option GoError :=
  match opts[i]? with
  | none => none
  | some opt =>
    (opt (applyInOrder (opts.take i) cs).1 (applyInOrder (opts.take i) cs).2).1

/-- The path the mock backend stores for a configuration. -/
def mockPath (config : Config) : String :=
  if config.ConfigFilePath = "" then config.XMLConfigPath else config.ConfigFilePath

/-- The state `Unhealthy` of the specification: initialized and not healthy. -/
def Unhealthy (c : Client) : Prop := c.initialized = true ∧ c.healthy = false

/-- Decidability of `Unhealthy`. -/
instance Unhealthy.decidable (c : Client) : Decidable (Unhealthy c) := by
  unfold Unhealthy; infer_instance

/-- A configuration names a file for the backend. -/
def hasPath (config : Config) : Prop :=
  config.ConfigFilePath ≠ "" ∨ config.XMLConfigPath ≠ ""

/-- Decidability of `hasPath`. -/
instance hasPath.decidable (config : Config) : Decidable (hasPath config) := by
  unfold hasPath; infer_instance

/-- The four lifecycle operations of a client: `Initialize`, `HealthCheck`,
`Reinitialize` and `Close`. -/
inductive Op where
  | init
  | check
  | reinit
  | close
  deriving DecidableEq, Repr

/-- One call of a lifecycle operation, at the clock reading `now`. -/
def Op.run {β : Type} (b : Backend β) (op : Op) (now : Time) (c : Client) (w : World β) :
    Option (Option GoError × Client × World β) :=
  match op with
  | .init => Client.Initialize b now c w
  | .check => Client.HealthCheck b now c w
  | .reinit => Client.Reinitialize b now c w
  | .close => Client.Close b c w

/-- A finite sequence of calls on one client, each with its clock reading: the client and
the world after the last call, whatever the calls returned; `none` when a call does not
return. -/
def runCalls {β : Type} (b : Backend β) :
    List (Op × Time) → Client → World β → Option (Client × World β)
  | [], c, w => some (c, w)
  | (op, now) :: calls, c, w =>
    match op.run b now c w with
    | none => none
    | some (_, c, w) => runCalls b calls c w

/-- Clients, named by the elements of `ι`, that share the mock backend of the process. -/
structure Fleet (ι : Type) where
  clients : ι → Client
  mock : World MockState

/-- One call of a lifecycle operation on the client `i` of a fleet. -/
def Fleet.call {ι : Type} [DecidableEq ι] (s : Fleet ι) (i : ι) (op : Op) (now : Time) :
    Option (Fleet ι) :=
  match op.run mockBackend now (s.clients i) s.mock with
  | none => none
  | some (_, c, w) => some { clients := Function.update s.clients i c, mock := w }

/-- A finite interleaved sequence of calls on the clients of a fleet. -/
def Fleet.calls {ι : Type} [DecidableEq ι] :
    List (ι × Op × Time) → Fleet ι → Option (Fleet ι)
  | [], s => some s
  | (i, op, now) :: rest, s =>
    match s.call i op now with
    | none => none
    | some s => Fleet.calls rest s

/-- The clients of a fleet are freshly constructed: each is what `NewClient` returns
without options for some configuration, and the mock backend is not initialized. -/
def Fleet.isNew {ι : Type} (s : Fleet ι) : Prop :=
  (∀ i, ∃ config,
    (NewClient (some config) ([] : List (ClientOption (World MockState))) s.mock).1 =
      .ok (s.clients i)) ∧
  s.mock.backend.mockInitialized = false

/-- The invariant of a fleet: every client is bound to a configuration, is healthy exactly
when it is initialized, and names a file when it is initialized; the mock is initialized
exactly when some client is, and at most one client is. -/
def Fleet.consistent {ι : Type} (s : Fleet ι) : Prop :=
  (∀ i, ∃ config, (s.clients i).config = some config ∧
    ((s.clients i).initialized = true → hasPath config)) ∧
  (∀ i, (s.clients i).healthy = (s.clients i).initialized) ∧
  (s.mock.backend.mockInitialized = true ↔ ∃ i, (s.clients i).initialized = true) ∧
  (∀ i j, (s.clients i).initialized = true → (s.clients j).initialized = true → i = j)

/-- An error of `LoadConfig` of `src/config.go`, read as the error of `LoadConfig` of
package `config` with the same wrapping and the same cause. -/
def sameLoadError : LoadError → config.LoadError
  | .loadFile err => .loadFile err
  | .accessFile err => .accessFile err
  | .config e => .config e

/-- The six variables that only package `config` reads, or that the two packages parse
differently, are unset. -/
def config.overlapEnv (h : config.Host) : Prop :=
  h.LookupEnv "FP_NETWORKTIMEOUT" = none ∧ h.LookupEnv "FP_DISABLECRLCHECKING" = none ∧
  h.LookupEnv "FP_XMLCONFIG" = none ∧ h.LookupEnv "FP_DEFAULT_CRYPTID" = none ∧
  h.LookupEnv "FP_LOGLEVEL" = none ∧ h.LookupEnv "FP_LOGFILE" = none

/-! ## Sample inputs -/

/-- Case tables that leave every code point above ASCII unchanged. -/
def asciiTables : CaseTables := ⟨fun r => r, fun r => r⟩

/-- An operating system with no file at any path and the given environment. -/
def envOnly (env : String → String) : OS :=
  { Stat := fun _ => .notExist, ReadFile := fun _ => .error "no such file", Getenv := env }

/-- An operating system with one readable file and the given environment. -/
def oneFile (path content : String) (env : String → String) : OS :=
  { Stat := fun p => if p = path then .ok else .notExist,
    ReadFile := fun p => if p = path then .ok content else .error "no such file",
    Getenv := env }

/-- A configuration that passes validation. -/
def sampleConfig : Config :=
  { NewConfig with
    AppName := "TestApp", AppVersion := "1.0.0", AppEnv := "DEV", DEKSharedSecret := "secret" }

/-- The environment of the test `TestLoadConfigNonExistentFile`. -/
def sampleEnv (name : String) : String :=
  if name = "FP_APPNAME" then "TestApp"
  else if name = "FP_APPVERSION" then "1.0.0"
  else if name = "FP_APPENV" then "DEV"
  else if name = "FP_DEFAULT_SHAREDSECRET" then "secret"
  else ""

/-- A configuration file that passes validation and sets the network timeout to 30. -/
def sampleFile : String :=
  "fp_appName=TestApp\nfp_appVersion=1.0.0\nfp_appEnv=DEV\nfp_default_sharedSecret=secret\nfp_networkTimeout=30\n"

/-- An environment whose only variable is a network timeout that is not a number. -/
def timeoutEnv (name : String) : String :=
  if name = "FP_NETWORKTIMEOUT" then "45s" else ""

/-- The configuration of the test `TestConfigString`, with the two secrets of the
specification. -/
def secretConfig : Config :=
  { NewConfig with
    AppName := "TestApp", AppVersion := "1.0.0", AppEnv := "DEV",
    SimpleAPIInstallPath := "/opt/voltage", TrustStorePath := "/opt/trust",
    XMLConfigPath := "./config.xml", NetworkTimeout := 15,
    KEKCertPassphrase := "secretXYZ", DEKSharedSecret := "secretABC" }

/-- A host with no file at any path and the given environment, in which a variable
with an empty value counts as unset. -/
def hostOnly (env : String → String) : config.Host :=
  { Stat := fun _ => .notExist, ReadFile := fun _ => .error "no such file",
    LookupEnv := fun key => if env key = "" then none else some (env key) }

/-- The environment of the test `TestLoadConfigNonExistentFile` with a network timeout
that is not a number. -/
def badTimeoutEnv (name : String) : String :=
  if name = "FP_NETWORKTIMEOUT" then "abc" else sampleEnv name

/-- The configuration of the tests of `voltage_test.go`. -/
def testConfig : Config :=
  { AppName := "TestApp", AppVersion := "1.0.0", AppEnv := "DEV",
    SimpleAPIInstallPath := "", TrustStorePath := "", XMLConfigPath := "",
    KEKCertPath := "", KEKCertPassphrase := "", KEKSharedSecret := "",
    DEKSharedSecret := "test_secret", DEKUsername := "", DEKPassword := "",
    NetworkTimeout := 0, DisableCRLChecking := false, DefaultCryptID := "",
    LogLevel := 0, LogFile := "", ConfigFilePath := "test.cfg" }

/-- The client `NewClient` builds from `testConfig`. -/
def freshClient : Client :=
  { config := some testConfig, initialized := false, lastHealthCheck := 0, healthy := false,
    sessionID := "" }

/-- The client `freshClient` after an `Initialize` at instant 5. -/
def readyClient : Client :=
  { config := some testConfig, initialized := true, lastHealthCheck := 5, healthy := true,
    sessionID := "" }

/-- The mock backend at program start, no operation invoked yet. -/
def mockFresh : World MockState :=
  { backend := { mockInitialized := false, mockConfigPath := "" }, calls := [] }

/-- The mock backend initialised from `testConfig`, no operation recorded. -/
def mockReady : World MockState :=
  { backend := { mockInitialized := true, mockConfigPath := "test.cfg" }, calls := [] }

/-- A backend without state whose operations return the given results. -/
def constBackend (init term health : Option GoError) : Backend Unit :=
  { initializeVoltageLibrary := fun _ s => some (init, s),
    terminateVoltageLibrary := fun _ s => some (term, s),
    performHealthCheckC := fun _ s => some (health, s) }

/-- The world of a backend without state, no operation invoked yet. -/
def unitWorld : World Unit := { backend := (), calls := [] }

/-- The error a backend reports when the service cannot be reached. -/
def connectionError : GoError := .voltage (NewVoltageError 8 "no route to host")

/-- An option that sets the session identifier and records its name around the client. -/
def sessionOption (name : String) : ClientOption (List String) :=
  fun c s => (none, { c with sessionID := name }, s ++ [name])

/-- An option that fails and records its name around the client. -/
def failingOption (name : String) : ClientOption (List String) :=
  fun c s => (some (.text "bad option"), c, s ++ [name])

/-- A backend that can be initialised once: its state counts the initialisations, the
first returns `nil` and every later one the connection error; termination and the health
check always return `nil`. -/
def onceBackend : Backend Nat :=
  { initializeVoltageLibrary := fun _ n =>
      if n = 0 then some (none, n + 1) else some (some connectionError, n + 1),
    terminateVoltageLibrary := fun _ n => some (none, n),
    performHealthCheckC := fun _ n => some (none, n) }

/-- Two clients built from the configuration of the tests, on the mock backend at program
start. -/
def twoClients : Fleet Bool :=
  { clients := fun _ => freshClient, mock := mockFresh }

/-- A host with one readable file and the given environment, in which a variable with an
empty value counts as unset. -/
def hostFile (path content : String) (env : String → String) : config.Host :=
  { Stat := fun p => if p = path then .ok else .notExist,
    ReadFile := fun p => if p = path then .ok content else .error "no such file",
    LookupEnv := fun key => if env key = "" then none else some (env key) }

/-- A host with no file and the environment of the test `TestLoadConfigNonExistentFile`,
in which `FP_NETWORKTIMEOUT` is set to the empty text. -/
def emptyTimeoutHost : config.Host :=
  { Stat := fun _ => .notExist, ReadFile := fun _ => .error "no such file",
    LookupEnv := fun key =>
      if key = "FP_NETWORKTIMEOUT" then some "" else (hostOnly sampleEnv).LookupEnv key }

/-! ## Lemmas: lists and strings -/


theorem dropWhile_append_stop {p : Char → Bool} (x : Char) (hx : p x = false) :
    ∀ l1 l2 : List Char, (l1 ++ x :: l2).dropWhile p = l1.dropWhile p ++ x :: l2
  | [], l2 => by simp [List.dropWhile, hx]
  | a :: l1, l2 => by
    by_cases ha : p a = true
    · simp [List.dropWhile, ha, dropWhile_append_stop x hx l1 l2]
    · simp [List.dropWhile, ha]

theorem rdropWhile_append_stop {p : Char → Bool} (x : Char) (hx : p x = false)
    (a b : List Char) : (a ++ x :: b).rdropWhile p = a ++ x :: b.rdropWhile p := by
  simp only [List.rdropWhile, List.reverse_append, List.reverse_cons, List.append_assoc,
    List.singleton_append]
  rw [dropWhile_append_stop x hx]
  simp

theorem rdropWhile_append_all {p : Char → Bool} (a b : List Char) (hb : ∀ x ∈ b, p x = true) :
    (a ++ b).rdropWhile p = a.rdropWhile p := by
  simp only [List.rdropWhile, List.reverse_append]
  rw [List.dropWhile_append_of_pos (by simpa using hb)]

theorem rdropWhile_cons {p : Char → Bool} (c : Char) (l : List Char) :
    (c :: l).rdropWhile p =
      if l.rdropWhile p = [] then (if p c then [] else [c]) else c :: l.rdropWhile p := by
  by_cases h : l.rdropWhile p = []
  · rw [if_pos h]
    have hall : ∀ x ∈ l, p x = true := List.rdropWhile_eq_nil_iff.mp h
    have := rdropWhile_append_all (p := p) [c] l hall
    simp only [List.singleton_append] at this
    rw [this, List.rdropWhile_singleton]
  · rw [if_neg h]
    obtain ⟨x, hx, hpx⟩ : ∃ x, x ∈ l ∧ ¬ p x = true := by
      by_contra hcon
      push_neg at hcon
      exact h (List.rdropWhile_eq_nil_iff.mpr hcon)
    obtain ⟨l1, l2, rfl⟩ := List.append_of_mem hx
    have hpx' : p x = false := by simpa using hpx
    have e1 := rdropWhile_append_stop (p := p) x hpx' (c :: l1) l2
    have e2 := rdropWhile_append_stop (p := p) x hpx' l1 l2
    simp only [List.cons_append] at e1
    rw [e1, e2]

theorem dropWhile_rdropWhile_comm {p : Char → Bool} :
    ∀ l : List Char, (l.rdropWhile p).dropWhile p = (l.dropWhile p).rdropWhile p
  | [] => by simp
  | c :: l => by
    have ih := dropWhile_rdropWhile_comm (p := p) l
    rw [rdropWhile_cons]
    by_cases hc : p c = true
    · simp only [hc, if_true, List.dropWhile_cons_of_pos]
      by_cases h : l.rdropWhile p = []
      · rw [if_pos h, ← ih, h]
      · rw [if_neg h, List.dropWhile_cons_of_pos hc, ih]
    · rw [List.dropWhile_cons_of_neg hc, rdropWhile_cons]
      by_cases h : l.rdropWhile p = []
      · simp [h, hc]
      · simp [h, hc]

theorem trim_rdropWhile {p : Char → Bool} (l : List Char) :
    ((l.rdropWhile p).dropWhile p).rdropWhile p = (l.dropWhile p).rdropWhile p := by
  rw [dropWhile_rdropWhile_comm, List.rdropWhile_idempotent]

theorem splitChars_ne_nil (sep : Char) : ∀ l : List Char, splitChars sep l ≠ []
  | [] => by simp [splitChars]
  | c :: cs => by
    rw [splitChars]
    split
    · simp
    · split <;> simp

theorem splitChars_not_mem (sep : Char) : ∀ l : List Char, sep ∉ l → splitChars sep l = [l]
  | [], _ => by simp [splitChars]
  | c :: cs, h => by
    have hc : c ≠ sep := fun e => h (by simp [e])
    have ih := splitChars_not_mem sep cs (fun e => h (by simp [e]))
    simp [splitChars, hc, ih]

theorem splitChars_append_sep (sep : Char) : ∀ (a b : List Char), sep ∉ a →
    splitChars sep (a ++ sep :: b) = a :: splitChars sep b
  | [], b, _ => by simp [splitChars]
  | c :: cs, b, h => by
    have hc : c ≠ sep := fun e => h (by simp [e])
    have ih := splitChars_append_sep sep cs b (fun e => h (by simp [e]))
    simp [splitChars, hc, ih]

theorem splitChars_pieces (sep : Char) : ∀ (l : List Char), ∀ p ∈ splitChars sep l, sep ∉ p
  | [], p, hp => by
    simp [splitChars] at hp
    simp [hp]
  | c :: cs, p, hp => by
    have ih := splitChars_pieces sep cs
    rw [splitChars] at hp
    split at hp
    · rcases List.mem_cons.mp hp with rfl | hp
      · simp
      · exact ih p hp
    · next hc =>
      split at hp
      · next hnil => exact absurd hnil (splitChars_ne_nil sep cs)
      · next l ls heq =>
        rw [heq] at ih
        rcases List.mem_cons.mp hp with rfl | hp
        · intro hmem
          rcases List.mem_cons.mp hmem with e | e
          · exact hc e.symm
          · exact ih l (by simp) e
        · exact ih p (by simp [hp])

theorem Split_Join : ∀ (l : String) (ls : List String), (∀ x ∈ l :: ls, '\n' ∉ x.data) →
    Split (Join (l :: ls) "\n") '\n' = l :: ls
  | l, [], h => by
    have := splitChars_not_mem '\n' l.data (h l (by simp))
    simp [Split, Join, this]
  | l, l2 :: ls, h => by
    have ih := Split_Join l2 ls (fun x hx => h x (by simp [hx]))
    have h1 := splitChars_append_sep '\n' l.data (Join (l2 :: ls) "\n").data (h l (by simp))
    simp only [Split] at ih ⊢
    simp only [Join, String.data_append, List.append_assoc]
    rw [List.singleton_append, h1, List.map_cons, ih]

theorem Split_pieces (data : String) : ∀ l ∈ Split data '\n', '\n' ∉ l.data := by
  intro l hl
  simp only [Split, List.mem_map] at hl
  obtain ⟨p, hp, rfl⟩ := hl
  exact splitChars_pieces '\n' data.data p hp

theorem setConfigValue_unknown (u : CaseTables) (c : Config) (key value : String)
    (h : key ∉ recognisedKeys) : setConfigValue u c key value = c := by
  simp only [recognisedKeys, List.mem_cons, List.mem_singleton, List.not_mem_nil, or_false,
    not_or] at h
  obtain ⟨h1, h2, h3, h4, h5, h6, h7, h8, h9, h10, h11, h12, h13, h14, h15, h16, h17⟩ := h
  simp only [setConfigValue, h1, h2, h3, h4, h5, h6, h7, h8, h9, h10, h11, h12, h13, h14, h15,
    h16, h17, if_false]

theorem loadFromFile_line_unknown (u : CaseTables) (c : Config) (line : String)
    (h : isUnknownKeyLine line = true) : loadFromFile_line u c line = c := by
  unfold loadFromFile_line
  unfold isUnknownKeyLine at h
  dsimp only
  split
  · rfl
  · split
    · rfl
    · split
      · next k v heq =>
        rw [heq] at h
        exact setConfigValue_unknown u c _ _ (by simpa using h)
      · rfl

theorem SplitN2_of_not_mem (s : String) (sep : Char) (h : sep ∉ s.data) :
    SplitN2 s sep = [s] := by
  have : s.data.dropWhile (fun c => c != sep) = [] := by
    rw [List.dropWhile_eq_nil_iff]
    intro x hx
    simp only [bne_iff_ne, ne_eq]
    intro e
    exact h (e ▸ hx)
  simp [SplitN2, this]

theorem loadFromFile_line_skipped (u : CaseTables) (c : Config) (line : String)
    (h : isSkippedLine line) : loadFromFile_line u c line = c := by
  unfold loadFromFile_line
  unfold isSkippedLine at h
  dsimp only
  split
  · rfl
  · next h1 =>
    split
    · rfl
    · next h2 =>
      rcases h with h | h | h | h | h
      · simp [h] at h1
      · simp [h] at h1
      · simp [h] at h1
      · simp [h.1, h.2] at h2
      · rw [SplitN2_of_not_mem _ _ h]

theorem foldl_filter_noop {f : Config → String → Config} (keep : String → Bool)
    (h : ∀ c l, keep l = false → f c l = c) :
    ∀ (ls : List String) (c : Config), (ls.filter keep).foldl f c = ls.foldl f c
  | [], _ => rfl
  | l :: ls, c => by
    by_cases hk : keep l = true
    · simp [List.filter, hk, foldl_filter_noop keep h ls]
    · have hk' : keep l = false := by simpa using hk
      simp [List.filter, hk', h c l hk', foldl_filter_noop keep h ls]

theorem loadFromFile_line_empty (u : CaseTables) (c : Config) :
    loadFromFile_line u c "" = c := rfl

theorem loadFromFile_data_Join (u : CaseTables) (c : Config) (ls : List String)
    (h : ∀ l ∈ ls, '\n' ∉ l.data) :
    loadFromFile_data u c (Join ls "\n") = loadFromFile_lines u c ls := by
  cases ls with
  | nil => rfl
  | cons l ls => rw [loadFromFile_data, Split_Join l ls h]

theorem keyShape_spec (k : String) (h : keyShape k = true) :
    ∃ c t, k.data = c :: t ∧ IsSpace c = false ∧ c ≠ '#' ∧ c ≠ ';' ∧ c ≠ '[' ∧
      '=' ∉ k.data ∧ k.data.rdropWhile IsSpace = k.data := by
  unfold keyShape at h
  split at h
  · simp at h
  · next c t hk =>
    simp only [Bool.and_eq_true, Bool.not_eq_true', bne_iff_ne, ne_eq] at h
    obtain ⟨⟨⟨⟨⟨h1, h2⟩, h3⟩, h4⟩, h5⟩, h6⟩ := h
    refine ⟨c, t, hk, h1, h2, h3, h4, ?_, ?_⟩
    · simpa using h5
    · rw [List.rdropWhile_eq_self_iff]
      intro hne
      split at h6
      · next l hl =>
        have : k.data.getLast hne = l := by
          have := List.getLast?_eq_getLast _ hne
          rw [hl] at this
          exact (Option.some.inj this).symm
        rw [this]
        simpa using h6
      · simp at h6

theorem loadFromFile_line_keyvalue (u : CaseTables) (c : Config) (ws k ws' v : String)
    (hk : keyShape k = true) (hws : ∀ x ∈ ws.data, IsSpace x = true)
    (hws' : ∀ x ∈ ws'.data, IsSpace x = true) :
    loadFromFile_line u c (ws ++ k ++ ws' ++ "=" ++ v) = setConfigValue u c k (TrimSpace v) := by
  obtain ⟨c0, t, hkd, hc0, hhash, hsemi, hbr, hnoeq, hlast⟩ := keyShape_spec k hk
  have heqsp : IsSpace '=' = false := by decide
  have hT : TrimSpace (ws ++ k ++ ws' ++ "=" ++ v) =
      ⟨c0 :: (t ++ ws'.data ++ '=' :: v.data.rdropWhile IsSpace)⟩ := by
    unfold TrimSpace
    congr 1
    have e : (ws ++ k ++ ws' ++ "=" ++ v).data =
        ws.data ++ (c0 :: (t ++ ws'.data) ++ '=' :: v.data) := by
      simp only [String.data_append, hkd]
      have : "=".data = ['='] := rfl
      simp [this]
    rw [e, List.dropWhile_append_of_pos hws, List.cons_append,
      List.dropWhile_cons_of_neg (by simp [hc0]), ← List.cons_append,
      rdropWhile_append_stop '=' heqsp]
    simp
  have hpre : ∀ x ∈ c0 :: (t ++ ws'.data), (x != '=') = true := by
    intro x hx
    simp only [bne_iff_ne, ne_eq]
    rintro rfl
    rw [← List.cons_append, ← hkd] at hx
    rcases List.mem_append.mp hx with hx | hx
    · exact hnoeq hx
    · have := hws' _ hx
      rw [heqsp] at this
      exact Bool.noConfusion this
  have hS : SplitN2 ⟨c0 :: (t ++ ws'.data ++ '=' :: v.data.rdropWhile IsSpace)⟩ '=' =
      [⟨c0 :: (t ++ ws'.data)⟩, ⟨v.data.rdropWhile IsSpace⟩] := by
    unfold SplitN2
    have e : (c0 :: (t ++ ws'.data ++ '=' :: v.data.rdropWhile IsSpace)) =
        (c0 :: (t ++ ws'.data)) ++ '=' :: v.data.rdropWhile IsSpace := by simp
    simp only [e]
    rw [List.dropWhile_append_of_pos hpre, List.takeWhile_append_of_pos hpre]
    simp
  have hK : TrimSpace ⟨c0 :: (t ++ ws'.data)⟩ = k := by
    unfold TrimSpace
    show String.mk _ = String.mk k.data
    congr 1
    simp only
    rw [List.dropWhile_cons_of_neg (by simp [hc0]), ← List.cons_append, ← hkd,
      rdropWhile_append_all _ _ hws', hlast]
  have hV : TrimSpace ⟨v.data.rdropWhile IsSpace⟩ = TrimSpace v := by
    unfold TrimSpace
    congr 1
    exact trim_rdropWhile v.data
  unfold loadFromFile_line
  simp only [hT, hS, hK, hV]
  have n1 : ∀ l : List Char, ¬ (String.mk (c0 :: l) = "") := by
    intro l h
    have := congrArg String.data h
    simp at this
  have n2 : ∀ x : Char, x ≠ c0 →
      HasPrefix (String.mk (c0 :: (t ++ ws'.data ++ '=' :: v.data.rdropWhile IsSpace)))
        (String.mk [x]) = false := by
    intro x hx
    simp [HasPrefix, List.isPrefixOf, hx]
  have e1 : "#" = String.mk ['#'] := rfl
  have e2 : ";" = String.mk [';'] := rfl
  have e3 : "[" = String.mk ['['] := rfl
  rw [e1, e2, e3, n2 '#' (Ne.symm hhash), n2 ';' (Ne.symm hsemi), n2 '[' (Ne.symm hbr)]
  simp [n1]

/-! ## Lemmas: validation -/

theorem envMessage_eq (env : String) : 
  "AppEnv must be one of: " ++ Join validEnvs ", " ++ " (got: " ++ env ++ ")" = envMessage env := by
  rfl

theorem validEnvs_any (env : String) :
    (!validEnvs.any (fun e => env == e)) = true ↔ env ∉ ["DEV", "QA", "CAT", "PROD"] := by
  simp [validEnvs]

theorem ite_append_right {p : Prop} [Decidable p] (l x : List String) :
    (if p then l ++ x else l) = l ++ (if p then x else []) := by
  split <;> simp

theorem hasAuth_bool (c : Config) :
    (!(c.KEKCertPath != "" || c.KEKSharedSecret != "") &&
      !(c.DEKSharedSecret != "" || c.DEKUsername != "" && c.DEKPassword != "")) = true
    ↔ ¬ hasAuthMethod c := by
  unfold hasAuthMethod
  by_cases k1 : c.KEKCertPath = "" <;> by_cases k2 : c.KEKSharedSecret = "" <;>
  by_cases k3 : c.DEKSharedSecret = "" <;> by_cases k4 : c.DEKUsername = "" <;>
  by_cases k5 : c.DEKPassword = "" <;> simp [k1, k2, k3, k4, k5]

theorem Validate_eq (c : Config) :
    Validate c = if violatedMessages c = [] then none
      else some { Field := "", Message := Join (violatedMessages c) "; " } := by
  have key : ([] : List String) ++
      (if c.AppName = "" then ["AppName is required (set fp_appName or FP_APPNAME)"] else []) ++
      (if c.AppVersion = "" then ["AppVersion is required (set fp_appVersion or FP_APPVERSION)"]
        else []) ++
      (if c.AppEnv = "" then ["AppEnv is required (set fp_appEnv or FP_APPENV)"] else []) ++
      (if c.AppEnv ≠ "" then
        (if c.AppEnv ∉ ["DEV", "QA", "CAT", "PROD"] then [envMessage c.AppEnv]
          else []) else []) ++
      (if ¬ hasAuthMethod c then
        ["At least one authentication method must be configured (KEK or DEK credentials)"]
        else []) = violatedMessages c := by
    unfold violatedMessages
    by_cases h3 : c.AppEnv = "" <;> by_cases h4 : c.AppEnv ∈ ["DEV", "QA", "CAT", "PROD"] <;>
    by_cases h5 : hasAuthMethod c <;> simp [h3, h4, h5]
  unfold Validate
  simp only [envMessage_eq, validEnvs_any, hasAuth_bool, ite_append_right, key]
  cases violatedMessages c <;> simp

theorem splitSep_ne_nil : ∀ l : List Char, splitSep l ≠ []
  | [] => by simp [splitSep]
  | [_] => by simp [splitSep]
  | c :: d :: rest => by
    rw [splitSep]
    split
    · simp
    · split <;> simp

theorem splitSep_length_cons (c d : Char) (rest : List Char) :
    (splitSep (c :: d :: rest)).length =
      if c = ';' ∧ d = ' ' then (splitSep rest).length + 1 else (splitSep (d :: rest)).length := by
  rw [splitSep]
  split
  · simp
  · split
    · next h => exact absurd h (splitSep_ne_nil _)
    · next h => simp [h]

theorem splitSep_length_append : ∀ a b : List Char,
    ¬(a.getLast? = some ';' ∧ b.head? = some ' ') →
    (splitSep (a ++ b)).length + 1 = (splitSep a).length + (splitSep b).length
  | [], b, _ => by simp [splitSep]; omega
  | [c], [], _ => by simp [splitSep]
  | [c], d :: rest, h => by
    have hc : ¬(c = ';' ∧ d = ' ') := by simpa using h
    have h1 : (splitSep [c]).length = 1 := by simp [splitSep]
    simp only [List.singleton_append, splitSep_length_cons, hc, if_false, h1]
    omega
  | c :: d :: rest, b, h => by
    by_cases hc : c = ';' ∧ d = ' '
    · have ih := splitSep_length_append rest b (by
        cases rest with
        | nil => simp
        | cons x xs => simpa [List.getLast?_cons_cons] using h)
      simp only [List.cons_append, splitSep_length_cons, hc, and_self, if_true]
      omega
    · have ih := splitSep_length_append (d :: rest) b (by
        simpa [List.getLast?_cons_cons] using h)
      simp only [List.cons_append, splitSep_length_cons, hc, if_false] at ih ⊢
      omega

theorem partsCount_append (a b : String)
    (h : ¬(a.data.getLast? = some ';' ∧ b.data.head? = some ' ')) :
    partsCount (a ++ b) + 1 = partsCount a + partsCount b := by
  simpa [partsCount] using splitSep_length_append a.data b.data h

theorem partsCount_sep (s : String) : partsCount ("; " ++ s) = partsCount s + 1 := by
  simp [partsCount, splitSep_length_cons]

theorem partsCount_Join : ∀ (m : String) (ms : List String),
    partsCount (Join (m :: ms) "; ") = ((m :: ms).map partsCount).sum
  | m, [] => by simp [Join]
  | m, m2 :: ms => by
    have ih := partsCount_Join m2 ms
    have h1 := partsCount_append m ("; " ++ Join (m2 :: ms) "; ") (by simp)
    rw [partsCount_sep] at h1
    simp only [Join, List.map, List.sum_cons] at ih ⊢
    rw [String.append_assoc]
    omega

theorem partsCount_envMessage (env : String) : partsCount (envMessage env) = partsCount env := by
  have h1 := partsCount_append "AppEnv must be one of: DEV, QA, CAT, PROD (got: " (env ++ ")")
    (fun h => absurd h.1 (by decide))
  have h2 := partsCount_append env ")" (by simp)
  have h3 : partsCount "AppEnv must be one of: DEV, QA, CAT, PROD (got: " = 1 := by decide
  have h4 : partsCount ")" = 1 := by decide
  unfold envMessage
  rw [String.append_assoc]
  omega

theorem violatedMessages_eq_nil_iff (c : Config) :
    violatedMessages c = [] ↔
      (c.AppName ≠ "" ∧ c.AppVersion ≠ "" ∧ c.AppEnv ∈ ["DEV", "QA", "CAT", "PROD"] ∧
        hasAuthMethod c) := by
  unfold violatedMessages
  by_cases h1 : c.AppName = "" <;> by_cases h2 : c.AppVersion = "" <;>
  by_cases h3 : c.AppEnv = "" <;> by_cases h4 : c.AppEnv ∈ ["DEV", "QA", "CAT", "PROD"] <;>
  by_cases h5 : hasAuthMethod c <;> simp [h1, h2, h3, h4, h5]

theorem violatedMessages_length (c : Config) :
    (violatedMessages c).length = violatedRules c := by
  unfold violatedMessages violatedRules
  by_cases h1 : c.AppName = "" <;> by_cases h2 : c.AppVersion = "" <;>
  by_cases h3 : c.AppEnv = "" <;> by_cases h4 : c.AppEnv ∈ ["DEV", "QA", "CAT", "PROD"] <;>
  by_cases h5 : hasAuthMethod c <;> simp [h1, h2, h3, h4, h5]

theorem partsCount_validEnv (env : String) (h : env = "" ∨ env ∈ ["DEV", "QA", "CAT", "PROD"]) :
    partsCount env = 1 := by
  simp only [List.mem_cons, List.mem_singleton, List.not_mem_nil, or_false] at h
  rcases h with rfl | rfl | rfl | rfl | rfl <;> decide

theorem violatedMessages_parts (c : Config) :
    ((violatedMessages c).map partsCount).sum + 1 = violatedRules c + partsCount c.AppEnv := by
  have e1 : partsCount "AppName is required (set fp_appName or FP_APPNAME)" = 1 := by decide
  have e2 : partsCount "AppVersion is required (set fp_appVersion or FP_APPVERSION)" = 1 := by
    decide
  have e3 : partsCount "AppEnv is required (set fp_appEnv or FP_APPENV)" = 1 := by decide
  have e5 : partsCount
      "At least one authentication method must be configured (KEK or DEK credentials)" = 1 := by
    decide
  unfold violatedMessages violatedRules
  by_cases h3 : c.AppEnv = ""
  · have h4 : c.AppEnv ∉ ["DEV", "QA", "CAT", "PROD"] := by rw [h3]; decide
    have h6 := partsCount_validEnv c.AppEnv (Or.inl h3)
    by_cases h1 : c.AppName = "" <;> by_cases h2 : c.AppVersion = "" <;>
    by_cases h5 : hasAuthMethod c <;> simp [h1, h2, h3, h4, h5, e1, e2, e3, e5] <;> simp [h3] at h6  <;> omega
  · by_cases h4 : c.AppEnv ∈ ["DEV", "QA", "CAT", "PROD"]
    · have h6 := partsCount_validEnv c.AppEnv (Or.inr h4)
      by_cases h1 : c.AppName = "" <;> by_cases h2 : c.AppVersion = "" <;>
      by_cases h5 : hasAuthMethod c <;>
      simp only [h1, h2, h3, h4, h5, if_true, if_false, List.nil_append, List.append_nil,
        List.cons_append, List.map, List.sum_cons, List.sum_nil, e1, e2, e3, e5, h6] <;> omega
    · by_cases h1 : c.AppName = "" <;> by_cases h2 : c.AppVersion = "" <;>
      by_cases h5 : hasAuthMethod c <;>
      simp only [h1, h2, h3, h4, h5, if_true, if_false, List.nil_append, List.append_nil,
        List.cons_append, List.map, List.sum_cons, List.sum_nil, e1, e2, e3, e5,
        partsCount_envMessage] <;> omega

/-! ## Lemmas: environment overlay and resolver -/

theorem loadFromEnv_eq (u : CaseTables) (os : OS) (c : Config) :
    loadFromEnv u os c =
      { c with
        AppName := if os.Getenv "FP_APPNAME" ≠ "" then os.Getenv "FP_APPNAME" else c.AppName,
        AppVersion := if os.Getenv "FP_APPVERSION" ≠ "" then os.Getenv "FP_APPVERSION"
          else c.AppVersion,
        AppEnv := if os.Getenv "FP_APPENV" ≠ "" then ToUpper u (os.Getenv "FP_APPENV")
          else c.AppEnv,
        SimpleAPIInstallPath := if os.Getenv "FP_SIMPLEAPI_INSTALLPATH" ≠ "" then
          os.Getenv "FP_SIMPLEAPI_INSTALLPATH" else c.SimpleAPIInstallPath,
        TrustStorePath := if os.Getenv "FP_TRUSTSTORE_PATH" ≠ "" then
          os.Getenv "FP_TRUSTSTORE_PATH" else c.TrustStorePath,
        KEKCertPath := if os.Getenv "FP_KEK_CERTPATH" ≠ "" then os.Getenv "FP_KEK_CERTPATH"
          else c.KEKCertPath,
        KEKCertPassphrase := if os.Getenv "FP_KEK_CERTPASSPHRASE" ≠ "" then
          os.Getenv "FP_KEK_CERTPASSPHRASE" else c.KEKCertPassphrase,
        KEKSharedSecret := if os.Getenv "FP_KEK_SHAREDSECRET" ≠ "" then
          os.Getenv "FP_KEK_SHAREDSECRET" else c.KEKSharedSecret,
        DEKSharedSecret := if os.Getenv "FP_DEFAULT_SHAREDSECRET" ≠ "" then
          os.Getenv "FP_DEFAULT_SHAREDSECRET" else c.DEKSharedSecret,
        DEKUsername := if os.Getenv "FP_DEFAULT_USERNAME" ≠ "" then
          os.Getenv "FP_DEFAULT_USERNAME" else c.DEKUsername,
        DEKPassword := if os.Getenv "FP_DEFAULT_PASSWORD" ≠ "" then
          os.Getenv "FP_DEFAULT_PASSWORD" else c.DEKPassword,
        NetworkTimeout := if os.Getenv "FP_NETWORKTIMEOUT" ≠ "" then
          (Atoi (os.Getenv "FP_NETWORKTIMEOUT")).getD c.NetworkTimeout else c.NetworkTimeout,
        DisableCRLChecking := if os.Getenv "FP_DISABLECRLCHECKING" ≠ "" then
          ToLower u (os.Getenv "FP_DISABLECRLCHECKING") == "true" else c.DisableCRLChecking } := by
  apply Config.ext
  · unfold loadFromEnv
    cases Atoi (os.Getenv "FP_NETWORKTIMEOUT") <;>
    simp only [apply_ite Config.AppName, ite_self, Option.getD]
  · unfold loadFromEnv
    cases Atoi (os.Getenv "FP_NETWORKTIMEOUT") <;>
    simp only [apply_ite Config.AppVersion, ite_self, Option.getD]
  · unfold loadFromEnv
    cases Atoi (os.Getenv "FP_NETWORKTIMEOUT") <;>
    simp only [apply_ite Config.AppEnv, ite_self, Option.getD]
  · unfold loadFromEnv
    cases Atoi (os.Getenv "FP_NETWORKTIMEOUT") <;>
    simp only [apply_ite Config.SimpleAPIInstallPath, ite_self, Option.getD]
  · unfold loadFromEnv
    cases Atoi (os.Getenv "FP_NETWORKTIMEOUT") <;>
    simp only [apply_ite Config.TrustStorePath, ite_self, Option.getD]
  · unfold loadFromEnv
    cases Atoi (os.Getenv "FP_NETWORKTIMEOUT") <;>
    simp only [apply_ite Config.XMLConfigPath, ite_self, Option.getD]
  · unfold loadFromEnv
    cases Atoi (os.Getenv "FP_NETWORKTIMEOUT") <;>
    simp only [apply_ite Config.KEKCertPath, ite_self, Option.getD]
  · unfold loadFromEnv
    cases Atoi (os.Getenv "FP_NETWORKTIMEOUT") <;>
    simp only [apply_ite Config.KEKCertPassphrase, ite_self, Option.getD]
  · unfold loadFromEnv
    cases Atoi (os.Getenv "FP_NETWORKTIMEOUT") <;>
    simp only [apply_ite Config.KEKSharedSecret, ite_self, Option.getD]
  · unfold loadFromEnv
    cases Atoi (os.Getenv "FP_NETWORKTIMEOUT") <;>
    simp only [apply_ite Config.DEKSharedSecret, ite_self, Option.getD]
  · unfold loadFromEnv
    cases Atoi (os.Getenv "FP_NETWORKTIMEOUT") <;>
    simp only [apply_ite Config.DEKUsername, ite_self, Option.getD]
  · unfold loadFromEnv
    cases Atoi (os.Getenv "FP_NETWORKTIMEOUT") <;>
    simp only [apply_ite Config.DEKPassword, ite_self, Option.getD]
  · unfold loadFromEnv
    cases Atoi (os.Getenv "FP_NETWORKTIMEOUT") <;>
    simp only [apply_ite Config.NetworkTimeout, ite_self, Option.getD]
  · unfold loadFromEnv
    cases Atoi (os.Getenv "FP_NETWORKTIMEOUT") <;>
    simp only [apply_ite Config.DisableCRLChecking, ite_self, Option.getD]
  · unfold loadFromEnv
    cases Atoi (os.Getenv "FP_NETWORKTIMEOUT") <;>
    simp only [apply_ite Config.DefaultCryptID, ite_self, Option.getD]
  · unfold loadFromEnv
    cases Atoi (os.Getenv "FP_NETWORKTIMEOUT") <;>
    simp only [apply_ite Config.LogLevel, ite_self, Option.getD]
  · unfold loadFromEnv
    cases Atoi (os.Getenv "FP_NETWORKTIMEOUT") <;>
    simp only [apply_ite Config.LogFile, ite_self, Option.getD]
  · unfold loadFromEnv
    cases Atoi (os.Getenv "FP_NETWORKTIMEOUT") <;>
    simp only [apply_ite Config.ConfigFilePath, ite_self, Option.getD]

theorem Validate_ConfigFilePath (c : Config) (p : String) :
    Validate { c with ConfigFilePath := p } = Validate c := rfl

theorem loadFromEnv_ConfigFilePath (u : CaseTables) (os : OS) (c : Config) (p : String) :
    loadFromEnv u os { c with ConfigFilePath := p } =
      { loadFromEnv u os c with ConfigFilePath := p } := by
  simp only [loadFromEnv_eq]

theorem LoadConfig_ok_iff (u : CaseTables) (os : OS) (p : String) (cfg : Config) :
    LoadConfig u os p = .ok cfg ↔
      ∃ c0, LoadConfig_file u os { NewConfig with ConfigFilePath := p } p = .ok c0 ∧
        cfg = loadFromEnv u os c0 ∧ Validate (loadFromEnv u os c0) = none := by
  unfold LoadConfig
  dsimp only
  split
  · next e h => simp [h]
  · next c0 h =>
    rw [h]
    simp only [Except.ok.injEq, exists_eq_left']
    split
    · next e hv => simp [hv]
    · next hv => simp [hv, eq_comm]

/-! ## Lemmas: file parser and resolver -/

theorem setConfigValue_ConfigFilePath (u : CaseTables) (c : Config) (key value : String) :
    (setConfigValue u c key value).ConfigFilePath = c.ConfigFilePath := by
  unfold setConfigValue
  cases Atoi value <;> simp only [apply_ite Config.ConfigFilePath, ite_self]

theorem loadFromFile_line_ConfigFilePath (u : CaseTables) (c : Config) (line : String) :
    (loadFromFile_line u c line).ConfigFilePath = c.ConfigFilePath := by
  unfold loadFromFile_line
  dsimp only
  split
  · rfl
  · split
    · rfl
    · split
      · exact setConfigValue_ConfigFilePath u c _ _
      · rfl

theorem loadFromFile_lines_ConfigFilePath (u : CaseTables) :
    ∀ (ls : List String) (c : Config),
      (loadFromFile_lines u c ls).ConfigFilePath = c.ConfigFilePath
  | [], _ => rfl
  | l :: ls, c => by
    have ih := loadFromFile_lines_ConfigFilePath u ls (loadFromFile_line u c l)
    simp only [loadFromFile_lines, List.foldl_cons] at ih ⊢
    rw [ih, loadFromFile_line_ConfigFilePath]

theorem LoadConfig_file_ConfigFilePath (u : CaseTables) (os : OS) (c c0 : Config) (p : String)
    (h : LoadConfig_file u os c p = .ok c0) : c0.ConfigFilePath = c.ConfigFilePath := by
  unfold LoadConfig_file at h
  split at h
  · split at h
    · cases hl : loadFromFile u os c p with
      | error e => simp [hl] at h
      | ok c1 =>
        simp only [hl, Except.ok.injEq] at h
        rw [← h]
        unfold loadFromFile at hl
        cases hr : os.ReadFile p with
        | error e => simp [hr] at hl
        | ok data =>
          simp only [hr, Except.ok.injEq] at hl
          rw [← hl]
          exact loadFromFile_lines_ConfigFilePath u _ c
    · simp only [Except.ok.injEq] at h
      rw [← h]
    · simp at h
  · simp only [Except.ok.injEq] at h
    rw [← h]

theorem loadFromFile_data_single (u : CaseTables) (c : Config) (line : String)
    (h : '\n' ∉ line.data) : loadFromFile_data u c line = loadFromFile_line u c line := by
  have := loadFromFile_data_Join u c [line] (by simpa using h)
  simpa [Join, loadFromFile_lines] using this

theorem appEnv_line (u : CaseTables) (c : Config) (s : String) :
    loadFromFile_line u c ("fp_appEnv=" ++ s) = { c with AppEnv := ToUpper u (TrimSpace s) } := by
  have h := loadFromFile_line_keyvalue u c "" "fp_appEnv" "" s (by decide)
    (by intro x hx; cases hx) (by intro x hx; cases hx)
  have e : ("" : String) ++ "fp_appEnv" ++ "" ++ "=" ++ s = "fp_appEnv=" ++ s := rfl
  rw [e] at h
  rw [h]
  rfl

theorem caseVariants_upper (u : CaseTables) (s : String) (w : String × String)
    (hw : w ∈ [("dev", "DEV"), ("qa", "QA"), ("cat", "CAT"), ("prod", "PROD")])
    (hs : s ∈ caseVariants w.1) : ToUpper u s = w.2 ∧ TrimSpace s = s := by
  simp only [List.mem_cons, List.mem_singleton, List.not_mem_nil, or_false] at hw
  rcases hw with rfl | rfl | rfl | rfl
  all_goals
    simp only [caseVariants, caseVariantChars, List.flatMap_cons, List.flatMap_nil,
      List.append_nil, List.cons_append, List.nil_append, List.map_cons, List.map_nil,
      List.mem_cons, List.mem_singleton, List.not_mem_nil, or_false] at hs
  · rcases hs with rfl | rfl | rfl | rfl | rfl | rfl | rfl | rfl <;> exact ⟨rfl, rfl⟩
  · rcases hs with rfl | rfl | rfl | rfl <;> exact ⟨rfl, rfl⟩
  · rcases hs with rfl | rfl | rfl | rfl | rfl | rfl | rfl | rfl <;> exact ⟨rfl, rfl⟩
  · rcases hs with rfl | rfl | rfl | rfl | rfl | rfl | rfl | rfl | rfl | rfl | rfl | rfl |
      rfl | rfl | rfl | rfl <;> exact ⟨rfl, rfl⟩

theorem envStringFields_overlay (u : CaseTables) (os : OS) (c : Config)
    (e : String × (Config → String) × Bool) (he : e ∈ envStringFields) :
    e.2.1 (loadFromEnv u os c) =
      if os.Getenv e.1 ≠ "" then (if e.2.2 then ToUpper u (os.Getenv e.1) else os.Getenv e.1)
      else e.2.1 c := by
  simp only [envStringFields, List.mem_cons, List.mem_singleton, List.not_mem_nil, or_false] at he
  rcases he with rfl | rfl | rfl | rfl | rfl | rfl | rfl | rfl | rfl | rfl | rfl <;>
  simp [loadFromEnv_eq]

/-! ## Lemmas: formatting and the masked rendering -/


theorem sprintfChars_str (rest : List Char) (s : String) (args : List FmtArg) :
    sprintfChars ('%' :: 's' :: rest) (.str s :: args) = s.data ++ sprintfChars rest args := by
  simp [sprintfChars]

theorem sprintfChars_int (rest : List Char) (n : Int) (args : List FmtArg) :
    sprintfChars ('%' :: 'd' :: rest) (.int n :: args) =
      (formatInt n).data ++ sprintfChars rest args := by
  simp [sprintfChars]

theorem sprintfChars_lit (c : Char) (rest : List Char) (args : List FmtArg) (h : c ≠ '%') :
    sprintfChars (c :: rest) args = c :: sprintfChars rest args := by
  rw [sprintfChars]
  · intro r s a h1
    simp at h1
    exact absurd h1 h
  · intro r s a h1
    simp at h1
    exact absurd h1 h

theorem sprintfChars_nil (args : List FmtArg) : sprintfChars [] args = [] := by
  simp [sprintfChars]

theorem Config_String_eq (c : Config) : c.String = "Config\x7bAppName: " ++ c.AppName ++ ", AppVersion: " ++ c.AppVersion ++ ", AppEnv: " ++ c.AppEnv ++ ", SimpleAPIInstallPath: " ++ c.SimpleAPIInstallPath ++ ", TrustStorePath: " ++ c.TrustStorePath ++ ", XMLConfigPath: " ++ c.XMLConfigPath ++ ", NetworkTimeout: " ++ formatInt c.NetworkTimeout ++ "\x7d" := by
  apply String.ext
  simp only [Config.String, Sprintf, String.data_append]
  simp (disch := decide) only [sprintfChars_lit, sprintfChars_str, sprintfChars_int,
    sprintfChars_nil]
  simp

theorem infix_sep {t : List Char} {x : Char} (hx : x ∉ t) (a b : List Char) :
    t <:+: a ++ x :: b ↔ t <:+: a ∨ t <:+: b := by
  constructor
  · rintro ⟨s, r, h⟩
    rw [List.append_assoc, List.append_eq_append_iff] at h
    rcases h with ⟨a', ha, h⟩ | ⟨c', hs, h⟩
    · -- a = s ++ a', t ++ r = a' ++ x :: b
      rw [List.append_eq_append_iff] at h
      rcases h with ⟨a'', ha', -⟩ | ⟨c', ht, h⟩
      · left
        exact ⟨s, a'', by rw [ha, ha', List.append_assoc]⟩
      · cases c' with
        | nil =>
          left
          refine ⟨s, [], ?_⟩
          rw [ha, ht]
          simp
        | cons y ys =>
          exfalso
          simp only [List.cons_append, List.cons.injEq] at h
          apply hx
          rw [ht, h.1]
          simp
    · -- s = a ++ c', x :: b = c' ++ (t ++ r)
      cases c' with
      | nil =>
        cases t with
        | nil => left; exact List.nil_infix
        | cons y ys =>
          exfalso
          simp only [List.nil_append, List.cons_append, List.cons.injEq] at h
          apply hx
          rw [h.1]
          simp
      | cons y ys =>
        right
        simp only [List.cons_append, List.cons.injEq] at h
        exact ⟨ys, r, by rw [h.2, List.append_assoc]⟩
  · rintro (h | h)
    · exact h.trans (List.infix_append' [] a (x :: b) |>.trans (by simp)) 
    · exact h.trans ⟨a ++ [x], [], by simp⟩

theorem infix_sep_cons {t : List Char} {x : Char} (hx : x ∉ t) (b : List Char) :
    t <:+: x :: b ↔ t = [] ∨ t <:+: b := by
  have := infix_sep hx [] b
  simpa using this

theorem toDigitsCore_digits (fuel : Nat) : ∀ (n : Nat) (acc : List Char),
    (∀ ch ∈ acc, ch.isDigit = true) → ∀ ch ∈ Nat.toDigitsCore 10 fuel n acc, ch.isDigit = true := by
  induction fuel with
  | zero => intro n acc h; simpa [Nat.toDigitsCore] using h
  | succ f ih =>
    intro n acc h
    have hd : (Nat.digitChar (n % 10)).isDigit = true := by
      have hm : n % 10 < 10 := Nat.mod_lt _ (by decide)
      generalize n % 10 = m at hm
      interval_cases m <;> decide
    have hacc : ∀ ch ∈ Nat.digitChar (n % 10) :: acc, ch.isDigit = true := by
      intro ch hch
      rcases List.mem_cons.mp hch with rfl | hch
      · exact hd
      · exact h ch hch
    simp only [Nat.toDigitsCore]
    split
    · exact hacc
    · exact ih _ _ hacc

theorem formatInt_chars (n : Int) : ∀ ch ∈ (formatInt n).data, ch.isDigit = true ∨ ch = '-' := by
  intro ch hch
  cases n with
  | ofNat m =>
    left
    exact toDigitsCore_digits _ _ [] (by simp) ch hch
  | negSucc m =>
    simp only [formatInt, List.mem_cons] at hch
    rcases hch with rfl | hch
    · right; rfl
    · left
      exact toDigitsCore_digits _ _ [] (by simp) ch hch

theorem not_infix_formatInt (t : List Char) (x : Char) (hx : x ∈ t) (hd : x.isDigit = false)
    (hm : x ≠ '-') (n : Int) : ¬ t <:+: (formatInt n).data := by
  intro h
  have := formatInt_chars n x (h.subset hx)
  rcases this with h1 | h1
  · rw [hd] at h1; exact Bool.noConfusion h1
  · exact hm h1

theorem Config_String_data (c : Config) :
    c.String.data =
      "Config\x7bAppName:".data ++ ' ' :: (c.AppName.data ++ ',' :: ' ' ::
      ("AppVersion:".data ++ ' ' :: (c.AppVersion.data ++ ',' :: ' ' ::
      ("AppEnv:".data ++ ' ' :: (c.AppEnv.data ++ ',' :: ' ' ::
      ("SimpleAPIInstallPath:".data ++ ' ' :: (c.SimpleAPIInstallPath.data ++ ',' :: ' ' ::
      ("TrustStorePath:".data ++ ' ' :: (c.TrustStorePath.data ++ ',' :: ' ' ::
      ("XMLConfigPath:".data ++ ' ' :: (c.XMLConfigPath.data ++ ',' :: ' ' ::
      ("NetworkTimeout:".data ++ ' ' :: ((formatInt c.NetworkTimeout).data ++
        '\x7d' :: []))))))))))))) := by
  rw [Config_String_eq]
  simp

theorem Contains_String_iff (c : Config) (t : String)
    (ht : t = "secretXYZ" ∨ t = "secretABC") :
    Contains c.String t = true ↔
      (Contains c.AppName t = true ∨ Contains c.AppVersion t = true ∨
       Contains c.AppEnv t = true ∨ Contains c.SimpleAPIInstallPath t = true ∨
       Contains c.TrustStorePath t = true ∨ Contains c.XMLConfigPath t = true) := by
  have hsp : ' ' ∉ t.data := by rcases ht with rfl | rfl <;> decide
  have hcm : ',' ∉ t.data := by rcases ht with rfl | rfl <;> decide
  have hbr : '\x7d' ∉ t.data := by rcases ht with rfl | rfl <;> decide
  have hne : t.data ≠ [] := by rcases ht with rfl | rfl <;> decide
  have hnum : ¬ t.data <:+: (formatInt c.NetworkTimeout).data :=
    not_infix_formatInt t.data 's' (by rcases ht with rfl | rfl <;> decide) (by decide)
      (by decide) _
  have l0 : ¬ t.data <:+: "Config\x7bAppName:".data := by rcases ht with rfl | rfl <;> decide
  have l1 : ¬ t.data <:+: "AppVersion:".data := by rcases ht with rfl | rfl <;> decide
  have l2 : ¬ t.data <:+: "AppEnv:".data := by rcases ht with rfl | rfl <;> decide
  have l3 : ¬ t.data <:+: "SimpleAPIInstallPath:".data := by
    rcases ht with rfl | rfl <;> decide
  have l4 : ¬ t.data <:+: "TrustStorePath:".data := by rcases ht with rfl | rfl <;> decide
  have l5 : ¬ t.data <:+: "XMLConfigPath:".data := by rcases ht with rfl | rfl <;> decide
  have l6 : ¬ t.data <:+: "NetworkTimeout:".data := by rcases ht with rfl | rfl <;> decide
  have l7 : ¬ t.data <:+: [] := by simpa using hne
  simp only [Contains, decide_eq_true_eq]
  rw [Config_String_data]
  simp only [infix_sep hsp, infix_sep hcm, infix_sep hbr, infix_sep_cons hsp, l0, l1, l2, l3,
    l4, l5, l6, l7, hne, hnum, false_or, or_false]

/-! ## Lemmas: integers -/

theorem parseDigits_eq : ∀ (ds : List Char) (acc : Nat),
    parseDigits ds acc =
      if ds.all isDecimalDigit = true then
        some (ds.foldl (fun n ch => n * 10 + (ch.toNat - 0x30)) acc)
      else none
  | [], acc => by simp [parseDigits]
  | c :: cs, acc => by
    by_cases hc : 0x30 ≤ c.toNat ∧ c.toNat ≤ 0x39
    · have hd : isDecimalDigit c = true := by simp [isDecimalDigit, hc]
      simp only [parseDigits, hc, and_self, if_true, parseDigits_eq cs, List.all_cons, hd,
        Bool.true_and, List.foldl_cons]
    · have hd : isDecimalDigit c = false := by simp [isDecimalDigit, hc]
      simp only [parseDigits, hc, if_false, List.all_cons, hd, Bool.false_and]
      simp

theorem parseDigits_zero (ds : List Char) (hne : ds ≠ []) :
    parseDigits ds 0 = decimalDigitsValue ds := by
  rw [parseDigits_eq]
  simp [decimalDigitsValue, hne]

theorem range_nonneg (n : Nat) :
    (if n < 2 ^ 63 then some (n : Int) else none) =
      if inIntRange (n : Int) then some (n : Int) else none := by
  unfold inIntRange
  by_cases hn : n < 2 ^ 63
  · rw [if_pos hn, if_pos (by constructor <;> omega)]
  · rw [if_neg hn, if_neg (by intro h; omega)]

theorem range_neg (n : Nat) :
    (if n ≤ 2 ^ 63 then some (-(n : Int)) else none) =
      if inIntRange (-(n : Int)) then some (-(n : Int)) else none := by
  unfold inIntRange
  by_cases hn : n ≤ 2 ^ 63
  · rw [if_pos hn, if_pos (by constructor <;> omega)]
  · rw [if_neg hn, if_neg (by intro h; omega)]

theorem Atoi_eq (s : String) :
    Atoi s =
      match decimalValue s with
      | some n => if inIntRange n then some n else none
      | none => none := by
  unfold Atoi decimalValue
  cases hs : s.data with
  | nil => simp
  | cons c cs =>
    by_cases hm : c = '-'
    · subst hm
      cases cs with
      | nil => simp [decimalDigitsValue]
      | cons d ds =>
        simp only [beq_self_eq_true, Bool.true_or, if_true]
        rw [parseDigits_zero (d :: ds) (by simp)]
        cases decimalDigitsValue (d :: ds) with
        | none => simp
        | some n =>
          simp only [Option.map_some']
          exact range_neg n
    · by_cases hp : c = '+'
      · subst hp
        cases cs with
        | nil => simp [decimalDigitsValue]
        | cons d ds =>
          have e1 : ('+' == '-') = false := by decide
          have e2 : ¬ ('+' = '-') := by decide
          simp only [e1, e2, beq_self_eq_true, Bool.or_true, if_true, if_false,
            Bool.false_eq_true]
          rw [parseDigits_zero (d :: ds) (by simp)]
          cases decimalDigitsValue (d :: ds) with
          | none => simp
          | some n =>
            simp only [Option.map_some']
            exact range_nonneg n
      · have e1 : (c == '-') = false := by simp [hm]
        have e2 : (c == '+') = false := by simp [hp]
        simp only [e1, e2, hm, hp, Bool.or_self, Bool.false_eq_true, if_false]
        rw [parseDigits_zero (c :: cs) (by simp)]
        cases decimalDigitsValue (c :: cs) with
        | none => simp
        | some n =>
          simp only [Option.map_some']
          exact range_nonneg n

/-! ## Lemmas: numeric lines, package `config`, error taxonomy -/

theorem loadFromFile_data_insert (u : CaseTables) (c : Config) (data line : String) (i : Nat)
    (hline : ∀ c0, loadFromFile_line u c0 line = c0) (hnl : '\n' ∉ line.data) :
    loadFromFile_data u c
        (Join ((Split data '\n').take i ++ line :: (Split data '\n').drop i) "\n") =
      loadFromFile_data u c data := by
  rw [loadFromFile_data_Join]
  · unfold loadFromFile_data loadFromFile_lines
    rw [List.foldl_append, List.foldl_cons, hline, ← List.foldl_append, List.take_append_drop]
  · intro l hmem
    rcases List.mem_append.mp hmem with h | h
    · exact Split_pieces data l (List.mem_of_mem_take h)
    · rcases List.mem_cons.mp h with rfl | h
      · exact hnl
      · exact Split_pieces data l (List.mem_of_mem_drop h)

theorem not_mem_append_literal (k v : String) (c : Char) (hk : c ∉ k.data)
    (hv : c ∉ v.data) : c ∉ (k ++ v).data := by
  simp only [String.data_append, List.mem_append, not_or]
  exact ⟨hk, hv⟩

theorem line_of_key (u : CaseTables) (c : Config) (k v : String) (hk : keyShape k = true) :
    loadFromFile_line u c (k ++ "=" ++ v) = setConfigValue u c k (TrimSpace v) := by
  have h := loadFromFile_line_keyvalue u c "" k "" v hk
    (by intro x hx; cases hx) (by intro x hx; cases hx)
  have e : ("" : String) ++ k ++ "" ++ "=" ++ v = k ++ "=" ++ v := by
    apply String.ext
    simp
  rw [e] at h
  exact h

theorem setConfigValue_LogLevel (u : CaseTables) (c : Config) (value : String) :
    setConfigValue u c "LogLevel" value =
      match Atoi value with
      | some val => { c with LogLevel := val }
      | none => c := rfl

theorem setConfigValue_networkTimeout (u : CaseTables) (c : Config) (value : String) :
    setConfigValue u c "fp_networkTimeout" value =
      match Atoi value with
      | some val => { c with NetworkTimeout := val }
      | none => c := rfl

theorem setConfigValue_disableCRL (u : CaseTables) (c : Config) (value : String) :
    setConfigValue u c "fp_disableCRLChecking" value =
      { c with DisableCRLChecking := ToLower u value == "true" } := rfl

theorem processInt_error_iff (h : config.Host) (key field : String) :
    (∃ e, config.processInt h key field = .error e) ↔
      ∃ v, h.LookupEnv key = some v ∧ ParseInt0 v = none := by
  unfold config.processInt
  cases h1 : h.LookupEnv key with
  | none => simp
  | some v =>
    cases h2 : ParseInt0 v with
    | none => simp [h2]
    | some n => simp [h2]

theorem processBool_error_iff (h : config.Host) (key field : String) :
    (∃ e, config.processBool h key field = .error e) ↔
      ∃ v, h.LookupEnv key = some v ∧ ParseBool v = none := by
  unfold config.processBool
  cases h1 : h.LookupEnv key with
  | none => simp
  | some v =>
    cases h2 : ParseBool v with
    | none => simp [h2]
    | some n => simp [h2]

theorem Process_error_iff (h : config.Host) :
    (∃ e, config.Process h = .error e) ↔ config.unparsableEnv h := by
  unfold config.unparsableEnv
  rw [← processInt_error_iff h "FP_NETWORKTIMEOUT" "NetworkTimeout",
    ← processBool_error_iff h "FP_DISABLECRLCHECKING" "DisableCRLChecking",
    ← processInt_error_iff h "FP_LOGLEVEL" "LogLevel"]
  unfold config.Process
  cases config.processInt h "FP_NETWORKTIMEOUT" "NetworkTimeout" with
  | error e => simp
  | ok n =>
    cases config.processBool h "FP_DISABLECRLCHECKING" "DisableCRLChecking" with
    | error e => simp
    | ok b =>
      cases config.processInt h "FP_LOGLEVEL" "LogLevel" with
      | error e => simp
      | ok l => simp

theorem config_loadFromEnv_error_iff (u : CaseTables) (h : config.Host) (c : Config) :
    (∃ e, config.loadFromEnv u h c = .error e) ↔ config.unparsableEnv h := by
  rw [← Process_error_iff]
  unfold config.loadFromEnv
  cases config.Process h with
  | error e => simp
  | ok o => simp

theorem infix_app_right {t : List Char} (a : List Char) (x : Char) (b : List Char)
    (h : t <:+: b) : t <:+: a ++ x :: b :=
  h.trans ⟨a ++ [x], [], by simp⟩

theorem infix_app_left {t : List Char} (a : List Char) (x : Char) (b : List Char)
    (h : t <:+: a) : t <:+: a ++ x :: b :=
  h.trans ⟨[], x :: b, by simp⟩

theorem infix_skip {t : List Char} (x : Char) (b : List Char) (h : t <:+: b) :
    t <:+: x :: b :=
  h.trans ⟨[x], [], by simp⟩

theorem Sprintf_unknown (n : Int) :
    Sprintf "unknown error (code: %d)" [.int n] =
      "unknown error (code: " ++ formatInt n ++ ")" := by
  apply String.ext
  simp only [Sprintf, String.data_append]
  simp (disch := decide) only [sprintfChars_lit, sprintfChars_str, sprintfChars_int,
    sprintfChars_nil]
  simp

theorem mapCErrorCode_known (n : Int) (h0 : 0 ≤ n) (h19 : n ≤ 19) :
    (mapCErrorCode n).1 = n := by
  interval_cases n <;> rfl

theorem mapCErrorCode_unknown (n : Int) (h : ¬ (0 ≤ n ∧ n ≤ 19)) :
    mapCErrorCode n = (ErrUnknown, "unknown error (code: " ++ formatInt n ++ ")") := by
  have h0 : n ≠ 0 := by omega
  have h1 : n ≠ 1 := by omega
  have h2 : n ≠ 2 := by omega
  have h3 : n ≠ 3 := by omega
  have h4 : n ≠ 4 := by omega
  have h5 : n ≠ 5 := by omega
  have h6 : n ≠ 6 := by omega
  have h7 : n ≠ 7 := by omega
  have h8 : n ≠ 8 := by omega
  have h9 : n ≠ 9 := by omega
  have h10 : n ≠ 10 := by omega
  have h11 : n ≠ 11 := by omega
  have h12 : n ≠ 12 := by omega
  have h13 : n ≠ 13 := by omega
  have h14 : n ≠ 14 := by omega
  have h15 : n ≠ 15 := by omega
  have h16 : n ≠ 16 := by omega
  have h17 : n ≠ 17 := by omega
  have h18 : n ≠ 18 := by omega
  have h19 : n ≠ 19 := by omega
  simp only [mapCErrorCode, h0, h1, h2, h3, h4, h5, h6, h7, h8, h9, h10, h11, h12, h13, h14,
    h15, h16, h17, h18, h19, if_false, Sprintf_unknown]

/-! ## Lemmas: the client -/

theorem applyInOrder_cons {σ : Type} (opt : ClientOption σ) (opts : List (ClientOption σ))
    (cs : Client × σ) :
    applyInOrder (opt :: opts) cs = applyInOrder opts (opt cs.1 cs.2).2 := by
  simp [applyInOrder]

theorem applyInOrder_nil {σ : Type} (cs : Client × σ) :
    applyInOrder ([] : List (ClientOption σ)) cs = cs := by
  simp [applyInOrder]

theorem optionError_zero {σ : Type} (opt : ClientOption σ) (opts : List (ClientOption σ))
    (cs : Client × σ) : optionError (opt :: opts) cs 0 = (opt cs.1 cs.2).1 := by
  simp [optionError, applyInOrder]

theorem optionError_succ {σ : Type} (opt : ClientOption σ) (opts : List (ClientOption σ))
    (cs : Client × σ) (i : Nat) :
    optionError (opt :: opts) cs (i + 1) = optionError opts (opt cs.1 cs.2).2 i := by
  simp [optionError, applyInOrder]

/-- When no option fails at its turn, the loop of `NewClient` ends without an error, with
the client and the surrounding state that applying all options in order gives. -/
theorem NewClient_options_ok {σ : Type} :
    ∀ (opts : List (ClientOption σ)) (client : Client) (s : σ),
      (∀ i, i < opts.length → optionError opts (client, s) i = none) →
      NewClient_options opts client s = (none, applyInOrder opts (client, s))
  | [], client, s, _ => by simp [NewClient_options, applyInOrder]
  | opt :: opts, client, s, h => by
    have h0 := h 0 (by simp)
    rw [optionError_zero] at h0
    have ih := NewClient_options_ok opts (opt client s).2.1 (opt client s).2.2 (fun i hi => by
      have := h (i + 1) (by simpa using hi)
      rwa [optionError_succ] at this)
    rw [applyInOrder_cons]
    unfold NewClient_options
    rcases hr : opt client s with ⟨e, c1, s1⟩
    rw [hr] at h0 ih
    dsimp only at h0 ih ⊢
    subst h0
    exact ih

/-- When option `i` is the first to fail at its turn, the loop of `NewClient` ends with
its error, wrapped, and with the surrounding state as option `i` left it. -/
theorem NewClient_options_err {σ : Type} :
    ∀ (opts : List (ClientOption σ)) (client : Client) (s : σ) (i : Nat) (err : GoError),
      (∀ j, j < i → optionError opts (client, s) j = none) →
      optionError opts (client, s) i = some err →
      NewClient_options opts client s =
        (some (Errorf_w "failed to apply client option: " err),
          applyInOrder (opts.take (i + 1)) (client, s))
  | [], client, s, i, err, _, hi => by simp [optionError] at hi
  | opt :: opts, client, s, 0, err, _, hi => by
    rw [optionError_zero] at hi
    unfold NewClient_options
    rcases hr : opt client s with ⟨e, c1, s1⟩
    rw [hr] at hi
    dsimp only at hi ⊢
    subst hi
    simp [applyInOrder, hr]
  | opt :: opts, client, s, i + 1, err, h, hi => by
    have h0 := h 0 (by simp)
    rw [optionError_zero] at h0
    rw [optionError_succ] at hi
    have ih := NewClient_options_err opts (opt client s).2.1 (opt client s).2.2 i err
      (fun j hj => by
        have := h (j + 1) (by simpa using hj)
        rwa [optionError_succ] at this) hi
    rw [List.take_succ_cons, applyInOrder_cons]
    unfold NewClient_options
    rcases hr : opt client s with ⟨e, c1, s1⟩
    rw [hr] at h0 ih
    dsimp only at h0 ih ⊢
    subst h0
    exact ih

/-- The first failure decides the loop of `NewClient`: options after it do not matter. -/
theorem optionError_take {σ : Type} (opts : List (ClientOption σ)) (cs : Client × σ)
    (n j : Nat) (hj : j < n) : optionError (opts.take n) cs j = optionError opts cs j := by
  unfold optionError
  rw [List.getElem?_take_of_lt hj, List.take_take, Nat.min_eq_left (Nat.le_of_lt hj)]

theorem callInitialize_eq {β : Type} (b : Backend β) (c : Client) (w : World β)
    (e : Option GoError) (s : β) (h : b.initializeVoltageLibrary c w.backend = some (e, s)) :
    callInitialize b c w = some (e, { backend := s, calls := w.calls ++ [.init] }) := by
  simp [callInitialize, h]

theorem callTerminate_eq {β : Type} (b : Backend β) (c : Client) (w : World β)
    (e : Option GoError) (s : β) (h : b.terminateVoltageLibrary c w.backend = some (e, s)) :
    callTerminate b c w = some (e, { backend := s, calls := w.calls ++ [.terminate] }) := by
  simp [callTerminate, h]

theorem callHealthCheck_eq {β : Type} (b : Backend β) (c : Client) (w : World β)
    (e : Option GoError) (s : β) (h : b.performHealthCheckC c w.backend = some (e, s)) :
    callHealthCheck b c w = some (e, { backend := s, calls := w.calls ++ [.healthCheck] }) := by
  simp [callHealthCheck, h]

theorem performHealthCheck_config {β : Type} (b : Backend β) (c : Client) (w : World β)
    (config : Config) (h : c.config = some config) :
    Client.performHealthCheck b c w = callHealthCheck b c w := by
  simp [Client.performHealthCheck, h]

/-- The mock backend initialises when it is not initialised and a path is configured. -/
theorem mock_init_ok (c : Client) (config : Config) (m : MockState)
    (hcfg : c.config = some config)
    (hp : config.ConfigFilePath ≠ "" ∨ config.XMLConfigPath ≠ "")
    (hm : m.mockInitialized = false) :
    mockBackend.initializeVoltageLibrary c m =
      some (none, { mockInitialized := true, mockConfigPath := mockPath config }) := by
  simp only [mockBackend, Client.initializeVoltageLibrary, hm, hcfg, mockPath]
  by_cases h1 : config.ConfigFilePath = ""
  · have h2 : config.XMLConfigPath ≠ "" := by
      rcases hp with hp | hp
      · exact absurd h1 hp
      · exact hp
    simp [h1, h2]
  · simp [h1]

/-- The mock backend always terminates, and is not initialised afterwards. -/
theorem mock_terminate_ok (c : Client) (m : MockState) :
    ∃ m1, mockBackend.terminateVoltageLibrary c m = some (none, m1) ∧
      m1.mockInitialized = false := by
  simp only [mockBackend, Client.terminateVoltageLibrary]
  cases h : m.mockInitialized
  · exact ⟨m, by simp, h⟩
  · exact ⟨⟨false, ""⟩, by simp, rfl⟩

/-! ## Lemmas: sequences of calls, the shared mock, the two resolvers -/

/-- What `NewClient` returns without options, when it returns a client. -/
theorem NewClient_nil_ok {σ : Type} (config : Config) (s : σ) (c : Client)
    (h : (NewClient (some config) ([] : List (ClientOption σ)) s).1 = .ok c) :
    c = { config := some config, initialized := false, lastHealthCheck := 0,
          healthy := false, sessionID := "" } := by
  cases hv : Validate config with
  | some e => simp [NewClient, hv] at h
  | none =>
    simp only [NewClient, hv, NewClient_options] at h
    cases h
    rfl

/-- No lifecycle operation writes the configuration or the session identifier. -/
theorem Op_run_frame {β : Type} (b : Backend β) (op : Op) (now : Time) (c : Client)
    (w : World β) (r : Option GoError × Client × World β) (h : op.run b now c w = some r) :
    r.2.1.config = c.config ∧ r.2.1.sessionID = c.sessionID := by
  cases op
  · simp only [Op.run, Client.Initialize] at h
    split at h
    · cases h; exact ⟨rfl, rfl⟩
    · split at h
      · cases h
      · cases h; exact ⟨rfl, rfl⟩
      · split at h
        · cases h
        · cases h; exact ⟨rfl, rfl⟩
        · cases h; exact ⟨rfl, rfl⟩
  · simp only [Op.run, Client.HealthCheck] at h
    split at h
    · cases h; exact ⟨rfl, rfl⟩
    · split at h
      · cases h
      · cases h; exact ⟨rfl, rfl⟩
      · cases h; exact ⟨rfl, rfl⟩
  · simp only [Op.run, Client.Reinitialize, Client.Reinitialize_init] at h
    split at h
    · split at h
      · cases h
      · cases h; exact ⟨rfl, rfl⟩
      · split at h
        · cases h
        · cases h; exact ⟨rfl, rfl⟩
        · cases h; exact ⟨rfl, rfl⟩
    · split at h
      · cases h
      · cases h; exact ⟨rfl, rfl⟩
      · cases h; exact ⟨rfl, rfl⟩
  · simp only [Op.run, Client.Close] at h
    split at h
    · cases h; exact ⟨rfl, rfl⟩
    · split at h
      · cases h
      · cases h; exact ⟨rfl, rfl⟩
      · cases h; exact ⟨rfl, rfl⟩

/-- No sequence of lifecycle operations writes the configuration or the session
identifier. -/
theorem runCalls_frame {β : Type} (b : Backend β) :
    ∀ (calls : List (Op × Time)) (c c1 : Client) (w w1 : World β),
      runCalls b calls c w = some (c1, w1) →
      c1.config = c.config ∧ c1.sessionID = c.sessionID
  | [], c, c1, w, w1, h => by
    simp only [runCalls] at h
    cases h
    exact ⟨rfl, rfl⟩
  | (op, now) :: calls, c, c1, w, w1, h => by
    simp only [runCalls] at h
    rcases hr : op.run b now c w with _ | ⟨e, c2, w2⟩
    · rw [hr] at h
      cases h
    · rw [hr] at h
      have h1 := Op_run_frame b op now c w _ hr
      have h2 := runCalls_frame b calls c2 c1 w2 w1 h
      exact ⟨h2.1.trans h1.1, h2.2.trans h1.2⟩

/-- One call of a lifecycle operation with the mock backend, on a client that is bound to a
configuration, is healthy exactly when initialized, names a file when initialized, and is
initialized only when the mock is. The call returns and keeps these properties. When the
mock is held by another client, the client stays not initialized and the mock stays
initialized; in every other case the mock is initialized afterwards exactly when the client
is. -/
theorem mock_run_step (op : Op) (now : Time) (c : Client) (config : Config)
    (m : World MockState) (hcfg : c.config = some config)
    (hh : c.healthy = c.initialized) (hp : c.initialized = true → hasPath config)
    (hm : c.initialized = true → m.backend.mockInitialized = true) :
    ∃ e c1 m1, op.run mockBackend now c m = some (e, c1, m1) ∧
      c1.config = c.config ∧ c1.healthy = c1.initialized ∧
      (c1.initialized = true → hasPath config) ∧
      (c.initialized = false ∧ m.backend.mockInitialized = true →
        c1.initialized = false ∧ m1.backend.mockInitialized = true) ∧
      (¬ (c.initialized = false ∧ m.backend.mockInitialized = true) →
        m1.backend.mockInitialized = c1.initialized) := by
  obtain ⟨cfg, ini, lhc, hl, sid⟩ := c
  obtain ⟨⟨mi, mp⟩, calls⟩ := m
  simp only at hcfg hh hp hm
  subst hcfg
  subst hh
  by_cases h1 : config.ConfigFilePath = "" <;> by_cases h2 : config.XMLConfigPath = "" <;>
    cases op <;> cases hl <;> cases mi <;>
    simp_all [Op.run, Client.Initialize, Client.HealthCheck, Client.Close,
      Client.Reinitialize, Client.Reinitialize_init, Client.performHealthCheck,
      callInitialize, callTerminate, callHealthCheck, mockBackend,
      Client.initializeVoltageLibrary, Client.terminateVoltageLibrary,
      Client.performHealthCheckC, hasPath] <;>
    exact ⟨_, _, _, ⟨rfl, rfl, rfl⟩, by simp⟩

/-- A fleet of freshly constructed clients satisfies the invariant. -/
theorem Fleet_isNew_consistent {ι : Type} (s : Fleet ι) (h : s.isNew) : s.consistent := by
  obtain ⟨hnew, hm⟩ := h
  have hc : ∀ i, ∃ config, s.clients i =
      { config := some config, initialized := false, lastHealthCheck := 0,
        healthy := false, sessionID := "" } := by
    intro i
    obtain ⟨config, hcfg⟩ := hnew i
    exact ⟨config, NewClient_nil_ok config s.mock _ hcfg⟩
  have hini : ∀ i, (s.clients i).initialized = false := by
    intro i
    obtain ⟨config, hi⟩ := hc i
    rw [hi]
  refine ⟨?_, ?_, ?_, ?_⟩
  · intro i
    obtain ⟨config, hi⟩ := hc i
    refine ⟨config, by rw [hi], ?_⟩
    intro h1
    rw [hini i] at h1
    cases h1
  · intro i
    obtain ⟨config, hi⟩ := hc i
    rw [hi]
  · constructor
    · intro h1
      rw [hm] at h1
      cases h1
    · rintro ⟨i, hi⟩
      rw [hini i] at hi
      cases hi
  · intro i j hi
    rw [hini i] at hi
    cases hi

/-- One call on a client of a fleet returns, keeps the invariant and keeps every
configuration. -/
theorem Fleet_call_consistent {ι : Type} [DecidableEq ι] (s : Fleet ι) (i : ι) (op : Op)
    (now : Time) (h : s.consistent) :
    ∃ s1, s.call i op now = some s1 ∧ s1.consistent ∧
      ∀ j, (s1.clients j).config = (s.clients j).config := by
  obtain ⟨hcfg, hh, hmock, huniq⟩ := h
  obtain ⟨config, hc, hp⟩ := hcfg i
  obtain ⟨e, c1, m1, hrun, hc1, hh1, hp1, hB, hA⟩ :=
    mock_run_step op now (s.clients i) config s.mock hc (hh i) hp
      (fun hi => hmock.mpr ⟨i, hi⟩)
  have hupd : ∀ j, j ≠ i → Function.update s.clients i c1 j = s.clients j :=
    fun j hj => Function.update_noteq hj c1 s.clients
  have hsame : Function.update s.clients i c1 i = c1 := Function.update_same i c1 s.clients
  refine ⟨{ clients := Function.update s.clients i c1, mock := m1 }, ?_, ⟨?_, ?_, ?_, ?_⟩, ?_⟩
  · simp [Fleet.call, hrun]
  · intro j
    by_cases hj : j = i
    · subst hj
      dsimp only
      rw [hsame]
      exact ⟨config, hc1.trans hc, hp1⟩
    · dsimp only
      rw [hupd j hj]
      exact hcfg j
  · intro j
    by_cases hj : j = i
    · subst hj
      dsimp only
      rw [hsame]
      exact hh1
    · dsimp only
      rw [hupd j hj]
      exact hh j
  · dsimp only
    by_cases hcase : (s.clients i).initialized = false ∧ s.mock.backend.mockInitialized = true
    · obtain ⟨h1, h2⟩ := hB hcase
      obtain ⟨a, ha⟩ := hmock.mp hcase.2
      have hai : a ≠ i := by
        intro e1
        rw [e1, hcase.1] at ha
        cases ha
      exact ⟨fun _ => ⟨a, by rw [hupd a hai]; exact ha⟩, fun _ => h2⟩
    · have hothers : ∀ j, j ≠ i → (s.clients j).initialized = false := by
        intro j hj
        cases hji : (s.clients j).initialized
        · rfl
        · exfalso
          cases hii : (s.clients i).initialized
          · exact hcase ⟨hii, hmock.mpr ⟨j, hji⟩⟩
          · exact hj (huniq j i hji hii)
      rw [hA hcase]
      constructor
      · intro h1
        exact ⟨i, by rw [hsame]; exact h1⟩
      · rintro ⟨j, hj⟩
        by_cases hji : j = i
        · subst hji
          rw [hsame] at hj
          exact hj
        · rw [hupd j hji, hothers j hji] at hj
          cases hj
  · dsimp only
    intro a b ha hb
    by_cases hcase : (s.clients i).initialized = false ∧ s.mock.backend.mockInitialized = true
    · obtain ⟨h1, h2⟩ := hB hcase
      have hai : a ≠ i := by
        intro e1
        rw [e1, hsame, h1] at ha
        cases ha
      have hbi : b ≠ i := by
        intro e1
        rw [e1, hsame, h1] at hb
        cases hb
      rw [hupd a hai] at ha
      rw [hupd b hbi] at hb
      exact huniq a b ha hb
    · have hothers : ∀ j, j ≠ i → (s.clients j).initialized = false := by
        intro j hj
        cases hji : (s.clients j).initialized
        · rfl
        · exfalso
          cases hii : (s.clients i).initialized
          · exact hcase ⟨hii, hmock.mpr ⟨j, hji⟩⟩
          · exact hj (huniq j i hji hii)
      have hai : a = i := by
        by_contra hne
        rw [hupd a hne, hothers a hne] at ha
        cases ha
      have hbi : b = i := by
        by_contra hne
        rw [hupd b hne, hothers b hne] at hb
        cases hb
      rw [hai, hbi]
  · intro j
    dsimp only
    by_cases hj : j = i
    · subst hj
      rw [hsame]
      exact hc1
    · rw [hupd j hj]

/-- Every finite interleaved sequence of calls on the clients of a fleet returns, keeps
the invariant and keeps every configuration. -/
theorem Fleet_calls_consistent {ι : Type} [DecidableEq ι] :
    ∀ (calls : List (ι × Op × Time)) (s : Fleet ι), s.consistent →
      ∃ s1, Fleet.calls calls s = some s1 ∧ s1.consistent ∧
        ∀ j, (s1.clients j).config = (s.clients j).config
  | [], s, h => ⟨s, rfl, h, fun _ => rfl⟩
  | (i, op, now) :: rest, s, h => by
    obtain ⟨s1, h1, hc1, hcfg1⟩ := Fleet_call_consistent s i op now h
    obtain ⟨s2, h2, hc2, hcfg2⟩ := Fleet_calls_consistent rest s1 hc1
    refine ⟨s2, ?_, hc2, fun j => (hcfg2 j).trans (hcfg1 j)⟩
    simp only [Fleet.calls, h1]
    exact h2

/-- With the six variables unset, the environment overlay of package `config` cannot fail
and is the overlay of `src/config.go`. -/
theorem config_loadFromEnv_overlap (u : CaseTables) (h : config.Host) (c : Config)
    (hu : config.overlapEnv h) :
    config.loadFromEnv u h c = .ok (loadFromEnv u h.toOS c) := by
  obtain ⟨h1, h2, h3, h4, h5, h6⟩ := hu
  have hp : config.Process h =
      .ok { AppName := h.toOS.Getenv "FP_APPNAME",
            AppVersion := h.toOS.Getenv "FP_APPVERSION",
            AppEnv := h.toOS.Getenv "FP_APPENV",
            SimpleAPIInstallPath := h.toOS.Getenv "FP_SIMPLEAPI_INSTALLPATH",
            TrustStorePath := h.toOS.Getenv "FP_TRUSTSTORE_PATH",
            XMLConfigPath := "",
            KEKCertPath := h.toOS.Getenv "FP_KEK_CERTPATH",
            KEKCertPassphrase := h.toOS.Getenv "FP_KEK_CERTPASSPHRASE",
            KEKSharedSecret := h.toOS.Getenv "FP_KEK_SHAREDSECRET",
            DEKSharedSecret := h.toOS.Getenv "FP_DEFAULT_SHAREDSECRET",
            DEKUsername := h.toOS.Getenv "FP_DEFAULT_USERNAME",
            DEKPassword := h.toOS.Getenv "FP_DEFAULT_PASSWORD",
            NetworkTimeout := 0,
            DisableCRLChecking := false,
            DefaultCryptID := "",
            LogLevel := 0,
            LogFile := "" } := by
    have hs : ∀ key, config.processString h key = h.toOS.Getenv key := by
      intro key
      cases hk : h.LookupEnv key <;> simp [config.processString, config.Host.toOS, hk]
    simp only [config.Process, config.processInt, config.processBool, h1, h2, h5, hs]
    simp only [config.Host.toOS, h3, h4, h6, Option.getD]
  have g1 : h.toOS.Getenv "FP_NETWORKTIMEOUT" = "" := by simp [config.Host.toOS, h1]
  have g2 : h.toOS.Getenv "FP_DISABLECRLCHECKING" = "" := by simp [config.Host.toOS, h2]
  have g5 : h.toOS.Getenv "FP_LOGLEVEL" = "" := by simp [config.Host.toOS, h5]
  have e := loadFromEnv_eq u h.toOS c
  rw [g1, g2] at e
  simp only [ne_eq, not_true_eq_false, if_false] at e
  unfold config.loadFromEnv
  rw [hp]
  dsimp only
  congr 1
  apply Config.ext
  · refine Eq.trans ?_ (congrArg Config.AppName e).symm
    simp only [g1, g2, g5, apply_ite Config.AppName, ite_self, ne_eq, not_true_eq_false,
      if_false]
  · refine Eq.trans ?_ (congrArg Config.AppVersion e).symm
    simp only [g1, g2, g5, apply_ite Config.AppVersion, ite_self, ne_eq, not_true_eq_false,
      if_false]
  · refine Eq.trans ?_ (congrArg Config.AppEnv e).symm
    simp only [g1, g2, g5, apply_ite Config.AppEnv, ite_self, ne_eq, not_true_eq_false,
      if_false]
  · refine Eq.trans ?_ (congrArg Config.SimpleAPIInstallPath e).symm
    simp only [g1, g2, g5, apply_ite Config.SimpleAPIInstallPath, ite_self, ne_eq, not_true_eq_false,
      if_false]
  · refine Eq.trans ?_ (congrArg Config.TrustStorePath e).symm
    simp only [g1, g2, g5, apply_ite Config.TrustStorePath, ite_self, ne_eq, not_true_eq_false,
      if_false]
  · refine Eq.trans ?_ (congrArg Config.XMLConfigPath e).symm
    simp only [g1, g2, g5, apply_ite Config.XMLConfigPath, ite_self, ne_eq, not_true_eq_false,
      if_false]
  · refine Eq.trans ?_ (congrArg Config.KEKCertPath e).symm
    simp only [g1, g2, g5, apply_ite Config.KEKCertPath, ite_self, ne_eq, not_true_eq_false,
      if_false]
  · refine Eq.trans ?_ (congrArg Config.KEKCertPassphrase e).symm
    simp only [g1, g2, g5, apply_ite Config.KEKCertPassphrase, ite_self, ne_eq, not_true_eq_false,
      if_false]
  · refine Eq.trans ?_ (congrArg Config.KEKSharedSecret e).symm
    simp only [g1, g2, g5, apply_ite Config.KEKSharedSecret, ite_self, ne_eq, not_true_eq_false,
      if_false]
  · refine Eq.trans ?_ (congrArg Config.DEKSharedSecret e).symm
    simp only [g1, g2, g5, apply_ite Config.DEKSharedSecret, ite_self, ne_eq, not_true_eq_false,
      if_false]
  · refine Eq.trans ?_ (congrArg Config.DEKUsername e).symm
    simp only [g1, g2, g5, apply_ite Config.DEKUsername, ite_self, ne_eq, not_true_eq_false,
      if_false]
  · refine Eq.trans ?_ (congrArg Config.DEKPassword e).symm
    simp only [g1, g2, g5, apply_ite Config.DEKPassword, ite_self, ne_eq, not_true_eq_false,
      if_false]
  · refine Eq.trans ?_ (congrArg Config.NetworkTimeout e).symm
    simp only [g1, g2, g5, apply_ite Config.NetworkTimeout, ite_self, ne_eq, not_true_eq_false,
      if_false]
  · refine Eq.trans ?_ (congrArg Config.DisableCRLChecking e).symm
    simp only [g1, g2, g5, apply_ite Config.DisableCRLChecking, ite_self, ne_eq, not_true_eq_false,
      if_false]
  · refine Eq.trans ?_ (congrArg Config.DefaultCryptID e).symm
    simp only [g1, g2, g5, apply_ite Config.DefaultCryptID, ite_self, ne_eq, not_true_eq_false,
      if_false]
  · refine Eq.trans ?_ (congrArg Config.LogLevel e).symm
    simp only [g1, g2, g5, apply_ite Config.LogLevel, ite_self, ne_eq, not_true_eq_false,
      if_false]
  · refine Eq.trans ?_ (congrArg Config.LogFile e).symm
    simp only [g1, g2, g5, apply_ite Config.LogFile, ite_self, ne_eq, not_true_eq_false,
      if_false]
  · refine Eq.trans ?_ (congrArg Config.ConfigFilePath e).symm
    simp only [g1, g2, g5, apply_ite Config.ConfigFilePath, ite_self, ne_eq, not_true_eq_false,
      if_false]

/-! ## The claims -/

/-- Claim C1 (confirmed). `Validate` returns no error exactly when the application name
and version are not empty, the environment is one of DEV, QA, CAT, PROD, and an
authentication method is present: a KEK certificate path, a KEK shared secret, a DEK
shared secret, or a DEK username together with a DEK password. In particular, whatever
the KEK passphrase, a configuration without the first three and with an empty DEK
username or an empty DEK password is rejected. -/
theorem Validate_ok_iff (c : Config) :
    (Validate c = none ↔
      (c.AppName ≠ "" ∧ c.AppVersion ≠ "" ∧
        (c.AppEnv = "DEV" ∨ c.AppEnv = "QA" ∨ c.AppEnv = "CAT" ∨ c.AppEnv = "PROD") ∧
        (c.KEKCertPath ≠ "" ∨ c.KEKSharedSecret ≠ "" ∨ c.DEKSharedSecret ≠ "" ∨
          (c.DEKUsername ≠ "" ∧ c.DEKPassword ≠ "")))) ∧
    (c.KEKCertPath = "" ∧ c.KEKSharedSecret = "" ∧ c.DEKSharedSecret = "" ∧
        (c.DEKUsername = "" ∨ c.DEKPassword = "") → Validate c ≠ none) := by
  have h : Validate c = none ↔ violatedMessages c = [] := by
    rw [Validate_eq]; split <;> simp [*]
  have hiff : Validate c = none ↔
      (c.AppName ≠ "" ∧ c.AppVersion ≠ "" ∧
        (c.AppEnv = "DEV" ∨ c.AppEnv = "QA" ∨ c.AppEnv = "CAT" ∨ c.AppEnv = "PROD") ∧
        (c.KEKCertPath ≠ "" ∨ c.KEKSharedSecret ≠ "" ∨ c.DEKSharedSecret ≠ "" ∨
          (c.DEKUsername ≠ "" ∧ c.DEKPassword ≠ ""))) := by
    rw [h, violatedMessages_eq_nil_iff]
    unfold hasAuthMethod
    simp only [List.mem_cons, List.mem_singleton, List.not_mem_nil, or_false]
  refine ⟨hiff, ?_⟩
  rintro ⟨k1, k2, k3, k4⟩ hv
  obtain ⟨-, -, -, ha⟩ := hiff.mp hv
  rcases ha with ha | ha | ha | ⟨ha, hb⟩
  · exact ha k1
  · exact ha k2
  · exact ha k3
  · rcases k4 with k4 | k4
    · exact ha k4
    · exact hb k4

/-- Claim C1 (witness). The sample configuration passes, and a configuration whose only
credentials are a KEK passphrase and a DEK username is rejected. -/
theorem Validate_ok_iff_witness :
    Validate sampleConfig = none ∧
    Validate { sampleConfig with
      DEKSharedSecret := "", KEKCertPassphrase := "pass", DEKUsername := "user" } ≠ none :=
  ⟨(Validate_ok_iff sampleConfig).1.mpr
      ⟨by decide, by decide, Or.inl rfl, Or.inr (Or.inr (Or.inl (by decide)))⟩,
    (Validate_ok_iff { sampleConfig with
      DEKSharedSecret := "", KEKCertPassphrase := "pass", DEKUsername := "user" }).2
      ⟨rfl, rfl, rfl, Or.inr rfl⟩⟩

/-- Claim C2 (counterexample). With a valid name, version and authentication method and
the environment `A; B`, exactly one rule is violated, yet the message splits into two
parts at `; `, because the message quotes the environment. -/
theorem Validate_parts_counterexample :
    violatedRules { sampleConfig with AppEnv := "A; B" } = 1 ∧
    Validate { sampleConfig with AppEnv := "A; B" } =
      some { Field := "",
             Message := "AppEnv must be one of: DEV, QA, CAT, PROD (got: A; B)" } ∧
    partsCount "AppEnv must be one of: DEV, QA, CAT, PROD (got: A; B)" = 2 := by
  refine ⟨by decide, by rfl, by decide⟩

/-- Claim C2 (amended). For a configuration that violates at least one rule, `Validate`
returns one `ConfigError` with an empty `Field` whose `Message` is the messages of all
the violated rules, in the fixed order, joined by `; `; there are between one and four
of them, and the error text is `configuration error: ` followed by the message. The
number of parts of the message separated by `; ` is the number of violated rules plus
the number of times `; ` occurs in the environment name, so it equals the number of
violated rules whenever the environment name holds no `; `. -/
theorem Validate_message (c : Config) (h : 0 < violatedRules c) :
    ∃ e, Validate c = some e ∧ e.Field = "" ∧
      e.Message = Join (violatedMessages c) "; " ∧
      (violatedMessages c).length = violatedRules c ∧
      1 ≤ violatedRules c ∧ violatedRules c ≤ 4 ∧
      e.Error = "configuration error: " ++ e.Message ∧
      partsCount e.Message + 1 = violatedRules c + partsCount c.AppEnv ∧
      (partsCount c.AppEnv = 1 → partsCount e.Message = violatedRules c) := by
  have hlen := violatedMessages_length c
  have hparts := violatedMessages_parts c
  have hne : violatedMessages c ≠ [] := by
    intro h0; rw [h0] at hlen; simp at hlen; omega
  have hle : violatedRules c ≤ 4 := by
    unfold violatedRules
    split <;> split <;> split <;> split <;> omega
  refine ⟨{ Field := "", Message := Join (violatedMessages c) "; " }, ?_, rfl, rfl, hlen, h, hle,
    ?_, ?_, ?_⟩
  · rw [Validate_eq, if_neg hne]
  · simp [ConfigError.Error]
  · obtain ⟨m, ms, hm⟩ := List.exists_cons_of_ne_nil hne
    simp only [hm, partsCount_Join] at hparts ⊢
    exact hparts
  · intro h1
    obtain ⟨m, ms, hm⟩ := List.exists_cons_of_ne_nil hne
    simp only [hm, partsCount_Join] at hparts ⊢
    omega

/-- Claim C2 (witness). The default configuration violates four rules. -/
theorem Validate_message_witness :
    0 < violatedRules NewConfig ∧
    ∃ e, Validate NewConfig = some e ∧ e.Field = "" ∧
      e.Message = Join (violatedMessages NewConfig) "; " ∧
      (violatedMessages NewConfig).length = violatedRules NewConfig ∧
      1 ≤ violatedRules NewConfig ∧ violatedRules NewConfig ≤ 4 ∧
      e.Error = "configuration error: " ++ e.Message ∧
      partsCount e.Message + 1 = violatedRules NewConfig + partsCount NewConfig.AppEnv ∧
      (partsCount NewConfig.AppEnv = 1 → partsCount e.Message = violatedRules NewConfig) :=
  ⟨by decide, Validate_message NewConfig (by decide)⟩

/-- Claim C3 (confirmed). Whenever `LoadConfig` succeeds, the configuration it returns
passes `Validate` (name and version not empty, environment one of the four names, an
authentication method present) and its `ConfigFilePath` is the path given. Whenever
the file step succeeds and the merged configuration fails `Validate`, `LoadConfig`
returns that error and no configuration; when it passes, `LoadConfig` returns the
merged configuration. -/
theorem LoadConfig_validated (u : CaseTables) (os : OS) (p : String) :
    (∀ cfg, LoadConfig u os p = .ok cfg →
      Validate cfg = none ∧ cfg.ConfigFilePath = p ∧
      cfg.AppName ≠ "" ∧ cfg.AppVersion ≠ "" ∧
      (cfg.AppEnv = "DEV" ∨ cfg.AppEnv = "QA" ∨ cfg.AppEnv = "CAT" ∨ cfg.AppEnv = "PROD") ∧
      hasAuthMethod cfg) ∧
    (∀ c0 err, LoadConfig_file u os { NewConfig with ConfigFilePath := p } p = .ok c0 →
      Validate (loadFromEnv u os c0) = some err →
      LoadConfig u os p = .error (.config err)) ∧
    (∀ c0, LoadConfig_file u os { NewConfig with ConfigFilePath := p } p = .ok c0 →
      Validate (loadFromEnv u os c0) = none →
      LoadConfig u os p = .ok (loadFromEnv u os c0)) := by
  refine ⟨?_, ?_, ?_⟩
  · intro cfg h
    obtain ⟨c0, hc0, rfl, hv⟩ := (LoadConfig_ok_iff u os p _).mp h
    have hiff : Validate (loadFromEnv u os c0) = none ↔ violatedMessages (loadFromEnv u os c0) = [] := by
      rw [Validate_eq]; split <;> simp [*]
    obtain ⟨h1, h2, h3, h4⟩ := (violatedMessages_eq_nil_iff _).mp (hiff.mp hv)
    refine ⟨hv, ?_, h1, h2, by simpa using h3, h4⟩
    have := LoadConfig_file_ConfigFilePath u os _ c0 p hc0
    rw [loadFromEnv_eq]
    exact this
  · intro c0 err h hv
    unfold LoadConfig
    dsimp only
    rw [h]
    dsimp only
    rw [hv]
  · intro c0 h hv
    exact (LoadConfig_ok_iff u os p _).mpr ⟨c0, h, rfl, hv⟩

/-- Claim C3 (witness). Resolution of a sample file succeeds, and the result is validated
and tagged with the path. -/
theorem LoadConfig_validated_witness :
    ∃ cfg, LoadConfig asciiTables (oneFile "app.cfg" sampleFile (fun _ => "")) "app.cfg" =
        .ok cfg ∧
      Validate cfg = none ∧ cfg.ConfigFilePath = "app.cfg" :=
  ⟨_, rfl,
    ((LoadConfig_validated asciiTables (oneFile "app.cfg" sampleFile (fun _ => ""))
      "app.cfg").1 _ rfl).1,
    ((LoadConfig_validated asciiTables (oneFile "app.cfg" sampleFile (fun _ => ""))
      "app.cfg").1 _ rfl).2.1⟩

/-- Claim C4 (confirmed). For each of the eleven string fields with an environment
variable, and every configuration `c` produced by the file and the defaults, the field
after `loadFromEnv` is the value of the variable (upper-cased for `FP_APPENV`) when
that value is not empty, and the field of `c` otherwise; two environments that agree
on the variable give the same field, whatever the other variables hold. -/
theorem loadFromEnv_override (u : CaseTables) (os os2 : OS) (c : Config)
    (e : String × (Config → String) × Bool) (he : e ∈ envStringFields) :
    e.2.1 (loadFromEnv u os c) =
      (if os.Getenv e.1 ≠ "" then
        (if e.2.2 then ToUpper u (os.Getenv e.1) else os.Getenv e.1)
       else e.2.1 c) ∧
    (os2.Getenv e.1 = os.Getenv e.1 →
      e.2.1 (loadFromEnv u os2 c) = e.2.1 (loadFromEnv u os c)) := by
  refine ⟨envStringFields_overlay u os c e he, ?_⟩
  intro h
  rw [envStringFields_overlay u os c e he, envStringFields_overlay u os2 c e he, h]

/-- Claim C4 (witness). The environment name from the environment replaces the one of
the file, upper-cased, and the application name of the file is kept. -/
theorem loadFromEnv_override_witness :
    ("FP_APPENV", Config.AppEnv, true) ∈ envStringFields ∧
    (loadFromEnv asciiTables (envOnly (fun n => if n = "FP_APPENV" then "qa" else ""))
        sampleConfig).AppEnv = "QA" := by
  refine ⟨by simp [envStringFields], ?_⟩
  exact (loadFromEnv_override asciiTables
    (envOnly (fun n => if n = "FP_APPENV" then "qa" else ""))
    (envOnly (fun n => if n = "FP_APPENV" then "qa" else ""))
    sampleConfig ("FP_APPENV", Config.AppEnv, true) (by simp [envStringFields])).1

/-- Claim C5 (counterexample). The file sets the network timeout to 30 and
`FP_NETWORKTIMEOUT` holds the non-empty text `45s`: resolution succeeds and the
network timeout is 30, the value of the file. -/
theorem NetworkTimeout_counterexample :
    (oneFile "app.cfg" sampleFile timeoutEnv).Getenv "FP_NETWORKTIMEOUT" = "45s" ∧
    ∃ cfg, LoadConfig asciiTables (oneFile "app.cfg" sampleFile timeoutEnv) "app.cfg" =
        .ok cfg ∧
      cfg.NetworkTimeout = 30 :=
  ⟨rfl, _, rfl, rfl⟩

/-- Claim C5 (amended). A non-empty `FP_NETWORKTIMEOUT` that `strconv.Atoi` reads as an
integer `n` overwrites the network timeout of the file or the defaults with `n`, in
`loadFromEnv` and in the configuration `LoadConfig` returns; a non-empty value that
is not an integer leaves the network timeout as the file or the defaults set it. -/
theorem loadFromEnv_NetworkTimeout (u : CaseTables) (os : OS) (c : Config)
    (hv : os.Getenv "FP_NETWORKTIMEOUT" ≠ "") :
    (∀ n, Atoi (os.Getenv "FP_NETWORKTIMEOUT") = some n →
      (loadFromEnv u os c).NetworkTimeout = n) ∧
    (Atoi (os.Getenv "FP_NETWORKTIMEOUT") = none →
      (loadFromEnv u os c).NetworkTimeout = c.NetworkTimeout) ∧
    (∀ p cfg n, LoadConfig u os p = .ok cfg → Atoi (os.Getenv "FP_NETWORKTIMEOUT") = some n →
      cfg.NetworkTimeout = n) := by
  refine ⟨?_, ?_, ?_⟩
  · intro n hn; simp [loadFromEnv_eq, hv, hn]
  · intro hn; simp [loadFromEnv_eq, hv, hn]
  · intro p cfg n hcfg hn
    obtain ⟨c0, -, rfl, -⟩ := (LoadConfig_ok_iff u os p cfg).mp hcfg
    simp [loadFromEnv_eq, hv, hn]

/-- Claim C5 (witness). With `FP_NETWORKTIMEOUT=15` the sample configuration gets the
network timeout 15. -/
theorem loadFromEnv_NetworkTimeout_witness :
    (envOnly (fun n => if n = "FP_NETWORKTIMEOUT" then "15" else "")).Getenv
        "FP_NETWORKTIMEOUT" ≠ "" ∧
    (loadFromEnv asciiTables (envOnly (fun n => if n = "FP_NETWORKTIMEOUT" then "15" else ""))
        sampleConfig).NetworkTimeout = 15 :=
  ⟨by decide,
    (loadFromEnv_NetworkTimeout asciiTables
      (envOnly (fun n => if n = "FP_NETWORKTIMEOUT" then "15" else "")) sampleConfig
      (by decide)).1 15 (by decide)⟩

/-- Claim C6 (confirmed). Deleting from a file every line with an equals sign whose
trimmed key is not one of the seventeen recognised keys gives the same parsed
configuration; such a line, and `setConfigValue` on such a key, change nothing. The
match is exact: lines with the keys `FP_APPNAME` or `loglevel` change nothing. -/
theorem unknown_keys_ignored (u : CaseTables) (c : Config) (data : String) :
    loadFromFile_data u c
        (Join ((Split data '\n').filter (fun l => !isUnknownKeyLine l)) "\n") =
      loadFromFile_data u c data ∧
    (∀ line, isUnknownKeyLine line = true → loadFromFile_line u c line = c) ∧
    (∀ key value, key ∉ recognisedKeys → setConfigValue u c key value = c) ∧
    (∀ ws ws' v : String, (∀ x ∈ ws.data, IsSpace x = true) → (∀ x ∈ ws'.data, IsSpace x = true) →
      loadFromFile_line u c (ws ++ "FP_APPNAME" ++ ws' ++ "=" ++ v) = c ∧
      loadFromFile_line u c (ws ++ "loglevel" ++ ws' ++ "=" ++ v) = c) := by
  refine ⟨?_, ?_, ?_, ?_⟩
  · rw [loadFromFile_data_Join]
    · unfold loadFromFile_lines loadFromFile_data loadFromFile_lines
      apply foldl_filter_noop
      intro c l hl
      exact loadFromFile_line_unknown u c l (by simpa using hl)
    · intro l hl
      exact Split_pieces data l (List.mem_of_mem_filter hl)
  · intro line h
    exact loadFromFile_line_unknown u c line h
  · intro key value h
    exact setConfigValue_unknown u c key value h
  · intro ws ws' v hws hws'
    constructor
    · rw [loadFromFile_line_keyvalue u c ws "FP_APPNAME" ws' v (by decide) hws hws']
      exact setConfigValue_unknown u c _ _ (by decide)
    · rw [loadFromFile_line_keyvalue u c ws "loglevel" ws' v (by decide) hws hws']
      exact setConfigValue_unknown u c _ _ (by decide)

/-- Claim C6 (witness). In a file of five lines the three lines with the keys
`FP_APPNAME`, `colour` and `loglevel` are deleted, and the parse is the same. -/
theorem unknown_keys_ignored_witness :
    (Split "fp_appName=TestApp\nFP_APPNAME=Other\n colour = red\nloglevel=9\n" '\n').filter
        (fun l => !isUnknownKeyLine l) = ["fp_appName=TestApp", ""] ∧
    loadFromFile_data asciiTables NewConfig
        (Join ((Split "fp_appName=TestApp\nFP_APPNAME=Other\n colour = red\nloglevel=9\n"
          '\n').filter (fun l => !isUnknownKeyLine l)) "\n") =
      loadFromFile_data asciiTables NewConfig
        "fp_appName=TestApp\nFP_APPNAME=Other\n colour = red\nloglevel=9\n" :=
  ⟨by decide,
    (unknown_keys_ignored asciiTables NewConfig
      "fp_appName=TestApp\nFP_APPNAME=Other\n colour = red\nloglevel=9\n").1⟩

/-- Claim C7 (counterexample). The file line `fp_appEnv= dev` stores `DEV`, which is not
the upper-cased form ` DEV` of the text after the equals sign. -/
theorem appEnv_trimmed_counterexample :
    (loadFromFile_line asciiTables NewConfig "fp_appEnv= dev").AppEnv = "DEV" ∧
    ToUpper asciiTables " dev" = " DEV" ∧
    (loadFromFile_line asciiTables NewConfig "fp_appEnv= dev").AppEnv ≠
      ToUpper asciiTables " dev" := by
  refine ⟨by decide, by decide, by decide⟩

/-- Claim C7 (amended). For every text `s`, the file line `fp_appEnv=s` stores the
upper-cased form of `s` with its leading and trailing white space removed (also as
the content of a one-line file, when `s` holds no line feed), and a non-empty
`FP_APPENV=s` stores the upper-cased form of `s` as it stands. Hence for every
letter-case variant of dev, qa, cat or prod both store exactly `DEV`, `QA`, `CAT` or
`PROD`, one of the names the environment rule of `Validate` accepts. -/
theorem appEnv_normalised (u : CaseTables) (c : Config) (os : OS) (s : String) :
    (loadFromFile_line u c ("fp_appEnv=" ++ s)).AppEnv = ToUpper u (TrimSpace s) ∧
    ('\n' ∉ s.data →
      (loadFromFile_data u c ("fp_appEnv=" ++ s)).AppEnv = ToUpper u (TrimSpace s)) ∧
    (os.Getenv "FP_APPENV" = s → s ≠ "" → (loadFromEnv u os c).AppEnv = ToUpper u s) ∧
    (∀ w ∈ [("dev", "DEV"), ("qa", "QA"), ("cat", "CAT"), ("prod", "PROD")],
      s ∈ caseVariants w.1 →
        (loadFromFile_line u c ("fp_appEnv=" ++ s)).AppEnv = w.2 ∧
        (os.Getenv "FP_APPENV" = s → (loadFromEnv u os c).AppEnv = w.2) ∧
        w.2 ∈ validEnvs) := by
  refine ⟨?_, ?_, ?_, ?_⟩
  · rw [appEnv_line]
  · intro hnl
    rw [loadFromFile_data_single, appEnv_line]
    have : "fp_appEnv=".data = ['f', 'p', '_', 'a', 'p', 'p', 'E', 'n', 'v', '='] := rfl
    simp only [String.data_append, List.mem_append, this, not_or]
    exact ⟨by decide, hnl⟩
  · intro hs hne
    rw [loadFromEnv_eq]
    simp [hs, hne]
  · intro w hw hs
    obtain ⟨h1, h2⟩ := caseVariants_upper u s w hw hs
    refine ⟨?_, ?_, ?_⟩
    · rw [appEnv_line]
      show ToUpper u (TrimSpace s) = w.2
      rw [h2, h1]
    · intro hg
      have hne : s ≠ "" := by
        intro e
        rw [e] at h1
        have h0 : ToUpper u "" = "" := rfl
        rw [h0] at h1
        simp only [List.mem_cons, List.mem_singleton, List.not_mem_nil, or_false] at hw
        rcases hw with rfl | rfl | rfl | rfl <;> exact absurd h1 (by decide)
      rw [loadFromEnv_eq]
      simp [hg, hne, h1]
    · simp only [List.mem_cons, List.mem_singleton, List.not_mem_nil, or_false] at hw
      rcases hw with rfl | rfl | rfl | rfl <;> decide

/-- Claim C7 (witness). The variant `Dev` is stored as `DEV` from the file and from the
environment. -/
theorem appEnv_normalised_witness :
    "Dev" ∈ caseVariants "dev" ∧
    (loadFromFile_line asciiTables NewConfig ("fp_appEnv=" ++ "Dev")).AppEnv = "DEV" ∧
    (loadFromEnv asciiTables (envOnly (fun n => if n = "FP_APPENV" then "Dev" else ""))
      NewConfig).AppEnv = "DEV" :=
  ⟨by decide,
    ((appEnv_normalised asciiTables NewConfig
      (envOnly (fun n => if n = "FP_APPENV" then "Dev" else "")) "Dev").2.2.2
      ("dev", "DEV") (by simp) (by decide)).1,
    ((appEnv_normalised asciiTables NewConfig
      (envOnly (fun n => if n = "FP_APPENV" then "Dev" else "")) "Dev").2.2.2
      ("dev", "DEV") (by simp) (by decide)).2.1 rfl⟩

/-- Claim C8 (confirmed). For a non-empty path at which no file exists, `LoadConfig` has
the outcome of `LoadConfig` on the empty path, the same error or the same
configuration with `ConfigFilePath` set to the path; it succeeds whenever the defaults
overlaid with the environment pass `Validate`. -/
theorem LoadConfig_missing (u : CaseTables) (os : OS) (p : String)
    (hp : p ≠ "") (hstat : os.Stat p = .notExist) :
    LoadConfig u os p = (LoadConfig u os "").map (fun c => { c with ConfigFilePath := p }) ∧
    (Validate (loadFromEnv u os NewConfig) = none →
      LoadConfig u os p = .ok { loadFromEnv u os NewConfig with ConfigFilePath := p }) := by
  have h1 : LoadConfig_file u os { NewConfig with ConfigFilePath := p } p =
      .ok { NewConfig with ConfigFilePath := p } := by
    simp [LoadConfig_file, hp, hstat]
  have h2 : LoadConfig_file u os { NewConfig with ConfigFilePath := "" } "" = .ok NewConfig := by
    simp [LoadConfig_file]; rfl
  have h3 : Validate (loadFromEnv u os { NewConfig with ConfigFilePath := p }) =
      Validate (loadFromEnv u os NewConfig) := by
    rw [loadFromEnv_ConfigFilePath, Validate_ConfigFilePath]
  constructor
  · unfold LoadConfig
    dsimp only
    rw [h1, h2]
    dsimp only
    rw [h3]
    cases Validate (loadFromEnv u os NewConfig) with
    | none => simp [Except.map, loadFromEnv_ConfigFilePath]
    | some e => simp [Except.map]
  · intro hv
    rw [LoadConfig_ok_iff]
    exact ⟨_, h1, (loadFromEnv_ConfigFilePath u os NewConfig p).symm, by rw [h3, hv]⟩

/-- Claim C8 (witness). The test `TestLoadConfigNonExistentFile`: the environment alone
supplies a valid configuration. -/
theorem LoadConfig_missing_witness :
    "/nonexistent/path/config.cfg" ≠ "" ∧
    (envOnly sampleEnv).Stat "/nonexistent/path/config.cfg" = .notExist ∧
    LoadConfig asciiTables (envOnly sampleEnv) "/nonexistent/path/config.cfg" =
      .ok { sampleConfig with ConfigFilePath := "/nonexistent/path/config.cfg" } :=
  ⟨by decide, rfl,
    (LoadConfig_missing asciiTables (envOnly sampleEnv) "/nonexistent/path/config.cfg"
      (by decide) rfl).2 rfl⟩

/-- Claim C9 (confirmed). Inserting at any position of a file a line without a line feed
that after trimming is empty, starts with `#` or `;`, starts with `[` and ends with
`]`, or holds no equals sign, leaves the configuration parsed by `loadFromFile`
unchanged; the line itself changes nothing. -/
theorem skipped_line_no_effect (u : CaseTables) (c : Config) (data line : String) (i : Nat)
    (hline : isSkippedLine line) (hnl : '\n' ∉ line.data) :
    loadFromFile_data u c
        (Join ((Split data '\n').take i ++ line :: (Split data '\n').drop i) "\n") =
      loadFromFile_data u c data ∧
    loadFromFile_line u c line = c := by
  have hl := loadFromFile_line_skipped u c line hline
  refine ⟨?_, hl⟩
  rw [loadFromFile_data_Join]
  · unfold loadFromFile_data loadFromFile_lines
    rw [List.foldl_append, List.foldl_cons, loadFromFile_line_skipped u _ line hline,
      ← List.foldl_append, List.take_append_drop]
  · intro l hmem
    rcases List.mem_append.mp hmem with h | h
    · exact Split_pieces data l (List.mem_of_mem_take h)
    · rcases List.mem_cons.mp h with rfl | h
      · exact hnl
      · exact Split_pieces data l (List.mem_of_mem_drop h)

/-- Claim C9 (witness). The section-shaped line `[fp_appName=x]` inserted after the first
line of a file has no effect. -/
theorem skipped_line_no_effect_witness :
    isSkippedLine "[fp_appName=x]" ∧ '\n' ∉ "[fp_appName=x]".data ∧
    loadFromFile_data asciiTables NewConfig
        (Join ((Split sampleFile '\n').take 1 ++ "[fp_appName=x]" ::
          (Split sampleFile '\n').drop 1) "\n") =
      loadFromFile_data asciiTables NewConfig sampleFile :=
  ⟨Or.inr (Or.inr (Or.inr (Or.inl ⟨rfl, rfl⟩))), by decide,
    (skipped_line_no_effect asciiTables NewConfig sampleFile "[fp_appName=x]" 1
      (Or.inr (Or.inr (Or.inr (Or.inl ⟨rfl, rfl⟩)))) (by decide)).1⟩

/-- Claim C10 (confirmed). For each of the fourteen string-valued keys `k` and every
text `v`, a line made of white space, `k`, white space, an equals sign and `v` sets
the field of `k` to `v` with its leading and trailing white space removed (upper-cased
for `fp_appEnv`) and changes nothing else, also as the content of a one-line file
when no part holds a line feed. The split is at the first equals sign: `v` may hold
further equals signs, and they stay in the value. -/
theorem keyvalue_line_sets_field (u : CaseTables) (c : Config) (ws ws' v : String)
    (e : String × (Config → String → Config)) (he : e ∈ stringKeyFields u)
    (hws : ∀ x ∈ ws.data, IsSpace x = true) (hws' : ∀ x ∈ ws'.data, IsSpace x = true) :
    loadFromFile_line u c (ws ++ e.1 ++ ws' ++ "=" ++ v) = e.2 c (TrimSpace v) ∧
    ('\n' ∉ ws.data → '\n' ∉ ws'.data → '\n' ∉ v.data →
      loadFromFile_data u c (ws ++ e.1 ++ ws' ++ "=" ++ v) = e.2 c (TrimSpace v)) := by
  have key : keyShape e.1 = true ∧ '\n' ∉ e.1.data ∧
      setConfigValue u c e.1 (TrimSpace v) = e.2 c (TrimSpace v) := by
    simp only [stringKeyFields, List.mem_cons, List.mem_singleton, List.not_mem_nil,
      or_false] at he
    rcases he with rfl | rfl | rfl | rfl | rfl | rfl | rfl | rfl | rfl | rfl | rfl | rfl |
      rfl | rfl <;> exact ⟨by dsimp only; decide, by dsimp only; decide, rfl⟩
  obtain ⟨hk, hknl, hset⟩ := key
  have hline := loadFromFile_line_keyvalue u c ws e.1 ws' v hk hws hws'
  refine ⟨hline.trans hset, ?_⟩
  intro h1 h2 h3
  rw [loadFromFile_data_single, hline, hset]
  have : "=".data = ['='] := rfl
  simp only [String.data_append, List.mem_append, this, List.mem_singleton, not_or]
  exact ⟨⟨⟨⟨h1, hknl⟩, h2⟩, by decide⟩, h3⟩

/-- Claim C10 (witness). The line ` fp_kek_sharedSecret = a=b=c ` sets the KEK shared
secret to `a=b=c`. -/
theorem keyvalue_line_sets_field_witness :
    (∀ x ∈ " \t".data, IsSpace x = true) ∧ (∀ x ∈ " ".data, IsSpace x = true) ∧
    loadFromFile_line asciiTables NewConfig
        (" \t" ++ "fp_kek_sharedSecret" ++ " " ++ "=" ++ " a=b=c \r") =
      { NewConfig with KEKSharedSecret := "a=b=c" } :=
  ⟨by decide, by decide,
    (keyvalue_line_sets_field asciiTables NewConfig " \t" " " " a=b=c \r"
      ("fp_kek_sharedSecret", fun c x => { c with KEKSharedSecret := x })
      (by simp [stringKeyFields]) (by decide) (by decide)).1⟩

/-- Claim C11 (counterexample). The text `9223372036854775808` is a decimal integer, yet
the line `LogLevel=9223372036854775808` leaves the log level at its default 2: the
field does not become that integer. And the text ` 7`, with a leading blank, is not a
decimal integer, yet the line `LogLevel= 7` sets the log level to 7. -/
theorem integer_line_counterexample :
    decimalValue "9223372036854775808" = some 9223372036854775808 ∧
    (loadFromFile_line asciiTables NewConfig "LogLevel=9223372036854775808").LogLevel = 2 ∧
    decimalValue " 7" = none ∧
    (loadFromFile_line asciiTables NewConfig "LogLevel= 7").LogLevel = 7 := by
  refine ⟨by decide, by decide, by decide, by decide⟩

/-- Claim C11 (amended). For every configuration `c` and value text `v`, read `v` with
its leading and trailing white space removed. When that text is a decimal integer
within the range of `int`, the line `LogLevel=v` sets the log level, and the line
`fp_networkTimeout=v` the network timeout, to that integer. When it is not a decimal
integer, or is one outside the range of `int`, either line leaves `c` entirely
unchanged, and inserting it at any position of any file leaves the parsed
configuration unchanged. The parser returns no error once the file has been read. -/
theorem integer_line (u : CaseTables) (c : Config) (v : String) :
    (∀ n, decimalValue (TrimSpace v) = some n → inIntRange n →
      loadFromFile_line u c ("LogLevel=" ++ v) = { c with LogLevel := n } ∧
      loadFromFile_line u c ("fp_networkTimeout=" ++ v) = { c with NetworkTimeout := n }) ∧
    ((decimalValue (TrimSpace v) = none ∨
        ∃ n, decimalValue (TrimSpace v) = some n ∧ ¬ inIntRange n) →
      loadFromFile_line u c ("LogLevel=" ++ v) = c ∧
      loadFromFile_line u c ("fp_networkTimeout=" ++ v) = c ∧
      ('\n' ∉ v.data → ∀ data i,
        loadFromFile_data u c
            (Join ((Split data '\n').take i ++ ("LogLevel=" ++ v) ::
              (Split data '\n').drop i) "\n") = loadFromFile_data u c data ∧
        loadFromFile_data u c
            (Join ((Split data '\n').take i ++ ("fp_networkTimeout=" ++ v) ::
              (Split data '\n').drop i) "\n") = loadFromFile_data u c data)) ∧
    (∀ (os : OS) (path data : String), os.ReadFile path = .ok data →
      loadFromFile u os c path = .ok (loadFromFile_data u c data)) := by
  have hL : ∀ c0, loadFromFile_line u c0 ("LogLevel=" ++ v) =
      match Atoi (TrimSpace v) with
      | some val => { c0 with LogLevel := val }
      | none => c0 := by
    intro c0
    have := line_of_key u c0 "LogLevel" v (by decide)
    rw [setConfigValue_LogLevel] at this
    exact this
  have hN : ∀ c0, loadFromFile_line u c0 ("fp_networkTimeout=" ++ v) =
      match Atoi (TrimSpace v) with
      | some val => { c0 with NetworkTimeout := val }
      | none => c0 := by
    intro c0
    have := line_of_key u c0 "fp_networkTimeout" v (by decide)
    rw [setConfigValue_networkTimeout] at this
    exact this
  refine ⟨?_, ?_, ?_⟩
  · intro n hn hr
    have ha : Atoi (TrimSpace v) = some n := by rw [Atoi_eq, hn]; simp [hr]
    rw [hL, hN, ha]
    exact ⟨rfl, rfl⟩
  · intro h
    have ha : Atoi (TrimSpace v) = none := by
      rw [Atoi_eq]
      rcases h with h | ⟨n, hn, hr⟩
      · rw [h]
      · rw [hn]; simp [hr]
    have h1 : ∀ c0, loadFromFile_line u c0 ("LogLevel=" ++ v) = c0 := by
      intro c0; rw [hL, ha]
    have h2 : ∀ c0, loadFromFile_line u c0 ("fp_networkTimeout=" ++ v) = c0 := by
      intro c0; rw [hN, ha]
    refine ⟨h1 c, h2 c, ?_⟩
    intro hnl data i
    exact ⟨loadFromFile_data_insert u c data _ i h1
        (not_mem_append_literal "LogLevel=" v '\n' (by decide) hnl),
      loadFromFile_data_insert u c data _ i h2
        (not_mem_append_literal "fp_networkTimeout=" v '\n' (by decide) hnl)⟩
  · intro os path data h
    simp [loadFromFile, h]

/-- Claim C11 (witness). The line `LogLevel= 42 ` sets the log level to 42 and the line
`fp_networkTimeout=soon` changes nothing. -/
theorem integer_line_witness :
    decimalValue (TrimSpace " 42 ") = some 42 ∧ inIntRange 42 ∧
    loadFromFile_line asciiTables NewConfig ("LogLevel=" ++ " 42 ") =
      { NewConfig with LogLevel := 42 } ∧
    decimalValue (TrimSpace "soon") = none ∧
    loadFromFile_line asciiTables NewConfig ("fp_networkTimeout=" ++ "soon") = NewConfig :=
  ⟨by decide, by decide,
    ((integer_line asciiTables NewConfig " 42 ").1 42 (by decide) (by decide)).1,
    by decide,
    ((integer_line asciiTables NewConfig "soon").2.1 (Or.inl (by decide))).2.1⟩

/-- Claim C12 (counterexample). A configuration whose CRL-disable flag is true has the
flag false after the line `fp_disableCRLChecking=maybe`, also when the flag was set by
an earlier line of the same file. -/
theorem crl_flag_counterexample :
    ({ NewConfig with DisableCRLChecking := true } : Config).DisableCRLChecking = true ∧
    (loadFromFile_line asciiTables { NewConfig with DisableCRLChecking := true }
      "fp_disableCRLChecking=maybe").DisableCRLChecking = false ∧
    (loadFromFile_data asciiTables NewConfig
      "fp_disableCRLChecking=true").DisableCRLChecking = true ∧
    (loadFromFile_data asciiTables NewConfig
      "fp_disableCRLChecking=true\nfp_disableCRLChecking=maybe").DisableCRLChecking = false := by
  refine ⟨rfl, by decide, by decide, by decide⟩

/-- Claim C12 (amended). No text is an unparsable boolean and the previous value is
never retained: for every configuration `c` and text `v`, the line
`fp_disableCRLChecking=v` sets the CRL-disable flag to true when `v`, trimmed and
lower-cased, equals `true`, and to false otherwise, and changes nothing else; a
non-empty `FP_DISABLECRLCHECKING=v` does the same with `v` as it stands. So the lines
with `maybe` and with an empty value set the flag to false, whatever it was. -/
theorem crl_line_sets_flag (u : CaseTables) (c : Config) (os : OS) (v : String) :
    loadFromFile_line u c ("fp_disableCRLChecking=" ++ v) =
      { c with DisableCRLChecking := ToLower u (TrimSpace v) == "true" } ∧
    (os.Getenv "FP_DISABLECRLCHECKING" = v → v ≠ "" →
      (loadFromEnv u os c).DisableCRLChecking = (ToLower u v == "true")) ∧
    (v = "maybe" ∨ v = "" →
      (loadFromFile_line u c ("fp_disableCRLChecking=" ++ v)).DisableCRLChecking = false) := by
  have h0 := line_of_key u c "fp_disableCRLChecking" v (by decide)
  rw [setConfigValue_disableCRL] at h0
  have h : loadFromFile_line u c ("fp_disableCRLChecking=" ++ v) =
      { c with DisableCRLChecking := ToLower u (TrimSpace v) == "true" } := h0
  refine ⟨h, ?_, ?_⟩
  · intro hv hne
    rw [loadFromEnv_eq]
    simp [hv, hne]
  · intro hv
    rw [h]
    rcases hv with rfl | rfl <;> rfl

/-- Claim C12 (witness). The value `TRUE` sets the flag and the empty value clears it. -/
theorem crl_line_sets_flag_witness :
    loadFromFile_line asciiTables NewConfig ("fp_disableCRLChecking=" ++ " TRUE") =
      { NewConfig with DisableCRLChecking := true } ∧
    (loadFromFile_line asciiTables { NewConfig with DisableCRLChecking := true }
      ("fp_disableCRLChecking=" ++ "")).DisableCRLChecking = false :=
  ⟨(crl_line_sets_flag asciiTables NewConfig (envOnly (fun _ => "")) " TRUE").1,
    (crl_line_sets_flag asciiTables { NewConfig with DisableCRLChecking := true }
      (envOnly (fun _ => "")) "").2.2 (Or.inr rfl)⟩

/-- Claim C13 (failing input). With the environment of the test
`TestLoadConfigNonExistentFile` and `FP_NETWORKTIMEOUT=abc`, `LoadConfig` of package
`config` fails with the environment error and returns no configuration, and so it does
when the variable is set to the empty text. `LoadConfig` of `src/config.go` succeeds on
both environments and keeps the default timeout, and the file parser of package `config`
itself ignores the line `fp_networkTimeout=abc`. -/
theorem config_bad_timeout_fatal :
    (hostOnly badTimeoutEnv).LookupEnv "FP_NETWORKTIMEOUT" = some "abc" ∧
    config.LoadConfig asciiTables (hostOnly badTimeoutEnv) "" =
      .error (.loadEnv { KeyName := "FP_NETWORKTIMEOUT", FieldName := "NetworkTimeout",
                         TypeName := "int", Value := "abc" }) ∧
    LoadConfig asciiTables (hostOnly badTimeoutEnv).toOS "" = .ok sampleConfig ∧
    config.LoadConfig asciiTables emptyTimeoutHost "" =
      .error (.loadEnv { KeyName := "FP_NETWORKTIMEOUT", FieldName := "NetworkTimeout",
                         TypeName := "int", Value := "" }) ∧
    LoadConfig asciiTables emptyTimeoutHost.toOS "" = .ok sampleConfig ∧
    config.loadFromFile_line asciiTables sampleConfig "fp_networkTimeout=abc" =
      sampleConfig := by
  refine ⟨rfl, rfl, rfl, rfl, rfl, rfl⟩

/-- Claim C14 (counterexample). A configuration with the two secrets whose application
name is `secretXYZ` renders a text that contains `secretXYZ`. -/
theorem String_secret_counterexample :
    ({ secretConfig with AppName := "secretXYZ" } : Config).KEKCertPassphrase = "secretXYZ" ∧
    ({ secretConfig with AppName := "secretXYZ" } : Config).DEKSharedSecret = "secretABC" ∧
    Contains ({ secretConfig with AppName := "secretXYZ" } : Config).String "secretXYZ" = true := by
  refine ⟨rfl, rfl, ?_⟩
  rw [Contains_String_iff _ _ (Or.inl rfl)]
  left
  decide

/-- Claim C14 (amended). For every configuration, whatever its KEK passphrase and DEK
shared secret, in particular when they are `secretXYZ` and `secretABC`: the masked
rendering contains `secretXYZ` exactly when one of the six rendered string fields
(application name, version, environment, install path, trust-store path, XML
configuration path) contains it, and likewise for `secretABC`. So it contains neither
when none of these six fields does. -/
theorem String_secret_iff (c : Config) :
    (Contains c.String "secretXYZ" = true ↔
      (Contains c.AppName "secretXYZ" = true ∨ Contains c.AppVersion "secretXYZ" = true ∨
       Contains c.AppEnv "secretXYZ" = true ∨
       Contains c.SimpleAPIInstallPath "secretXYZ" = true ∨
       Contains c.TrustStorePath "secretXYZ" = true ∨
       Contains c.XMLConfigPath "secretXYZ" = true)) ∧
    (Contains c.String "secretABC" = true ↔
      (Contains c.AppName "secretABC" = true ∨ Contains c.AppVersion "secretABC" = true ∨
       Contains c.AppEnv "secretABC" = true ∨
       Contains c.SimpleAPIInstallPath "secretABC" = true ∨
       Contains c.TrustStorePath "secretABC" = true ∨
       Contains c.XMLConfigPath "secretABC" = true)) :=
  ⟨Contains_String_iff c "secretXYZ" (Or.inl rfl), Contains_String_iff c "secretABC" (Or.inr rfl)⟩

/-- Claim C14 (witness). The configuration of the test `TestConfigString` with the two
secrets renders a text that contains neither. -/
theorem String_secret_iff_witness :
    secretConfig.KEKCertPassphrase = "secretXYZ" ∧ secretConfig.DEKSharedSecret = "secretABC" ∧
    Contains secretConfig.String "secretXYZ" = false ∧
    Contains secretConfig.String "secretABC" = false := by
  refine ⟨rfl, rfl, ?_, ?_⟩
  · have h := (String_secret_iff secretConfig).1
    rw [Bool.eq_false_iff]
    intro hc
    have := h.mp hc
    revert this
    decide
  · have h := (String_secret_iff secretConfig).2
    rw [Bool.eq_false_iff]
    intro hc
    have := h.mp hc
    revert this
    decide

/-- Claim C15 (confirmed). The masked rendering is the fixed text with the application
name, version, environment, install path, trust-store path, XML configuration path and
the network timeout in decimal substituted; it contains each of these seven values;
and two configurations that agree on these seven fields render identically, whatever
their other fields. -/
theorem String_public_fields (c : Config) :
    c.String =
      "Config\x7bAppName: " ++ c.AppName ++ ", AppVersion: " ++ c.AppVersion ++
      ", AppEnv: " ++ c.AppEnv ++ ", SimpleAPIInstallPath: " ++ c.SimpleAPIInstallPath ++
      ", TrustStorePath: " ++ c.TrustStorePath ++ ", XMLConfigPath: " ++ c.XMLConfigPath ++
      ", NetworkTimeout: " ++ formatInt c.NetworkTimeout ++ "\x7d" ∧
    (Contains c.String c.AppName = true ∧ Contains c.String c.AppVersion = true ∧
     Contains c.String c.AppEnv = true ∧ Contains c.String c.SimpleAPIInstallPath = true ∧
     Contains c.String c.TrustStorePath = true ∧ Contains c.String c.XMLConfigPath = true ∧
     Contains c.String (formatInt c.NetworkTimeout) = true) ∧
    (∀ c2 : Config, c2.AppName = c.AppName → c2.AppVersion = c.AppVersion →
      c2.AppEnv = c.AppEnv → c2.SimpleAPIInstallPath = c.SimpleAPIInstallPath →
      c2.TrustStorePath = c.TrustStorePath → c2.XMLConfigPath = c.XMLConfigPath →
      c2.NetworkTimeout = c.NetworkTimeout → c2.String = c.String) := by
  refine ⟨Config_String_eq c, ?_, ?_⟩
  · simp only [Contains, decide_eq_true_eq]
    rw [Config_String_data]
    refine ⟨?_, ?_, ?_, ?_, ?_, ?_, ?_⟩ <;>
    repeat (first
      | exact List.infix_refl _
      | (apply infix_app_left; exact List.infix_refl _)
      | apply infix_app_right
      | apply infix_skip)
  · intro c2 h1 h2 h3 h4 h5 h6 h7
    simp only [Config.String, h1, h2, h3, h4, h5, h6, h7]

/-- Claim C15 (witness). The rendering of the test configuration, and its equality
with the rendering of the same configuration without the secrets. -/
theorem String_public_fields_witness :
    secretConfig.String =
      "Config\x7bAppName: TestApp, AppVersion: 1.0.0, AppEnv: DEV, SimpleAPIInstallPath: /opt/voltage, TrustStorePath: /opt/trust, XMLConfigPath: ./config.xml, NetworkTimeout: 15\x7d" ∧
    ({ secretConfig with KEKCertPassphrase := "", DEKSharedSecret := "" } : Config).String =
      secretConfig.String :=
  ⟨by rfl,
    (String_public_fields secretConfig).2.2
      { secretConfig with KEKCertPassphrase := "", DEKSharedSecret := "" }
      rfl rfl rfl rfl rfl rfl rfl⟩

/-- Claim C16 (confirmed). `NewConfig` has network timeout 10, CRL checking not
disabled, log level 2 and every string field empty. With an empty environment and no
file, or an empty file, `LoadConfig` fails with the validation error that lists
exactly the four rules: name, version and environment required, no authentication
method. -/
theorem NewConfig_defaults (u : CaseTables) (os : OS) (p : String) :
    (NewConfig.NetworkTimeout = 10 ∧ NewConfig.DisableCRLChecking = false ∧
     NewConfig.LogLevel = 2 ∧
     NewConfig.AppName = "" ∧ NewConfig.AppVersion = "" ∧ NewConfig.AppEnv = "" ∧
     NewConfig.SimpleAPIInstallPath = "" ∧ NewConfig.TrustStorePath = "" ∧
     NewConfig.XMLConfigPath = "" ∧ NewConfig.KEKCertPath = "" ∧
     NewConfig.KEKCertPassphrase = "" ∧ NewConfig.KEKSharedSecret = "" ∧
     NewConfig.DEKSharedSecret = "" ∧ NewConfig.DEKUsername = "" ∧
     NewConfig.DEKPassword = "" ∧ NewConfig.DefaultCryptID = "" ∧ NewConfig.LogFile = "" ∧
     NewConfig.ConfigFilePath = "") ∧
    ((∀ key, os.Getenv key = "") →
      (p = "" ∨ os.Stat p = .notExist ∨ (os.Stat p = .ok ∧ os.ReadFile p = .ok "")) →
      LoadConfig u os p = .error (.config
        { Field := "",
          Message := "AppName is required (set fp_appName or FP_APPNAME); AppVersion is required (set fp_appVersion or FP_APPVERSION); AppEnv is required (set fp_appEnv or FP_APPENV); At least one authentication method must be configured (KEK or DEK credentials)" }) ∧
      violatedRules (loadFromEnv u os { NewConfig with ConfigFilePath := p }) = 4 ∧
      violatedMessages (loadFromEnv u os { NewConfig with ConfigFilePath := p }) =
        ["AppName is required (set fp_appName or FP_APPNAME)",
         "AppVersion is required (set fp_appVersion or FP_APPVERSION)",
         "AppEnv is required (set fp_appEnv or FP_APPENV)",
         "At least one authentication method must be configured (KEK or DEK credentials)"]) := by
  refine ⟨by decide, ?_⟩
  intro henv hfile
  have hE : ∀ c0, loadFromEnv u os c0 = c0 := by
    intro c0
    rw [loadFromEnv_eq]
    simp [henv]
  have hF : LoadConfig_file u os { NewConfig with ConfigFilePath := p } p =
      .ok { NewConfig with ConfigFilePath := p } := by
    unfold LoadConfig_file
    rcases hfile with h | h | ⟨h1, h2⟩
    · simp [h]
    · by_cases hp : p = ""
      · simp [hp]
      · simp [hp, h]
    · by_cases hp : p = ""
      · simp [hp]
      · simp only [ne_eq, hp, not_false_eq_true, if_true, h1, loadFromFile, h2]
        rfl
  refine ⟨?_, ?_, ?_⟩
  · unfold LoadConfig
    dsimp only
    rw [hF]
    dsimp only
    rw [hE]
    rfl
  · rw [hE]; rfl
  · rw [hE]; rfl

/-- Claim C16 (witness). Resolution of an empty file in an empty environment. -/
theorem NewConfig_defaults_witness :
    ∃ e, LoadConfig asciiTables (oneFile "app.cfg" "" (fun _ => "")) "app.cfg" =
        .error (.config e) ∧
      partsCount e.Message = 4 :=
  ⟨_, ((NewConfig_defaults asciiTables (oneFile "app.cfg" "" (fun _ => "")) "app.cfg").2
      (fun _ => rfl) (Or.inr (Or.inr ⟨rfl, rfl⟩))).1, by decide⟩

/-- Claim C17 (confirmed). `IsRetryable` is true exactly for the codes 15 (network
timeout), 8 (connection failed) and 19 (service unavailable); it is false for each of
the other seventeen kinds and for every other code. -/
theorem IsRetryable_iff (e : VoltageError) :
    (e.IsRetryable = true ↔ (e.Code = 15 ∨ e.Code = 8 ∨ e.Code = 19)) ∧
    (ErrNetworkTimeout = 15 ∧ ErrConnectionFailed = 8 ∧ ErrServiceUnavailable = 19) ∧
    (e.Code ∈ notRetryableKinds → e.IsRetryable = false) ∧
    (e.Code ≠ 15 ∧ e.Code ≠ 8 ∧ e.Code ≠ 19 → e.IsRetryable = false) := by
  have hiff : e.IsRetryable = true ↔ (e.Code = 15 ∨ e.Code = 8 ∨ e.Code = 19) := by
    simp [VoltageError.IsRetryable, ErrNetworkTimeout, ErrConnectionFailed,
      ErrServiceUnavailable]
  refine ⟨hiff, ⟨rfl, rfl, rfl⟩, ?_, ?_⟩
  · intro hk
    rw [Bool.eq_false_iff]
    intro hr
    have h := hiff.mp hr
    simp only [notRetryableKinds, List.mem_cons, List.mem_singleton, List.not_mem_nil,
      or_false, ErrInvalidParameter, ErrMemoryAllocation, ErrConfigNotFound, ErrConfigInvalid,
      ErrInitializationFailed, ErrNotInitialized, ErrAlreadyInitialized,
      ErrAuthenticationFailed, ErrCryptIDNotFound, ErrEncryptionFailed, ErrDecryptionFailed,
      ErrInvalidData, ErrBufferTooSmall, ErrCertificateError, ErrKeyNotFound,
      ErrPermissionDenied, ErrUnknown] at hk
    have key : ∀ k : Int, (k = 15 ∨ k = 8 ∨ k = 19) →
        (k = 1 ∨ k = 2 ∨ k = 3 ∨ k = 4 ∨ k = 5 ∨ k = 6 ∨ k = 7 ∨ k = 9 ∨ k = 10 ∨ k = 11 ∨
          k = 12 ∨ k = 13 ∨ k = 14 ∨ k = 16 ∨ k = 17 ∨ k = 18 ∨ k = 999) → False := by
      intro k h1 h2
      omega
    exact key e.Code h hk
  · intro hne
    rw [Bool.eq_false_iff]
    intro hr
    have h := hiff.mp hr
    have key : ∀ k : Int, (k = 15 ∨ k = 8 ∨ k = 19) → (k ≠ 15 ∧ k ≠ 8 ∧ k ≠ 19) → False := by
      intro k h1 h2
      omega
    exact key e.Code h hne

/-- Claim C17 (witness). A network timeout is retryable, an authentication failure and
an unknown native code are not. -/
theorem IsRetryable_iff_witness :
    (NewVoltageError 15 "").IsRetryable = true ∧
    (NewVoltageError 9 "").IsRetryable = false ∧
    (NewVoltageError 42 "").IsRetryable = false :=
  ⟨(IsRetryable_iff (NewVoltageError 15 "")).1.mpr (Or.inl rfl),
    (IsRetryable_iff (NewVoltageError 9 "")).2.2.1 (by decide),
    (IsRetryable_iff (NewVoltageError 42 "")).2.2.2 (by decide)⟩

/-- Claim C18 (counterexample). For the native code 42 and an empty detail the `Detail`
field of the error is empty: it does not carry 42, which is kept in the message. -/
theorem NewVoltageError_detail_counterexample :
    ¬ (0 ≤ (42 : Int) ∧ (42 : Int) ≤ 19) ∧
    (NewVoltageError 42 "").Detail = "" ∧
    Contains (NewVoltageError 42 "").Detail (formatInt 42) = false ∧
    (NewVoltageError 42 "").Message = "unknown error (code: 42)" := by
  refine ⟨by decide, rfl, by decide, by decide⟩

/-- Claim C18 (amended). For every native status code `n` outside 0..19 and every
detail `d`, `NewVoltageError(n, d)` has the unknown kind (`Code = ErrUnknown = 999`)
and preserves the original code `n` in its `CError` field and in its message,
`unknown error (code: n)`; its `Detail` field is `d` as given. -/
theorem NewVoltageError_unknown (n : Int) (d : String) (h : ¬ (0 ≤ n ∧ n ≤ 19)) :
    (NewVoltageError n d).Code = ErrUnknown ∧ ErrUnknown = 999 ∧
    (NewVoltageError n d).CError = n ∧
    (NewVoltageError n d).Message = "unknown error (code: " ++ formatInt n ++ ")" ∧
    Contains (NewVoltageError n d).Message (formatInt n) = true ∧
    (NewVoltageError n d).Detail = d := by
  have hm := mapCErrorCode_unknown n h
  have hmsg : (NewVoltageError n d).Message =
      "unknown error (code: " ++ formatInt n ++ ")" := by
    simp only [NewVoltageError, hm]
  refine ⟨?_, rfl, rfl, hmsg, ?_, rfl⟩
  · simp only [NewVoltageError, hm]
  · rw [hmsg]
    simp only [Contains, decide_eq_true_eq, String.data_append]
    exact ⟨"unknown error (code: ".data, ")".data, rfl⟩

/-- Claim C18 (witness). The native code 42 with the detail `backend down`. -/
theorem NewVoltageError_unknown_witness :
    ¬ (0 ≤ (42 : Int) ∧ (42 : Int) ≤ 19) ∧
    (NewVoltageError 42 "backend down").Code = 999 ∧
    (NewVoltageError 42 "backend down").Message = "unknown error (code: 42)" ∧
    (NewVoltageError 42 "backend down").Detail = "backend down" :=
  ⟨by decide,
    (NewVoltageError_unknown 42 "backend down" (by decide)).1,
    (NewVoltageError_unknown 42 "backend down" (by decide)).2.2.2.1,
    (NewVoltageError_unknown 42 "backend down" (by decide)).2.2.2.2.2⟩

/-- Claim C19 (confirmed). `NewVoltageError(n, d)` keeps `CError = n` and `Detail = d`;
its `Code` is `n` when `n` is one of 0..19, so distinct known native codes give
distinct kinds, and 999 otherwise, with the message `unknown error (code: n)`, `n` in
decimal. -/
theorem NewVoltageError_fields (n : Int) (d : String) :
    (NewVoltageError n d).CError = n ∧ (NewVoltageError n d).Detail = d ∧
    (0 ≤ n ∧ n ≤ 19 → (NewVoltageError n d).Code = n) ∧
    (¬ (0 ≤ n ∧ n ≤ 19) →
      (NewVoltageError n d).Code = 999 ∧
      (NewVoltageError n d).Message = "unknown error (code: " ++ formatInt n ++ ")") ∧
    (∀ m : Int, 0 ≤ n ∧ n ≤ 19 → 0 ≤ m ∧ m ≤ 19 →
      (NewVoltageError n d).Code = (NewVoltageError m d).Code → n = m) := by
  have hk : ∀ k : Int, 0 ≤ k ∧ k ≤ 19 → (NewVoltageError k d).Code = k := by
    intro k hk
    have := mapCErrorCode_known k hk.1 hk.2
    simpa [NewVoltageError] using this
  refine ⟨rfl, rfl, hk n, ?_, ?_⟩
  · intro h
    have hm := mapCErrorCode_unknown n h
    constructor
    · simp only [NewVoltageError, hm]; rfl
    · simp only [NewVoltageError, hm]
  · intro m hn hm hcode
    rw [hk n hn, hk m hm] at hcode
    exact hcode

/-- Claim C19 (witness). The native codes 8 and -3. -/
theorem NewVoltageError_fields_witness :
    (NewVoltageError 8 "x").Code = 8 ∧ (NewVoltageError (-3) "x").Code = 999 ∧
    (NewVoltageError (-3) "x").Message = "unknown error (code: -3)" :=
  ⟨(NewVoltageError_fields 8 "x").2.2.1 (by decide),
    ((NewVoltageError_fields (-3) "x").2.2.2.1 (by decide)).1,
    ((NewVoltageError_fields (-3) "x").2.2.2.1 (by decide)).2⟩

/-- Claim C20 (confirmed). `Category` maps each of the sixteen classified kinds to the
category of the table, and every other code, among them success, memory allocation,
invalid data, buffer too small and unknown, to the category Unknown; the nine
categories are distinct. Every retryable error has the category Connection or
Network. -/
theorem Category_classification (e : VoltageError) :
    (∀ kc ∈ categoryTable, e.Code = kc.1 → e.Category = kc.2) ∧
    ((∀ kc ∈ categoryTable, e.Code ≠ kc.1) → e.Category = CategoryUnknown) ∧
    (e.Code = ErrSuccess ∨ e.Code = ErrMemoryAllocation ∨ e.Code = ErrInvalidData ∨
      e.Code = ErrBufferTooSmall ∨ e.Code = ErrUnknown → e.Category = CategoryUnknown) ∧
    (e.IsRetryable = true →
      e.Category = CategoryConnection ∨ e.Category = CategoryNetwork) ∧
    [CategoryConfiguration, CategoryInitialization, CategoryConnection,
      CategoryAuthentication, CategoryEncryption, CategoryDecryption, CategoryNetwork,
      CategoryCertificate, CategoryUnknown].Nodup := by
  refine ⟨?_, ?_, ?_, ?_, by decide⟩
  · intro kc hkc hcode
    simp only [categoryTable, List.mem_cons, List.mem_singleton, List.not_mem_nil,
      or_false] at hkc
    rcases hkc with rfl | rfl | rfl | rfl | rfl | rfl | rfl | rfl | rfl | rfl | rfl | rfl |
      rfl | rfl | rfl | rfl <;>
    (simp only [VoltageError.Category, hcode]; decide)
  · intro hall
    have h := fun kc hkc => hall kc hkc
    simp only [categoryTable, List.mem_cons, List.mem_singleton, List.not_mem_nil, or_false,
      forall_eq_or_imp, forall_eq] at h
    obtain ⟨h1, h2, h3, h4, h5, h6, h7, h8, h9, h10, h11, h12, h13, h14, h15, h16⟩ := h
    simp only [VoltageError.Category, h1, h2, h3, h4, h5, h6, h7, h8, h9, h10, h11, h12, h13,
      h14, h15, h16, or_self, if_false]
  · intro h
    rcases h with h | h | h | h | h <;> (simp only [VoltageError.Category, h]; decide)
  · intro hr
    have h : e.Code = 15 ∨ e.Code = 8 ∨ e.Code = 19 := by
      simpa [VoltageError.IsRetryable, ErrNetworkTimeout, ErrConnectionFailed,
        ErrServiceUnavailable] using hr
    rcases h with h | h | h <;> (simp only [VoltageError.Category, h]; decide)

/-- Claim C20 (witness). A permission-denied error is an authentication error, and a
retryable service-unavailable error is a connection error. -/
theorem Category_classification_witness :
    (NewVoltageError 18 "").Category = CategoryAuthentication ∧
    ((NewVoltageError 19 "").Category = CategoryConnection ∨
      (NewVoltageError 19 "").Category = CategoryNetwork) :=
  ⟨(Category_classification (NewVoltageError 18 "")).1
      (ErrPermissionDenied, CategoryAuthentication) (by decide) rfl,
    (Category_classification (NewVoltageError 19 "")).2.2.2.1 (by decide)⟩

/-- Claim C21. `NewClient` without options never touches the backend: the world is returned
as it was. It returns an error and no client when the configuration is nil (message
"config cannot be nil") or fails validation (the validation error, wrapped), and in every
other case it returns the client bound to the configuration with `initialized = false`,
`healthy = false`, the zero last-health-check time and the empty session identifier, which
is in the state `Fresh`. -/
theorem NewClient_no_options {β : Type} (cfg : Option Config) (w : World β) :
    (NewClient cfg [] w).2 = w ∧
    (cfg = none → (NewClient cfg [] w).1 = .error (.text "config cannot be nil")) ∧
    (∀ config e, cfg = some config → Validate config = some e →
      (NewClient cfg [] w).1 = .error (Errorf_w "invalid configuration: " (.config e)) ∧
      (Errorf_w "invalid configuration: " (.config e)).Unwrap = some (.config e)) ∧
    (∀ config, cfg = some config → Validate config = none →
      (NewClient cfg [] w).1 =
        .ok { config := some config, initialized := false, lastHealthCheck := 0,
              healthy := false, sessionID := "" } ∧
      Fresh { config := some config, initialized := false, lastHealthCheck := 0,
              healthy := false, sessionID := "" }) := by
  refine ⟨?_, ?_, ?_, ?_⟩
  · cases cfg with
    | none => rfl
    | some config =>
      cases h : Validate config <;> simp [NewClient, h, NewClient_options]
  · intro h
    subst h
    rfl
  · intro config e h hv
    subst h
    simp [NewClient, hv, Errorf_w, GoError.Unwrap]
  · intro config h hv
    subst h
    exact ⟨by simp [NewClient, hv, NewClient_options], rfl, rfl⟩

/-- The configuration of the tests gives a fresh client and leaves the mock backend alone. -/
theorem NewClient_no_options_witness :
    (NewClient (some testConfig) [] mockFresh).1 = .ok freshClient ∧ Fresh freshClient :=
  (NewClient_no_options (some testConfig) mockFresh).2.2.2 testConfig rfl (by decide)

/-- Claim C22. Options are applied in list order, all or nothing. For a configuration that
passes validation: when no option fails at its turn, `NewClient` returns the client that
applying all options in order to the fresh client gives; when option `i` is the first to
fail, `NewClient` returns its error, wrapped, and no client, the state around the client is
the one option `i` left, and the call equals the call with the options after `i` removed or
replaced by any others. -/
theorem NewClient_options_ordered {σ : Type} (config : Config)
    (opts : List (ClientOption σ)) (s : σ) (hv : Validate config = none) :
    ((∀ i, i < opts.length →
        optionError opts
          ({ config := some config, initialized := false, lastHealthCheck := 0,
             healthy := false, sessionID := "" }, s) i = none) →
      NewClient (some config) opts s =
        (.ok (applyInOrder opts
          ({ config := some config, initialized := false, lastHealthCheck := 0,
             healthy := false, sessionID := "" }, s)).1,
         (applyInOrder opts
          ({ config := some config, initialized := false, lastHealthCheck := 0,
             healthy := false, sessionID := "" }, s)).2)) ∧
    (∀ i err,
      (∀ j, j < i →
        optionError opts
          ({ config := some config, initialized := false, lastHealthCheck := 0,
             healthy := false, sessionID := "" }, s) j = none) →
      optionError opts
          ({ config := some config, initialized := false, lastHealthCheck := 0,
             healthy := false, sessionID := "" }, s) i = some err →
      NewClient (some config) opts s =
        (.error (Errorf_w "failed to apply client option: " err),
         (applyInOrder (opts.take (i + 1))
          ({ config := some config, initialized := false, lastHealthCheck := 0,
             healthy := false, sessionID := "" }, s)).2) ∧
      ∀ later : List (ClientOption σ),
        NewClient (some config) (opts.take (i + 1) ++ later) s =
          NewClient (some config) opts s) := by
  constructor
  · intro h
    simp only [NewClient, hv, NewClient_options_ok opts _ s h]
  · intro i err hj hi
    have key : ∀ opts1 : List (ClientOption σ),
        (∀ j, j < i → optionError opts1
          ({ config := some config, initialized := false, lastHealthCheck := 0,
             healthy := false, sessionID := "" }, s) j = none) →
        optionError opts1
          ({ config := some config, initialized := false, lastHealthCheck := 0,
             healthy := false, sessionID := "" }, s) i = some err →
        NewClient (some config) opts1 s =
          (.error (Errorf_w "failed to apply client option: " err),
           (applyInOrder (opts1.take (i + 1))
            ({ config := some config, initialized := false, lastHealthCheck := 0,
               healthy := false, sessionID := "" }, s)).2) := by
      intro opts1 h1 h2
      simp only [NewClient, hv, NewClient_options_err opts1 _ s i err h1 h2]
    refine ⟨key opts hj hi, ?_⟩
    intro later
    have hlen : i < opts.length := by
      by_contra hlt
      have : opts[i]? = none := List.getElem?_eq_none (Nat.le_of_not_lt hlt)
      simp [optionError, this] at hi
    have htake : (opts.take (i + 1) ++ later).take (i + 1) = opts.take (i + 1) := by
      rw [List.take_append_of_le_length (by simp; omega), List.take_take, Nat.min_self]
    have hpre : ∀ j, j < i + 1 →
        optionError (opts.take (i + 1) ++ later)
          ({ config := some config, initialized := false, lastHealthCheck := 0,
             healthy := false, sessionID := "" }, s) j =
        optionError opts
          ({ config := some config, initialized := false, lastHealthCheck := 0,
             healthy := false, sessionID := "" }, s) j := by
      intro j hj1
      rw [← optionError_take (opts.take (i + 1) ++ later) _ (i + 1) j hj1, htake,
        optionError_take opts _ (i + 1) j hj1]
    rw [key opts hj hi, key (opts.take (i + 1) ++ later)
      (fun j hj1 => by rw [hpre j (by omega)]; exact hj j hj1)
      (by rw [hpre i (by omega)]; exact hi), htake]

/-- The second of three options fails: the first has been applied, the third has not. -/
theorem NewClient_options_ordered_witness :
    NewClient (some testConfig)
        [sessionOption "first", failingOption "second", sessionOption "third"] [] =
      (.error (Errorf_w "failed to apply client option: " (.text "bad option")),
       (applyInOrder
          ([sessionOption "first", failingOption "second", sessionOption "third"].take 2)
          ({ config := some testConfig, initialized := false, lastHealthCheck := 0,
             healthy := false, sessionID := "" }, [])).2) :=
  ((NewClient_options_ordered testConfig
      [sessionOption "first", failingOption "second", sessionOption "third"] []
      (by decide)).2 1 (.text "bad option")
    (fun j hj => by
      have h0 : j = 0 := by omega
      subst h0
      rfl)
    rfl).1

/-- Claim C23. From a client that is not initialized and is bound to a configuration with a
non-empty `ConfigFilePath` or `XMLConfigPath`, with the mock backend not initialized,
`Initialize` returns `nil` and leaves the client with `initialized = true`,
`healthy = true` and the last-health-check time equal to the clock reading; the other
fields keep their values, the mock is initialized with the configured path, and the backend
was asked to initialise and then to check its health. -/
theorem Initialize_fresh_mock (c : Client) (config : Config) (m : MockState)
    (calls : List BackendCall) (now : Time)
    (hc : c.initialized = false) (hcfg : c.config = some config)
    (hp : config.ConfigFilePath ≠ "" ∨ config.XMLConfigPath ≠ "")
    (hm : m.mockInitialized = false) :
    Client.Initialize mockBackend now c { backend := m, calls := calls } =
      some (none,
        { config := c.config, initialized := true, lastHealthCheck := now, healthy := true,
          sessionID := c.sessionID },
        { backend := { mockInitialized := true, mockConfigPath := mockPath config },
          calls := calls ++ [.init, .healthCheck] }) ∧
    Ready { config := c.config, initialized := true, lastHealthCheck := now, healthy := true,
            sessionID := c.sessionID } := by
  refine ⟨?_, rfl, rfl⟩
  have h1 := callInitialize_eq mockBackend c { backend := m, calls := calls } none _
    (mock_init_ok c config m hcfg hp hm)
  have h2 : callHealthCheck mockBackend c
      { backend := { mockInitialized := true, mockConfigPath := mockPath config },
        calls := calls ++ [.init] } =
      some (none,
        { backend := { mockInitialized := true, mockConfigPath := mockPath config },
          calls := calls ++ [.init, .healthCheck] }) := by
    simp [callHealthCheck, mockBackend, Client.performHealthCheckC]
  unfold Client.Initialize
  rw [if_neg (by simp [hc]), h1]
  dsimp only
  rw [performHealthCheck_config _ _ _ config hcfg, h2]

/-- The test `TestClientInitialize`: the fresh client becomes ready at the clock reading 5. -/
theorem Initialize_fresh_mock_witness :
    Client.Initialize mockBackend 5 freshClient mockFresh =
      some (none, readyClient,
        { backend := { mockInitialized := true, mockConfigPath := "test.cfg" },
          calls := [.init, .healthCheck] }) ∧
    Ready readyClient :=
  Initialize_fresh_mock freshClient testConfig { mockInitialized := false, mockConfigPath := "" }
    [] 5 rfl rfl (Or.inl (by decide)) rfl

/-- Claim C24. `Initialize` on a client that is already initialized fails with the error
"client already initialized", whatever the backend: no backend operation is invoked, and
the client and the backend are returned as they were, so a ready client stays ready. -/
theorem Initialize_already_initialized {β : Type} (b : Backend β) (now : Time) (c : Client)
    (w : World β) (h : c.initialized = true) :
    Client.Initialize b now c w = some (some (.text "client already initialized"), c, w) ∧
    (GoError.text "client already initialized").Error = "client already initialized" ∧
    (Ready c → ∀ r, Client.Initialize b now c w = some r → Ready r.2.1) := by
  have h1 : Client.Initialize b now c w =
      some (some (.text "client already initialized"), c, w) := by
    simp [Client.Initialize, h]
  refine ⟨h1, rfl, ?_⟩
  intro hr r hr1
  rw [h1] at hr1
  cases hr1
  exact hr

/-- The second `Initialize` of the test `TestClientInitialize`. -/
theorem Initialize_already_initialized_witness :
    Client.Initialize mockBackend 9 readyClient mockReady =
      some (some (.text "client already initialized"), readyClient, mockReady) :=
  (Initialize_already_initialized mockBackend 9 readyClient mockReady rfl).1

/-- Claim C25 (counterexample). The backend initialises at the first call and not at
the second. After `Initialize` and `Reinitialize` the client is not initialized and still
healthy; `Initialize` on it fails and returns it as it was, so it is healthy, not fresh. -/
theorem Initialize_failed_healthy_counterexample :
    runCalls onceBackend [(.init, 5), (.reinit, 7)] freshClient
        { backend := 0, calls := [] } =
      some ({ config := some testConfig, initialized := false, lastHealthCheck := 5,
              healthy := true, sessionID := "" },
        { backend := 2, calls := [.init, .healthCheck, .terminate, .init] }) ∧
    Client.Initialize onceBackend 9
        { config := some testConfig, initialized := false, lastHealthCheck := 5,
          healthy := true, sessionID := "" }
        { backend := 2, calls := [.init, .healthCheck, .terminate, .init] } =
      some (some (Errorf_w "failed to initialize Voltage library: " connectionError),
        { config := some testConfig, initialized := false, lastHealthCheck := 5,
          healthy := true, sessionID := "" },
        { backend := 3, calls := [.init, .healthCheck, .terminate, .init, .init] }) ∧
    ¬ Fresh { config := some testConfig, initialized := false, lastHealthCheck := 5,
              healthy := true, sessionID := "" } := by
  refine ⟨rfl, rfl, by decide⟩

/-- Claim C25 (amended). A failed `Initialize` changes no field of the client. Whatever the backend,
when `Initialize` on a client that is not initialized returns an error, the client is
returned as it was: it is still not initialized and `healthy` keeps its value, so a fresh
client stays fresh. The error is either the error of the backend initialisation,
or, after a successful backend initialisation, the error of the health check, each wrapped. -/
theorem Initialize_failed_unchanged {β : Type} (b : Backend β) (now : Time) (c c1 : Client)
    (w w1 : World β) (err : GoError) (hc : c.initialized = false)
    (h : Client.Initialize b now c w = some (some err, c1, w1)) :
    c1 = c ∧ c1.initialized = false ∧ (Fresh c → Fresh c1) ∧
    ((∃ e, callInitialize b c w = some (some e, w1) ∧
        err = Errorf_w "failed to initialize Voltage library: " e) ∨
     (∃ e w0, callInitialize b c w = some (none, w0) ∧
        Client.performHealthCheck b c w0 = some (some e, w1) ∧
        err = Errorf_w "health check failed after initialization: " e)) := by
  unfold Client.Initialize at h
  rw [if_neg (by simp [hc])] at h
  rcases hi : callInitialize b c w with _ | ⟨_ | e, w0⟩
  · rw [hi] at h
    cases h
  · rw [hi] at h
    dsimp only at h
    rcases hh : Client.performHealthCheck b c w0 with _ | ⟨_ | e, w2⟩
    · rw [hh] at h
      cases h
    · rw [hh] at h
      cases h
    · rw [hh] at h
      cases h
      exact ⟨rfl, hc, id, Or.inr ⟨e, w0, rfl, hh, rfl⟩⟩
  · rw [hi] at h
    cases h
    exact ⟨rfl, hc, id, Or.inl ⟨e, rfl, rfl⟩⟩

/-- The service cannot be reached when the backend is initialised: `Initialize` fails and
the fresh client stays fresh. -/
theorem Initialize_failed_unchanged_witness :
    Client.Initialize (constBackend (some connectionError) none none) 5 freshClient
        unitWorld =
      some (some (Errorf_w "failed to initialize Voltage library: " connectionError),
        freshClient, { backend := (), calls := [.init] }) ∧
    Fresh freshClient :=
  ⟨rfl,
    (Initialize_failed_unchanged (constBackend (some connectionError) none none) 5
      freshClient freshClient unitWorld { backend := (), calls := [.init] }
      (Errorf_w "failed to initialize Voltage library: " connectionError) rfl rfl).2.2.1
      (by decide)⟩

/-- Claim C26. `HealthCheck` on a client that is not initialized fails with the error
"client not initialized", whatever the backend: no backend operation is invoked, and the
client and the backend are returned as they were. -/
theorem HealthCheck_not_initialized {β : Type} (b : Backend β) (now : Time) (c : Client)
    (w : World β) (h : c.initialized = false) :
    Client.HealthCheck b now c w = some (some (.text "client not initialized"), c, w) ∧
    (GoError.text "client not initialized").Error = "client not initialized" := by
  refine ⟨?_, rfl⟩
  simp [Client.HealthCheck, h]

/-- The first `HealthCheck` of the test `TestClientHealthCheck`. -/
theorem HealthCheck_not_initialized_witness :
    Client.HealthCheck mockBackend 3 freshClient mockFresh =
      some (some (.text "client not initialized"), freshClient, mockFresh) :=
  (HealthCheck_not_initialized mockBackend 3 freshClient mockFresh rfl).1

/-- Claim C27. `HealthCheck` on an initialized client bound to a configuration, whatever the
backend. When the backend health check returns `nil`, the call returns `nil`, `healthy`
becomes true and the last-health-check time becomes the clock reading. When it returns an
error, the call returns that very error, `healthy` becomes false and the last-health-check
time keeps its value. In both cases the backend was asked once, and whenever the call
returns, `initialized` is still true and the configuration and the session identifier are
unchanged. -/
theorem HealthCheck_initialized {β : Type} (b : Backend β) (now : Time) (c : Client)
    (w : World β) (h : c.initialized = true) :
    (∀ config s, c.config = some config →
      b.performHealthCheckC c w.backend = some (none, s) →
      Client.HealthCheck b now c w =
        some (none,
          { config := c.config, initialized := true, lastHealthCheck := now,
            healthy := true, sessionID := c.sessionID },
          { backend := s, calls := w.calls ++ [.healthCheck] })) ∧
    (∀ config e s, c.config = some config →
      b.performHealthCheckC c w.backend = some (some e, s) →
      Client.HealthCheck b now c w =
        some (some e,
          { config := c.config, initialized := true, lastHealthCheck := c.lastHealthCheck,
            healthy := false, sessionID := c.sessionID },
          { backend := s, calls := w.calls ++ [.healthCheck] })) ∧
    (∀ r, Client.HealthCheck b now c w = some r →
      r.2.1.initialized = true ∧ r.2.1.sessionID = c.sessionID ∧
      r.2.1.config = c.config) := by
  refine ⟨?_, ?_, ?_⟩
  · intro config s hcfg hb
    unfold Client.HealthCheck
    rw [if_neg (by simp [h]), performHealthCheck_config _ _ _ config hcfg,
      callHealthCheck_eq b c w none s hb]
    simp [← h]
  · intro config e s hcfg hb
    unfold Client.HealthCheck
    rw [if_neg (by simp [h]), performHealthCheck_config _ _ _ config hcfg,
      callHealthCheck_eq b c w (some e) s hb]
    simp [← h]
  · intro r hr
    unfold Client.HealthCheck at hr
    rw [if_neg (by simp [h])] at hr
    rcases hh : Client.performHealthCheck b c w with _ | ⟨_ | e, w1⟩
    · rw [hh] at hr
      cases hr
    · rw [hh] at hr
      cases hr
      exact ⟨h, rfl, rfl⟩
    · rw [hh] at hr
      cases hr
      exact ⟨h, rfl, rfl⟩

/-- The service can no longer be reached: the ready client becomes unhealthy, stays
initialized and keeps its last-health-check time, and the error is the backend error. -/
theorem HealthCheck_initialized_witness :
    Client.HealthCheck (constBackend none none (some connectionError)) 9 readyClient
        unitWorld =
      some (some connectionError,
        { config := readyClient.config, initialized := true,
          lastHealthCheck := readyClient.lastHealthCheck, healthy := false,
          sessionID := readyClient.sessionID },
        { backend := (), calls := unitWorld.calls ++ [.healthCheck] }) :=
  (HealthCheck_initialized (constBackend none none (some connectionError)) 9 readyClient
    unitWorld rfl).2.1 testConfig connectionError () rfl rfl

/-- Claim C28. `Close` is idempotent. On a client that is not initialized it returns `nil`,
invokes no backend operation and changes nothing. On an initialized client whose backend
termination returns `nil` it returns `nil` and sets `initialized` and `healthy` to false,
the other fields keeping their values. So after a `Close` that returned `nil` the client is not initialized, and a
second `Close` returns `nil` and changes neither the client nor the backend; with the mock backend
every `Close` returns `nil`, whatever the state of the client and of the mock. -/
theorem Close_idempotent {β : Type} (b : Backend β) (c : Client) (w : World β) :
    (c.initialized = false → Client.Close b c w = some (none, c, w)) ∧
    (∀ s, c.initialized = true → b.terminateVoltageLibrary c w.backend = some (none, s) →
      Client.Close b c w =
        some (none,
          { config := c.config, initialized := false,
            lastHealthCheck := c.lastHealthCheck, healthy := false,
            sessionID := c.sessionID },
          { backend := s, calls := w.calls ++ [.terminate] })) ∧
    (∀ c1 w1, Client.Close b c w = some (none, c1, w1) →
      c1.initialized = false ∧ Client.Close b c1 w1 = some (none, c1, w1)) ∧
    (∀ (m : World MockState), ∃ c1 m1,
      Client.Close mockBackend c m = some (none, c1, m1) ∧
      Client.Close mockBackend c1 m1 = some (none, c1, m1)) := by
  have hfresh : ∀ {γ : Type} (b1 : Backend γ) (c0 : Client) (w0 : World γ),
      c0.initialized = false → Client.Close b1 c0 w0 = some (none, c0, w0) := by
    intro γ b1 c0 w0 h0
    simp [Client.Close, h0]
  have hready : ∀ {γ : Type} (b1 : Backend γ) (c0 : Client) (w0 : World γ) (s : γ),
      c0.initialized = true → b1.terminateVoltageLibrary c0 w0.backend = some (none, s) →
      Client.Close b1 c0 w0 =
        some (none,
          { config := c0.config, initialized := false,
            lastHealthCheck := c0.lastHealthCheck, healthy := false,
            sessionID := c0.sessionID },
          { backend := s, calls := w0.calls ++ [.terminate] }) := by
    intro γ b1 c0 w0 s h0 ht
    unfold Client.Close
    rw [if_neg (by simp [h0]), callTerminate_eq b1 c0 w0 none s ht]
  refine ⟨hfresh b c w, fun s => hready b c w s, ?_, ?_⟩
  · intro c1 w1 h1
    unfold Client.Close at h1
    cases hc : c.initialized
    · rw [if_pos (by simp [hc])] at h1
      cases h1
      exact ⟨hc, hfresh b c w hc⟩
    · rw [if_neg (by simp [hc])] at h1
      rcases ht : callTerminate b c w with _ | ⟨_ | e, w2⟩
      · rw [ht] at h1
        cases h1
      · rw [ht] at h1
        cases h1
        exact ⟨rfl, hfresh b _ _ rfl⟩
      · rw [ht] at h1
        cases h1
  · intro m
    cases hc : c.initialized
    · exact ⟨c, m, hfresh mockBackend c m hc, hfresh mockBackend c m hc⟩
    · obtain ⟨m1, hm1, _⟩ := mock_terminate_ok c m.backend
      exact ⟨_, _, hready mockBackend c m m1 hc hm1, hfresh mockBackend _ _ rfl⟩

/-- The test `TestClientClose`: the first `Close` of the ready client ends the mock
session, the second changes nothing. -/
theorem Close_idempotent_witness :
    Client.Close mockBackend readyClient mockReady =
      some (none,
        { config := readyClient.config, initialized := false,
          lastHealthCheck := readyClient.lastHealthCheck, healthy := false,
          sessionID := readyClient.sessionID },
        { backend := { mockInitialized := false, mockConfigPath := "" },
          calls := mockReady.calls ++ [.terminate] }) :=
  (Close_idempotent mockBackend readyClient mockReady).2.1
    { mockInitialized := false, mockConfigPath := "" } rfl rfl

/-- Claim C29. A failing backend termination aborts without touching the client. For an
initialized client and a backend whose termination returns an error, `Close` and
`Reinitialize` both return an error that wraps the backend error, invoke no backend
operation other than that termination, and return the client as it was. -/
theorem terminate_failure_aborts {β : Type} (b : Backend β) (now : Time) (c : Client)
    (w : World β) (e : GoError) (s : β) (h : c.initialized = true)
    (ht : b.terminateVoltageLibrary c w.backend = some (some e, s)) :
    Client.Close b c w =
      some (some (Errorf_w "failed to terminate Voltage library: " e), c,
        { backend := s, calls := w.calls ++ [.terminate] }) ∧
    Client.Reinitialize b now c w =
      some (some (Errorf_w "failed to terminate before reinitialize: " e), c,
        { backend := s, calls := w.calls ++ [.terminate] }) ∧
    (Errorf_w "failed to terminate Voltage library: " e).Unwrap = some e ∧
    (Errorf_w "failed to terminate before reinitialize: " e).Unwrap = some e := by
  refine ⟨?_, ?_, rfl, rfl⟩
  · unfold Client.Close
    rw [if_neg (by simp [h]), callTerminate_eq b c w (some e) s ht]
  · unfold Client.Reinitialize
    rw [if_pos h, callTerminate_eq b c w (some e) s ht]

/-- The service cannot be reached when the ready client is closed or reinitialised. -/
theorem terminate_failure_aborts_witness :
    Client.Close (constBackend none (some connectionError) none) readyClient unitWorld =
      some (some (Errorf_w "failed to terminate Voltage library: " connectionError),
        readyClient, { backend := (), calls := unitWorld.calls ++ [.terminate] }) ∧
    Client.Reinitialize (constBackend none (some connectionError) none) 9 readyClient
        unitWorld =
      some (some (Errorf_w "failed to terminate before reinitialize: " connectionError),
        readyClient, { backend := (), calls := unitWorld.calls ++ [.terminate] }) :=
  ⟨(terminate_failure_aborts (constBackend none (some connectionError) none) 9 readyClient
      unitWorld connectionError () rfl rfl).1,
    (terminate_failure_aborts (constBackend none (some connectionError) none) 9 readyClient
      unitWorld connectionError () rfl rfl).2.1⟩

/-- Claim C30 (failing input). `Reinitialize` of the ready client with the mock backend,
at a clock reading later than the last health check, returns `nil` and ends ready with the
new reading, yet the backend was asked to terminate and to initialise only: no health check
was performed. `Initialize` of the fresh client asks for the health check after the
initialisation. -/
theorem Reinitialize_ready_no_health_check :
    Ready readyClient ∧
    Client.Reinitialize mockBackend 7 readyClient mockReady =
      some (none,
        { config := some testConfig, initialized := true, lastHealthCheck := 7,
          healthy := true, sessionID := "" },
        { backend := { mockInitialized := true, mockConfigPath := "test.cfg" },
          calls := [.terminate, .init] }) ∧
    BackendCall.healthCheck ∉ [BackendCall.terminate, BackendCall.init] ∧
    readyClient.lastHealthCheck < 7 ∧
    Client.Initialize mockBackend 5 freshClient mockFresh =
      some (none, readyClient,
        { backend := { mockInitialized := true, mockConfigPath := "test.cfg" },
          calls := [.init, .healthCheck] }) := by
  refine ⟨by decide, rfl, by decide, by decide, rfl⟩

/-- Claim C31 (failing input). The backend initialises and its health check fails. On the
fresh client `Initialize` asks for the health check, returns its error, wrapped, and
leaves the client fresh; `Reinitialize` does not ask for the health check, returns `nil`
and leaves the client ready. -/
theorem Reinitialize_skips_health_check :
    Client.Initialize (constBackend none none (some connectionError)) 5 freshClient
        unitWorld =
      some (some (Errorf_w "health check failed after initialization: " connectionError),
        freshClient, { backend := (), calls := [.init, .healthCheck] }) ∧
    Client.Reinitialize (constBackend none none (some connectionError)) 5 freshClient
        unitWorld =
      some (none,
        { config := some testConfig, initialized := true, lastHealthCheck := 5,
          healthy := true, sessionID := "" },
        { backend := (), calls := [.init] }) ∧
    Fresh freshClient ∧
    Ready { config := some testConfig, initialized := true, lastHealthCheck := 5,
            healthy := true, sessionID := "" } := by
  refine ⟨rfl, rfl, by decide, by decide⟩

/-- Claim C32 (failing input). The backend initialises at the first call and not at the
second. After `Initialize` and `Reinitialize` on the fresh client the second call has
returned an error and the client is healthy without being initialized: it is in none of
the states `Fresh`, `Ready` and `Unhealthy`. -/
theorem Reinitialize_breaks_consistency :
    Client.Reinitialize onceBackend 7 readyClient
        { backend := 1, calls := [.init, .healthCheck] } =
      some (some (Errorf_w "failed to reinitialize Voltage library: " connectionError),
        { config := some testConfig, initialized := false, lastHealthCheck := 5,
          healthy := true, sessionID := "" },
        { backend := 2, calls := [.init, .healthCheck, .terminate, .init] }) ∧
    runCalls onceBackend [(.init, 5), (.reinit, 7)] freshClient
        { backend := 0, calls := [] } =
      some ({ config := some testConfig, initialized := false, lastHealthCheck := 5,
              healthy := true, sessionID := "" },
        { backend := 2, calls := [.init, .healthCheck, .terminate, .init] }) ∧
    ¬ Fresh { config := some testConfig, initialized := false, lastHealthCheck := 5,
              healthy := true, sessionID := "" } ∧
    ¬ Ready { config := some testConfig, initialized := false, lastHealthCheck := 5,
              healthy := true, sessionID := "" } ∧
    ¬ Unhealthy { config := some testConfig, initialized := false, lastHealthCheck := 5,
                  healthy := true, sessionID := "" } := by
  refine ⟨rfl, rfl, by decide, by decide, by decide⟩

/-- Claim C33. With the mock backend not initialized and a client that is not initialized,
the backend is initialised with the `ConfigFilePath` of the configuration when that is not
empty, and otherwise with its `XMLConfigPath` when that is not empty. When both are empty
`Initialize` fails: its error wraps the error "no configuration file path specified", and
the mock state and the client are returned as they were, so a fresh client stays fresh. -/
theorem mock_path_selection (c : Client) (config : Config) (m : World MockState)
    (now : Time) (hc : c.initialized = false) (hcfg : c.config = some config)
    (hm : m.backend.mockInitialized = false) :
    (config.ConfigFilePath ≠ "" →
      Client.Initialize mockBackend now c m =
        some (none,
          { config := c.config, initialized := true, lastHealthCheck := now,
            healthy := true, sessionID := c.sessionID },
          { backend := { mockInitialized := true, mockConfigPath := config.ConfigFilePath },
            calls := m.calls ++ [.init, .healthCheck] })) ∧
    (config.ConfigFilePath = "" → config.XMLConfigPath ≠ "" →
      Client.Initialize mockBackend now c m =
        some (none,
          { config := c.config, initialized := true, lastHealthCheck := now,
            healthy := true, sessionID := c.sessionID },
          { backend := { mockInitialized := true, mockConfigPath := config.XMLConfigPath },
            calls := m.calls ++ [.init, .healthCheck] })) ∧
    (config.ConfigFilePath = "" → config.XMLConfigPath = "" →
      Client.Initialize mockBackend now c m =
        some (some (Errorf_w "failed to initialize Voltage library: "
            (.text "no configuration file path specified")), c,
          { backend := m.backend, calls := m.calls ++ [.init] }) ∧
      (Errorf_w "failed to initialize Voltage library: "
          (.text "no configuration file path specified")).Unwrap =
        some (.text "no configuration file path specified") ∧
      (Errorf_w "failed to initialize Voltage library: "
          (.text "no configuration file path specified")).Error =
        "failed to initialize Voltage library: no configuration file path specified") := by
  have hok : ∀ p, hasPath config → mockPath config = p →
      Client.Initialize mockBackend now c m =
        some (none,
          { config := c.config, initialized := true, lastHealthCheck := now,
            healthy := true, sessionID := c.sessionID },
          { backend := { mockInitialized := true, mockConfigPath := p },
            calls := m.calls ++ [.init, .healthCheck] }) := by
    intro p hp hpath
    subst hpath
    have h1 := callInitialize_eq mockBackend c m none _
      (mock_init_ok c config m.backend hcfg hp hm)
    have h2 : callHealthCheck mockBackend c
        { backend := { mockInitialized := true, mockConfigPath := mockPath config },
          calls := m.calls ++ [.init] } =
        some (none,
          { backend := { mockInitialized := true, mockConfigPath := mockPath config },
            calls := m.calls ++ [.init, .healthCheck] }) := by
      simp [callHealthCheck, mockBackend, Client.performHealthCheckC]
    unfold Client.Initialize
    rw [if_neg (by simp [hc]), h1]
    dsimp only
    rw [performHealthCheck_config _ _ _ config hcfg, h2]
  refine ⟨?_, ?_, ?_⟩
  · intro h1
    exact hok _ (Or.inl h1) (by simp [mockPath, h1])
  · intro h1 h2
    exact hok _ (Or.inr h2) (by simp [mockPath, h1])
  · intro h1 h2
    refine ⟨?_, rfl, rfl⟩
    have hi : callInitialize mockBackend c m =
        some (some (.text "no configuration file path specified"),
          { backend := m.backend, calls := m.calls ++ [.init] }) := by
      simp [callInitialize, mockBackend, Client.initializeVoltageLibrary, hm, hcfg, h1, h2]
    unfold Client.Initialize
    rw [if_neg (by simp [hc]), hi]

/-- A configuration that names no file: `Initialize` fails and changes nothing. -/
theorem mock_path_selection_witness :
    Client.Initialize mockBackend 5
        { config := some { testConfig with ConfigFilePath := "" }, initialized := false,
          lastHealthCheck := 0, healthy := false, sessionID := "" } mockFresh =
      some (some (Errorf_w "failed to initialize Voltage library: "
          (.text "no configuration file path specified")),
        { config := some { testConfig with ConfigFilePath := "" }, initialized := false,
          lastHealthCheck := 0, healthy := false, sessionID := "" },
        { backend := mockFresh.backend, calls := mockFresh.calls ++ [.init] }) :=
  ((mock_path_selection
    { config := some { testConfig with ConfigFilePath := "" }, initialized := false,
      lastHealthCheck := 0, healthy := false, sessionID := "" }
    { testConfig with ConfigFilePath := "" } mockFresh 5 rfl rfl rfl).2.2 rfl rfl).1

/-- Claim C34. For a client bound to a configuration, `Info` returns the application name,
version and environment of that configuration and, for the four state fields, what
`IsInitialized`, `IsHealthy`, `LastHealthCheck` and `GetSessionID` return in the same
state. No accessor, `Config` and `Info` included, changes the client. -/
theorem Info_snapshot (c : Client) :
    (∀ config, c.config = some config →
      Client.Info c =
        some ({ AppName := config.AppName, AppVersion := config.AppVersion,
                Environment := config.AppEnv,
                Initialized := (Client.IsInitialized c).1,
                Healthy := (Client.IsHealthy c).1,
                LastHealthCheck := (Client.LastHealthCheck c).1,
                SessionID := (Client.GetSessionID c).1 }, c) ∧
      (Client.Config c).1 = some config) ∧
    (Client.IsInitialized c).2 = c ∧ (Client.IsHealthy c).2 = c ∧
    (Client.LastHealthCheck c).2 = c ∧ (Client.GetSessionID c).2 = c ∧
    (Client.Config c).2 = c ∧ (∀ r, Client.Info c = some r → r.2 = c) := by
  refine ⟨?_, rfl, rfl, rfl, rfl, rfl, ?_⟩
  · intro config h
    constructor
    · simp [Client.Info, h, Client.IsInitialized, Client.IsHealthy, Client.LastHealthCheck,
        Client.GetSessionID]
    · simp [Client.Config, h]
  · intro r hr
    unfold Client.Info at hr
    cases hc : c.config with
    | none =>
      rw [hc] at hr
      cases hr
    | some config =>
      rw [hc] at hr
      cases hr
      rfl

/-- The test `TestClientInfo` after `Initialize`. -/
theorem Info_snapshot_witness :
    Client.Info readyClient =
      some ({ AppName := testConfig.AppName, AppVersion := testConfig.AppVersion,
              Environment := testConfig.AppEnv,
              Initialized := (Client.IsInitialized readyClient).1,
              Healthy := (Client.IsHealthy readyClient).1,
              LastHealthCheck := (Client.LastHealthCheck readyClient).1,
              SessionID := (Client.GetSessionID readyClient).1 }, readyClient) ∧
    (Client.Config readyClient).1 = some testConfig :=
  (Info_snapshot readyClient).1 testConfig rfl

/-- Claim C36 (counterexample). The file line `fp_disableCRLChecking= true`, whose value
text starts with a blank, sets the flag, although that text lower-cased is not `true`. -/
theorem crl_flag_trimmed_counterexample :
    (loadFromFile_line asciiTables NewConfig
      ("fp_disableCRLChecking=" ++ " true")).DisableCRLChecking = true ∧
    ToLower asciiTables " true" ≠ "true" := by
  constructor
  · decide
  · decide

/-- Claim C36 (amended). For every value text `v`, the file line `fp_disableCRLChecking=v`
sets the flag to true if and only if `v`, trimmed of surrounding white space and then
lower-cased, equals `true`; for a text without surrounding white space that is `v`
lower-cased. A non-empty `FP_DISABLECRLCHECKING=v` sets the flag to true if and only if `v`
as it stands, lower-cased, equals `true`. So `true`, `TRUE`, `True` and `tRuE` give true,
and `1`, `yes` and `false` give false, in the file and in the environment. -/
theorem crl_flag_semantics (u : CaseTables) (c : Config) (os : OS) (v : String) :
    ((loadFromFile_line u c ("fp_disableCRLChecking=" ++ v)).DisableCRLChecking = true ↔
      ToLower u (TrimSpace v) = "true") ∧
    (TrimSpace v = v →
      ((loadFromFile_line u c ("fp_disableCRLChecking=" ++ v)).DisableCRLChecking = true ↔
        ToLower u v = "true")) ∧
    (os.Getenv "FP_DISABLECRLCHECKING" = v → v ≠ "" →
      ((loadFromEnv u os c).DisableCRLChecking = true ↔ ToLower u v = "true")) ∧
    (v = "true" ∨ v = "TRUE" ∨ v = "True" ∨ v = "tRuE" →
      (loadFromFile_line u c ("fp_disableCRLChecking=" ++ v)).DisableCRLChecking = true ∧
      ToLower u v = "true") ∧
    (v = "1" ∨ v = "yes" ∨ v = "false" →
      (loadFromFile_line u c ("fp_disableCRLChecking=" ++ v)).DisableCRLChecking = false ∧
      ToLower u v ≠ "true") := by
  have h0 := line_of_key u c "fp_disableCRLChecking" v (by decide)
  rw [setConfigValue_disableCRL] at h0
  have h : loadFromFile_line u c ("fp_disableCRLChecking=" ++ v) =
      { c with DisableCRLChecking := ToLower u (TrimSpace v) == "true" } := h0
  have hfile : (loadFromFile_line u c ("fp_disableCRLChecking=" ++ v)).DisableCRLChecking =
      true ↔ ToLower u (TrimSpace v) = "true" := by
    rw [h]
    simp
  refine ⟨hfile, ?_, ?_, ?_, ?_⟩
  · intro ht
    rw [hfile, ht]
  · intro hv hne
    rw [loadFromEnv_eq]
    simp [hv, hne]
  · intro hv
    rcases hv with rfl | rfl | rfl | rfl
    · exact ⟨hfile.mpr rfl, rfl⟩
    · exact ⟨hfile.mpr rfl, rfl⟩
    · exact ⟨hfile.mpr rfl, rfl⟩
    · exact ⟨hfile.mpr rfl, rfl⟩
  · intro hv
    have hflag : ∀ w : String, (ToLower u (TrimSpace w) == "true") = false →
        (ToLower u w == "true") = false →
        (loadFromFile_line u c ("fp_disableCRLChecking=" ++ w)).DisableCRLChecking = false ∧
        ToLower u w ≠ "true" := by
      intro w hw1 hw2
      have h1 := line_of_key u c "fp_disableCRLChecking" w (by decide)
      rw [setConfigValue_disableCRL] at h1
      have h2 : loadFromFile_line u c ("fp_disableCRLChecking=" ++ w) =
          { c with DisableCRLChecking := ToLower u (TrimSpace w) == "true" } := h1
      refine ⟨by rw [h2]; exact hw1, ?_⟩
      intro e
      rw [e] at hw2
      exact absurd hw2 (by decide)
    rcases hv with rfl | rfl | rfl
    · exact hflag "1" rfl rfl
    · exact hflag "yes" rfl rfl
    · exact hflag "false" rfl rfl

/-- The values `TRUE` in the file and `yes` in the environment. -/
theorem crl_flag_semantics_witness :
    ((loadFromFile_line asciiTables NewConfig
      ("fp_disableCRLChecking=" ++ "TRUE")).DisableCRLChecking = true ∧
      ToLower asciiTables "TRUE" = "true") ∧
    ((loadFromEnv asciiTables
        (envOnly (fun k => if k = "FP_DISABLECRLCHECKING" then "yes" else ""))
        NewConfig).DisableCRLChecking = true ↔ ToLower asciiTables "yes" = "true") :=
  ⟨(crl_flag_semantics asciiTables NewConfig (envOnly (fun _ => "")) "TRUE").2.2.2.1
      (Or.inr (Or.inl rfl)),
    (crl_flag_semantics asciiTables NewConfig
      (envOnly (fun k => if k = "FP_DISABLECRLCHECKING" then "yes" else "")) "yes").2.2.1
      rfl (by decide)⟩

/-- Claim C37. Clients built by `NewClient` without options from configurations that pass
validation share the mock backend, which starts not initialized. After every finite
interleaved sequence of `Initialize`, `HealthCheck`, `Reinitialize` and `Close` calls, each
call running to its end before the next, at most one client is initialized and the mock is
initialized exactly when some client is. While a client `a` is initialized, `Initialize`
and `Reinitialize` on any other client `b` return the error `ErrClientAlreadyInitialized`
of the mock, wrapped, change neither `b` nor the mock state, and `b` is fresh. -/
theorem singleton_mock {ι : Type} [DecidableEq ι] (s0 : Fleet ι)
    (calls : List (ι × Op × Time)) (h : s0.isNew) :
    ∃ s, Fleet.calls calls s0 = some s ∧
      (∀ a b, (s.clients a).initialized = true → (s.clients b).initialized = true →
        a = b) ∧
      (s.mock.backend.mockInitialized = true ↔ ∃ a, (s.clients a).initialized = true) ∧
      (∀ a b now, (s.clients a).initialized = true → b ≠ a →
        Client.Initialize mockBackend now (s.clients b) s.mock =
          some (some (Errorf_w "failed to initialize Voltage library: "
              (.voltage ErrClientAlreadyInitialized)), s.clients b,
            { backend := s.mock.backend, calls := s.mock.calls ++ [.init] }) ∧
        Client.Reinitialize mockBackend now (s.clients b) s.mock =
          some (some (Errorf_w "failed to reinitialize Voltage library: "
              (.voltage ErrClientAlreadyInitialized)), s.clients b,
            { backend := s.mock.backend, calls := s.mock.calls ++ [.init] }) ∧
        Fresh (s.clients b)) := by
  obtain ⟨s, hrun, ⟨hcfg, hh, hmock, huniq⟩, _⟩ :=
    Fleet_calls_consistent calls s0 (Fleet_isNew_consistent s0 h)
  refine ⟨s, hrun, huniq, hmock, ?_⟩
  intro a b now ha hba
  have hm : s.mock.backend.mockInitialized = true := hmock.mpr ⟨a, ha⟩
  have hb : (s.clients b).initialized = false := by
    cases hbi : (s.clients b).initialized
    · rfl
    · exact absurd (huniq b a hbi ha) hba
  have hi : callInitialize mockBackend (s.clients b) s.mock =
      some (some (.voltage ErrClientAlreadyInitialized),
        { backend := s.mock.backend, calls := s.mock.calls ++ [.init] }) := by
    simp [callInitialize, mockBackend, Client.initializeVoltageLibrary, hm]
  refine ⟨?_, ?_, hb, (hh b).trans hb⟩
  · unfold Client.Initialize
    rw [if_neg (by simp [hb]), hi]
  · unfold Client.Reinitialize
    rw [if_neg (by simp [hb])]
    unfold Client.Reinitialize_init
    rw [hi]

/-- Two clients from the configuration of the tests: the first is initialized,
reinitialized and closed while the second tries in between. -/
theorem singleton_mock_witness :
    ∃ s, Fleet.calls
        [(true, .init, 1), (false, .init, 2), (false, .reinit, 3), (true, .reinit, 4),
         (true, .close, 5), (false, .reinit, 6)] twoClients = some s ∧
      (∀ a b, (s.clients a).initialized = true → (s.clients b).initialized = true →
        a = b) ∧
      (s.mock.backend.mockInitialized = true ↔ ∃ a, (s.clients a).initialized = true) ∧
      (∀ a b now, (s.clients a).initialized = true → b ≠ a →
        Client.Initialize mockBackend now (s.clients b) s.mock =
          some (some (Errorf_w "failed to initialize Voltage library: "
              (.voltage ErrClientAlreadyInitialized)), s.clients b,
            { backend := s.mock.backend, calls := s.mock.calls ++ [.init] }) ∧
        Client.Reinitialize mockBackend now (s.clients b) s.mock =
          some (some (Errorf_w "failed to reinitialize Voltage library: "
              (.voltage ErrClientAlreadyInitialized)), s.clients b,
            { backend := s.mock.backend, calls := s.mock.calls ++ [.init] }) ∧
        Fresh (s.clients b)) :=
  singleton_mock twoClients
    [(true, .init, 1), (false, .init, 2), (false, .reinit, 3), (true, .reinit, 4),
     (true, .close, 5), (false, .reinit, 6)]
    ⟨fun _ => ⟨testConfig, rfl⟩, rfl⟩

/-- Claim C38. With the mock backend and clients built by `NewClient` without options,
whose configurations no call changes, after every finite interleaved sequence of
`Initialize`, `HealthCheck`, `Reinitialize` and `Close` calls on one or several clients,
each call running to its end before the next: `HealthCheck` on an initialized client
returns `nil` and leaves it healthy, every client is healthy exactly when it is
initialized, and no client is in the state `Unhealthy`. -/
theorem mock_always_healthy {ι : Type} [DecidableEq ι] (s0 : Fleet ι)
    (calls : List (ι × Op × Time)) (h : s0.isNew) :
    ∃ s, Fleet.calls calls s0 = some s ∧
      (∀ i now, (s.clients i).initialized = true →
        Client.HealthCheck mockBackend now (s.clients i) s.mock =
          some (none,
            { config := (s.clients i).config, initialized := true, lastHealthCheck := now,
              healthy := true, sessionID := (s.clients i).sessionID },
            { backend := s.mock.backend, calls := s.mock.calls ++ [.healthCheck] })) ∧
      (∀ i, (s.clients i).healthy = (s.clients i).initialized) ∧
      (∀ i, ¬ Unhealthy (s.clients i)) ∧
      (∀ i, (s.clients i).config = (s0.clients i).config) := by
  obtain ⟨s, hrun, ⟨hcfg, hh, hmock, huniq⟩, hsame⟩ :=
    Fleet_calls_consistent calls s0 (Fleet_isNew_consistent s0 h)
  refine ⟨s, hrun, ?_, hh, ?_, hsame⟩
  · intro i now hi
    obtain ⟨config, hc, _⟩ := hcfg i
    have hm : s.mock.backend.mockInitialized = true := hmock.mpr ⟨i, hi⟩
    have hk : callHealthCheck mockBackend (s.clients i) s.mock =
        some (none, { backend := s.mock.backend, calls := s.mock.calls ++ [.healthCheck] }) := by
      simp [callHealthCheck, mockBackend, Client.performHealthCheckC, hm]
    unfold Client.HealthCheck
    rw [if_neg (by simp [hi]), performHealthCheck_config _ _ _ config hc, hk]
    simp [← hi]
  · intro i hu
    have h1 := hh i
    rw [hu.1, hu.2] at h1
    cases h1

/-- The calls of the test `TestClientLifecycle` on one client, while a second client
tries to take the mock. -/
theorem mock_always_healthy_witness :
    ∃ s, Fleet.calls
        [(true, .init, 1), (false, .init, 2), (true, .check, 3), (true, .close, 4),
         (false, .reinit, 5), (false, .check, 6)] twoClients = some s ∧
      (∀ i now, (s.clients i).initialized = true →
        Client.HealthCheck mockBackend now (s.clients i) s.mock =
          some (none,
            { config := (s.clients i).config, initialized := true, lastHealthCheck := now,
              healthy := true, sessionID := (s.clients i).sessionID },
            { backend := s.mock.backend, calls := s.mock.calls ++ [.healthCheck] })) ∧
      (∀ i, (s.clients i).healthy = (s.clients i).initialized) ∧
      (∀ i, ¬ Unhealthy (s.clients i)) ∧
      (∀ i, (s.clients i).config = (twoClients.clients i).config) :=
  mock_always_healthy twoClients
    [(true, .init, 1), (false, .init, 2), (true, .check, 3), (true, .close, 4),
     (false, .reinit, 5), (false, .check, 6)]
    ⟨fun _ => ⟨testConfig, rfl⟩, rfl⟩

/-- Claim C39. `Validate`, `String`, `setConfigValue` and the file parser of
`src/pkg/config/config.go` are the functions of `src/config.go`. On a host where
`FP_NETWORKTIMEOUT`, `FP_DISABLECRLCHECKING`, `FP_XMLCONFIG`, `FP_DEFAULT_CRYPTID`,
`FP_LOGLEVEL` and `FP_LOGFILE` are unset, `LoadConfig` of package `config` returns what
`LoadConfig` of `src/config.go` returns for every path and file content: the same
configuration, the same validation error, or the same file error. -/
theorem resolvers_agree (u : CaseTables) (h : config.Host) (configPath : String) :
    config.Validate = Validate ∧
    config.String = Config.String ∧
    config.setConfigValue = setConfigValue ∧
    config.loadFromFile_line = loadFromFile_line ∧
    (∀ c p, config.loadFromFile u h c p = loadFromFile u h.toOS c p) ∧
    (config.overlapEnv h →
      config.LoadConfig u h configPath =
        (LoadConfig u h.toOS configPath).mapError sameLoadError ∧
      (∀ c, config.LoadConfig u h configPath = .ok c ↔
        LoadConfig u h.toOS configPath = .ok c) ∧
      (∀ e, config.LoadConfig u h configPath = .error (.config e) ↔
        LoadConfig u h.toOS configPath = .error (.config e))) := by
  refine ⟨rfl, rfl, rfl, rfl, fun _ _ => rfl, ?_⟩
  intro hu
  have key : config.LoadConfig u h configPath =
      (LoadConfig u h.toOS configPath).mapError sameLoadError := by
    unfold config.LoadConfig LoadConfig
    dsimp only
    rcases hf : LoadConfig_file u h.toOS { NewConfig with ConfigFilePath := configPath }
      configPath with e | c0
    · cases e <;> rfl
    · dsimp only
      rw [config_loadFromEnv_overlap u h c0 hu]
      dsimp only
      cases hv : Validate (loadFromEnv u h.toOS c0) <;> rfl
  refine ⟨key, ?_, ?_⟩
  · intro c
    rw [key]
    cases LoadConfig u h.toOS configPath with
    | error e => simp [Except.mapError]
    | ok c1 => simp [Except.mapError]
  · intro e
    rw [key]
    cases LoadConfig u h.toOS configPath with
    | error e1 => cases e1 <;> simp [Except.mapError, sameLoadError]
    | ok c1 => simp [Except.mapError]

/-- The file and the environment of the tests: both resolvers return the configuration
with the network timeout of the file. -/
theorem resolvers_agree_witness :
    config.LoadConfig asciiTables (hostFile "app.cfg" sampleFile sampleEnv) "app.cfg" =
      (LoadConfig asciiTables (hostFile "app.cfg" sampleFile sampleEnv).toOS
        "app.cfg").mapError sameLoadError :=
  ((resolvers_agree asciiTables (hostFile "app.cfg" sampleFile sampleEnv) "app.cfg").2.2.2.2.2
    ⟨rfl, rfl, rfl, rfl, rfl, rfl⟩).1

/-- Claim C40. No lifecycle operation writes the session identifier. Whatever the backend,
after any sequence of `Initialize`, `HealthCheck`, `Reinitialize` and `Close` calls on a
client that `NewClient` returned without options, `GetSessionID` returns the empty text and
`Info` returns a snapshot whose `SessionID` is empty. Every single call, on any client,
keeps the session identifier, and `Close` keeps the last-health-check time. -/
theorem sessionID_never_assigned {β : Type} (b : Backend β) (config : Config)
    (calls : List (Op × Time)) (c c1 : Client) (w w1 : World β)
    (hnew : (NewClient (some config) ([] : List (ClientOption (World β))) w).1 = .ok c)
    (hrun : runCalls b calls c w = some (c1, w1)) :
    (Client.GetSessionID c1).1 = "" ∧
    (∃ info, Client.Info c1 = some (info, c1) ∧ info.SessionID = "") ∧
    (∀ op now c2 w2 r, Op.run b op now c2 w2 = some r → r.2.1.sessionID = c2.sessionID) ∧
    (∀ c2 w2 r, Client.Close b c2 w2 = some r →
      r.2.1.lastHealthCheck = c2.lastHealthCheck) := by
  have hc := NewClient_nil_ok config w c hnew
  have hf := runCalls_frame b calls c c1 w w1 hrun
  have hs : c1.sessionID = "" := by rw [hf.2, hc]
  have hcfg : c1.config = some config := by rw [hf.1, hc]
  refine ⟨hs, ⟨_, by simp [Client.Info, hcfg]; rfl, hs⟩, ?_, ?_⟩
  · intro op now c2 w2 r hr
    exact (Op_run_frame b op now c2 w2 r hr).2
  · intro c2 w2 r hr
    unfold Client.Close at hr
    split at hr
    · cases hr; rfl
    · split at hr
      · cases hr
      · cases hr; rfl
      · cases hr; rfl

/-- The calls of the test `TestClientLifecycle`, with a backend that fails to initialise a
second time. -/
theorem sessionID_never_assigned_witness :
    (Client.GetSessionID
      { config := some testConfig, initialized := false, lastHealthCheck := 6,
        healthy := false, sessionID := "" }).1 = "" :=
  (sessionID_never_assigned onceBackend testConfig
    [(.init, 5), (.check, 6), (.close, 7), (.reinit, 8)] freshClient
    { config := some testConfig, initialized := false, lastHealthCheck := 6,
      healthy := false, sessionID := "" }
    { backend := 0, calls := [] }
    { backend := 2, calls := [.init, .healthCheck, .healthCheck, .terminate, .init] }
    rfl rfl).1

end Vlock
